import Mathlib

/-!
Raw-deployment reconcilers of the inference-service controller

A shallow embedding of

* `reconcilers/service/service_reconciler.go`
  (`createService`, `semanticServiceEquals`, `checkServiceExist`, `Reconcile`), and
* `reconcilers/deployment/deployment_reconciler.go`
  (`createRawDeployment`, `GetKServeContainerPort`, `generateOauthProxyContainer`,
  `setDefaultPodSpec`, `setDefaultDeploymentSpec`, `checkDeploymentExist`, `Reconcile`).

Conventions of the embedding:

* Go `int32`/`int64` values are `Int`; the code never does arithmetic on them.
* A Go slice is a `List`. Go tells a slice without elements that is nil from one that is
  empty, and so does `cmp.Equal`, which the Deployment check uses; in the types it compares
  each slice field `xs` therefore comes with a flag `xsNonNil`, read only when the list has
  no element: `false` is the nil slice, `true` the empty one. The port slice of a Service is
  compared with `equality.Semantic.DeepEqual`, which does not tell them apart, and has no
  flag.
* A Go `map[string]string` is `Option (List (String × String))`: `none` is the nil map,
  reads take the first binding of a key, writes replace it or add one.
* A Go pointer to a struct is an `Option`.
* A run-time panic is the `Except.error` of a `Fault`.
* Only the fields of the Kubernetes types that the two files read or write (or that the
  tests of the package compare) are carried by name. The types that the Deployment check
  compares with `cmp.Equal` carry their remaining fields together, as `otherFields`: a
  rendering of those fields under which two values are equal exactly when `cmp.Equal` finds
  all of them equal; the empty text stands for remaining fields that all hold their zero
  value. No function of the two files reads or writes them.
-/

namespace KServe

/-! ## Go maps -/

/-- Bindings of a non-nil Go `map[string]string`. -/
abbrev Bindings := List (String × String)

/-- A Go `map[string]string`; `none` is the nil map. -/
abbrev GoMap := Option Bindings

/-- Read `m[k]` on the bindings of a map. -/
def Bindings.get : Bindings → String → Option String
  | [], _ => none
  | (k, v) :: rest, key => if k = key then some v else Bindings.get rest key

/-- Write `m[k] = v` on the bindings of a map. -/
def Bindings.set : Bindings → String → String → Bindings
  | [], key, val => [(key, val)]
  | (k, v) :: rest, key, val =>
    if k = key then (k, val) :: rest else (k, v) :: Bindings.set rest key val

/-- The two-valued read `val, ok := m[k]`; reading a nil map finds nothing. -/
def GoMap.get (m : GoMap) (key : String) : Option String :=
  match m with
  | none => none
  | some b => b.get key

/-- Run-time panics the two files can raise. -/
inductive Fault where
  | nilMapWrite
  | nilPointer
  | indexOutOfRange
  | mustParse
  deriving DecidableEq, Repr

/-- Equality of results is decidable when equality of faults and of values is. -/
instance instDecidableEqExcept {ε α : Type} [DecidableEq ε] [DecidableEq α] :
    DecidableEq (Except ε α)
  | Except.ok a, Except.ok b =>
    if h : a = b then isTrue (by rw [h]) else isFalse (fun hab => h (Except.ok.inj hab))
  | Except.error a, Except.error b =>
    if h : a = b then isTrue (by rw [h]) else isFalse (fun hab => h (Except.error.inj hab))
  | Except.ok _, Except.error _ => isFalse (fun hab => Except.noConfusion hab)
  | Except.error _, Except.ok _ => isFalse (fun hab => Except.noConfusion hab)

/-! ## Kubernetes API types -/

/-- Discriminator of `intstr.IntOrString` (`intstr.Int = 0`, `intstr.String = 1`). -/
inductive IntStrType where
  | int
  | string
  deriving DecidableEq, Repr

/-- The type `intstr.IntOrString`; the zero value has type int, 0 and "". -/
structure IntOrString where
  type : IntStrType := IntStrType.int
  intVal : Int := 0
  strVal : String := ""
  deriving DecidableEq, Repr

/-- The constructor `intstr.FromInt`. -/
def IntOrString.fromInt (n : Int) : IntOrString :=
  { type := IntStrType.int, intVal := n, strVal := "" }

/-- The type `metav1.ObjectMeta`. -/
structure ObjectMeta where
  name : String := ""
  ns : String := ""
  labels : GoMap := none
  annotations : GoMap := none
  otherFields : String := ""
  deriving DecidableEq, Repr

/-- The type `corev1.ContainerPort`. -/
structure ContainerPort where
  name : String := ""
  containerPort : Int := 0
  protocol : String := ""
  otherFields : String := ""
  deriving DecidableEq, Repr

/-- The type `corev1.ServicePort`. -/
structure ServicePort where
  name : String := ""
  protocol : String := ""
  port : Int := 0
  targetPort : IntOrString := {}
  deriving DecidableEq, Repr

/-- The type `corev1.TCPSocketAction`. -/
structure TCPSocketAction where
  port : IntOrString := {}
  otherFields : String := ""
  deriving DecidableEq, Repr

/-- The type `corev1.HTTPGetAction`. -/
structure HTTPGetAction where
  path : String := ""
  port : IntOrString := {}
  scheme : String := ""
  otherFields : String := ""
  deriving DecidableEq, Repr

/-- The type `corev1.ProbeHandler`. -/
structure ProbeHandler where
  httpGet : Option HTTPGetAction := none
  tcpSocket : Option TCPSocketAction := none
  otherFields : String := ""
  deriving DecidableEq, Repr

/-- The type `corev1.Probe`. -/
structure Probe where
  handler : ProbeHandler := {}
  initialDelaySeconds : Int := 0
  timeoutSeconds : Int := 0
  periodSeconds : Int := 0
  successThreshold : Int := 0
  failureThreshold : Int := 0
  otherFields : String := ""
  deriving DecidableEq, Repr

/-- A `resource.Quantity`, identified by its amount: `canonical` is the text of the amount in
one fixed rendering, so that two quantities of the embedding are equal exactly when `Cmp`
finds the Go quantities equal. -/
structure Quantity where
  canonical : String
  deriving DecidableEq, Repr

/-- The type `corev1.ResourceRequirements`; a resource list is a Go map from resource names
to quantities, held as its bindings, with a flag that tells the empty map from the nil map
when there is no binding. -/
structure ResourceRequirements where
  limits : List (String × Quantity) := []
  requests : List (String × Quantity) := []
  limitsNonNil : Bool := false
  requestsNonNil : Bool := false
  otherFields : String := ""
  deriving DecidableEq, Repr

/-- The type `corev1.VolumeMount`. -/
structure VolumeMount where
  name : String := ""
  mountPath : String := ""
  otherFields : String := ""
  deriving DecidableEq, Repr

/-- The type `corev1.Container`. -/
structure Container where
  name : String := ""
  image : String := ""
  command : List String := []
  args : List String := []
  ports : List ContainerPort := []
  resources : ResourceRequirements := {}
  livenessProbe : Option Probe := none
  readinessProbe : Option Probe := none
  volumeMounts : List VolumeMount := []
  terminationMessagePath : String := ""
  terminationMessagePolicy : String := ""
  imagePullPolicy : String := ""
  commandNonNil : Bool := false
  argsNonNil : Bool := false
  portsNonNil : Bool := false
  volumeMountsNonNil : Bool := false
  otherFields : String := ""
  deriving DecidableEq, Repr

/-- The type `corev1.SecretVolumeSource`. -/
structure SecretVolumeSource where
  secretName : String := ""
  defaultMode : Option Int := none
  otherFields : String := ""
  deriving DecidableEq, Repr

/-- The type `corev1.Volume` with the one volume source the code builds. -/
structure Volume where
  name : String := ""
  secret : Option SecretVolumeSource := none
  otherFields : String := ""
  deriving DecidableEq, Repr

/-- The type `corev1.PodSecurityContext`; the zero value has every field unset. -/
structure PodSecurityContext where
  runAsUser : Option Int := none
  runAsGroup : Option Int := none
  runAsNonRoot : Option Bool := none
  fsGroup : Option Int := none
  otherFields : String := ""
  deriving DecidableEq, Repr

/-- The type `corev1.PodSpec`. -/
structure PodSpec where
  containers : List Container := []
  volumes : List Volume := []
  dnsPolicy : String := ""
  restartPolicy : String := ""
  terminationGracePeriodSeconds : Option Int := none
  securityContext : Option PodSecurityContext := none
  schedulerName : String := ""
  serviceAccountName : String := ""
  containersNonNil : Bool := false
  volumesNonNil : Bool := false
  otherFields : String := ""
  deriving DecidableEq, Repr

/-- The type `corev1.PodTemplateSpec`. -/
structure PodTemplateSpec where
  meta : ObjectMeta := {}
  spec : PodSpec := {}
  deriving DecidableEq, Repr

/-- The type `appsv1.RollingUpdateDeployment`. -/
structure RollingUpdateDeployment where
  maxUnavailable : Option IntOrString := none
  maxSurge : Option IntOrString := none
  deriving DecidableEq, Repr

/-- The type `appsv1.DeploymentStrategy`. -/
structure DeploymentStrategy where
  type : String := ""
  rollingUpdate : Option RollingUpdateDeployment := none
  deriving DecidableEq, Repr

/-- The type `metav1.LabelSelector`. -/
structure LabelSelector where
  matchLabels : GoMap := none
  otherFields : String := ""
  deriving DecidableEq, Repr

/-- The type `appsv1.DeploymentSpec`, with all its fields. -/
structure DeploymentSpec where
  replicas : Option Int := none
  selector : Option LabelSelector := none
  template : PodTemplateSpec := {}
  strategy : DeploymentStrategy := {}
  revisionHistoryLimit : Option Int := none
  progressDeadlineSeconds : Option Int := none
  minReadySeconds : Int := 0
  paused : Bool := false
  deriving DecidableEq, Repr

/-- The type `appsv1.Deployment`. -/
structure Deployment where
  meta : ObjectMeta := {}
  spec : DeploymentSpec := {}
  deriving DecidableEq, Repr

/-- The type `corev1.ServiceSpec`. -/
structure ServiceSpec where
  ports : List ServicePort := []
  selector : GoMap := none
  clusterIP : String := ""
  type : String := ""
  deriving DecidableEq, Repr

/-- The type `corev1.Service`. -/
structure Service where
  meta : ObjectMeta := {}
  spec : ServiceSpec := {}
  deriving DecidableEq, Repr

/-- The type `corev1.ConfigMap`, reduced to its data. -/
structure ConfigMap where
  data : GoMap := none
  deriving DecidableEq, Repr

/-! ## Types of the serving API -/

/-- The type `v1beta1.Batcher`. -/
structure Batcher where
  maxBatchSize : Option Int := none
  maxLatency : Option Int := none
  timeout : Option Int := none
  deriving DecidableEq, Repr

/-- The type `v1beta1.LoggerSpec`. -/
structure LoggerSpec where
  url : Option String := none
  mode : String := ""
  deriving DecidableEq, Repr

/-- The type `v1beta1.ComponentExtensionSpec`. -/
structure ComponentExtensionSpec where
  minReplicas : Option Int := none
  maxReplicas : Int := 0
  batcher : Option Batcher := none
  logger : Option LoggerSpec := none
  deploymentStrategy : Option DeploymentStrategy := none
  deriving DecidableEq, Repr

/-! ## Constants -/

/-- Constants of package `constants` that the two files use, that are declared outside the
given sources and whose values the specification leaves open. They are parameters of the
development. -/
structure Constants where
  TransformerContainerName : String
  InferenceServiceContainerName : String
  InferenceServiceDefaultAgentPort : Int
  ODHKserveRawAuth : String
  OauthProxyImage : String
  OauthProxyResourceCPULimit : String
  OauthProxyResourceMemoryLimit : String
  OauthProxyResourceCPURequest : String
  OauthProxyResourceMemoryRequest : String
  KserveServiceAccountName : String
  deriving DecidableEq, Repr

/-- Modelled from the spec: `constants.CommonDefaultHttpPort` is declared outside the given
sources; the specification calls it the fixed common HTTP port, `port=80`. -/
def CommonDefaultHttpPort : Int := 80

/-- Modelled from the spec: `constants.InferenceServiceDefaultHttpPort` is declared outside the
given sources; it is the fixed default port, a string, of the scenario `80→8080`. -/
def InferenceServiceDefaultHttpPort : String := "8080"

/-- Modelled from the spec: `constants.OauthProxyPort` is declared outside the given sources;
the package test expects the HTTPS port 8443 (and the proxy listens on `:8443`). -/
def OauthProxyPort : Int := 8443

/-- Modelled from the spec: `constants.GetRawServiceLabel` is declared outside the given
sources; the selector label format is `isvc.<component-resource-name>`. -/
def GetRawServiceLabel (service : String) : String := "isvc." ++ service

/-- The Kubernetes constant `corev1.ProtocolTCP`. -/
def ProtocolTCP : String := "TCP"

/-- The Kubernetes constant `corev1.ClusterIPNone`. -/
def ClusterIPNone : String := "None"

/-- The Kubernetes constant `corev1.DNSClusterFirst`. -/
def DNSClusterFirst : String := "ClusterFirst"

/-- The Kubernetes constant `corev1.RestartPolicyAlways`. -/
def RestartPolicyAlways : String := "Always"

/-- The Kubernetes constant `corev1.DefaultTerminationGracePeriodSeconds`. -/
def DefaultTerminationGracePeriodSeconds : Int := 30

/-- The Kubernetes constant `corev1.DefaultSchedulerName`. -/
def DefaultSchedulerName : String := "default-scheduler"

/-- The Kubernetes constant `corev1.TerminationMessageReadFile`. -/
def TerminationMessageReadFile : String := "File"

/-- The Kubernetes constant `corev1.PullIfNotPresent`. -/
def PullIfNotPresent : String := "IfNotPresent"

/-- The Kubernetes constant `corev1.URISchemeHTTPS`. -/
def URISchemeHTTPS : String := "HTTPS"

/-- The Kubernetes constant `appsv1.RollingUpdateDeploymentStrategyType`. -/
def RollingUpdateDeploymentStrategyType : String := "RollingUpdate"

/-- The constant `tlsVolumeName` of the deployment reconciler. -/
def tlsVolumeName : String := "proxy-tls"

/-! ## Library functions -/

/-- Digits of `strconv.Atoi`, most significant first, folded into an accumulator. -/
def atoiDigits : List Char → Nat → Option Nat
  | [], acc => some acc
  | c :: cs, acc =>
    if c.isDigit then atoiDigits cs (acc * 10 + (c.toNat - 48)) else none

/-- The value `strconv.Atoi` returns for a decimal string with an optional sign; a syntax
error gives 0 (the code discards the error). -/
def Atoi (s : String) : Int :=
  match s.toList with
  | [] => 0
  | '-' :: ds => if ds = [] then 0 else -((atoiDigits ds 0).getD 0 : Nat)
  | '+' :: ds => if ds = [] then 0 else ((atoiDigits ds 0).getD 0 : Nat)
  | ds => ((atoiDigits ds 0).getD 0 : Nat)

/-- The function `strconv.Itoa`. -/
def Itoa (n : Int) : String := toString n

/-! ## Service reconciler: `createService` -/

/-- The loop of `createService` that replaces the chosen container by the first container
named `constants.TransformerContainerName`, and stops there. -/
def findTransformer (K : Constants) : List Container → Container → Container
  | [], container => container
  | c :: rest, container =>
    if c.name = K.TransformerContainerName then c else findTransformer K rest container

/-- The service port `createService` builds for `container.Ports[0]`. -/
def firstServicePort (p : ContainerPort) : ServicePort :=
  let servicePort : ServicePort :=
    { name := p.name
      port := CommonDefaultHttpPort
      targetPort := { type := IntStrType.int, intVal := p.containerPort }
      protocol := p.protocol }
  if servicePort.name = "" then { servicePort with name := "http" } else servicePort

/-- The service port `createService` builds for `container.Ports[i]`, `i ≥ 1`. -/
def nextServicePort (p : ContainerPort) : ServicePort :=
  let port : ContainerPort := if p.protocol = "" then { p with protocol := ProtocolTCP } else p
  { name := port.name
    port := port.containerPort
    targetPort := { type := IntStrType.int, intVal := port.containerPort }
    protocol := port.protocol }

/-- The service ports `createService` derives from the chosen container. -/
def containerServicePorts (componentMeta : ObjectMeta) (container : Container) :
    List ServicePort :=
  match container.ports with
  | p0 :: rest => firstServicePort p0 :: rest.map nextServicePort
  | [] =>
    [{ name := componentMeta.name
       port := CommonDefaultHttpPort
       targetPort := { type := IntStrType.int, intVal := Atoi InferenceServiceDefaultHttpPort }
       protocol := ProtocolTCP }]

/-- The service ports before the batcher and logger overrides. -/
def baseServicePorts (K : Constants) (componentMeta : ObjectMeta) (podSpec : PodSpec) :
    List ServicePort :=
  match podSpec.containers with
  | [] => []
  | c0 :: _ => containerServicePorts componentMeta (findTransformer K podSpec.containers c0)

/-- The assignment `servicePorts[0].TargetPort = t`, which panics on an empty slice. -/
def setFirstTargetPort (servicePorts : List ServicePort) (t : IntOrString) :
    Except Fault (List ServicePort) :=
  match servicePorts with
  | [] => Except.error Fault.indexOutOfRange
  | p :: rest => Except.ok ({ p with targetPort := t } :: rest)

/-- The target port of the agent sidecar. -/
def agentTargetPort (K : Constants) : IntOrString :=
  { type := IntStrType.int, intVal := K.InferenceServiceDefaultAgentPort }

/-- The test `componentExt != nil && componentExt.Batcher != nil`. -/
def hasBatcher (componentExt : Option ComponentExtensionSpec) : Bool :=
  match componentExt with
  | some ext => ext.batcher.isSome
  | none => false

/-- The test `componentExt != nil && componentExt.Logger != nil`. -/
def hasLogger (componentExt : Option ComponentExtensionSpec) : Bool :=
  match componentExt with
  | some ext => ext.logger.isSome
  | none => false

/-- The test `val, ok := componentMeta.Labels[constants.ODHKserveRawAuth]; ok && val == "true"`. -/
def authEnabled (K : Constants) (labels : GoMap) : Bool :=
  labels.get K.ODHKserveRawAuth = some "true"

/-- The HTTPS port `createService` appends in auth mode. -/
def httpsPort : ServicePort :=
  { name := "https"
    port := OauthProxyPort
    targetPort := { type := IntStrType.string, strVal := "https" }
    protocol := ProtocolTCP }

/-- The annotation key of the serving certificate. -/
def servingCertAnnotation : String := "service.beta.openshift.io/serving-cert-secret-name"

/-- The service ports after the batcher and logger overrides. -/
def overriddenServicePorts (K : Constants) (componentMeta : ObjectMeta)
    (componentExt : Option ComponentExtensionSpec) (podSpec : PodSpec) :
    Except Fault (List ServicePort) :=
  let servicePorts := baseServicePorts K componentMeta podSpec
  match (if hasBatcher componentExt then setFirstTargetPort servicePorts (agentTargetPort K)
         else Except.ok servicePorts) with
  | Except.error f => Except.error f
  | Except.ok servicePorts =>
    if hasLogger componentExt then setFirstTargetPort servicePorts (agentTargetPort K)
    else Except.ok servicePorts

/-- The function `createService`. The lines it prints are not part of the result. -/
def createService (K : Constants) (componentMeta : ObjectMeta)
    (componentExt : Option ComponentExtensionSpec) (podSpec : PodSpec) :
    Except Fault Service :=
  match overriddenServicePorts K componentMeta componentExt podSpec with
  | Except.error f => Except.error f
  | Except.ok servicePorts =>
    let service : Service :=
      { meta := componentMeta
        spec :=
          { selector := some [("app", GetRawServiceLabel componentMeta.name)]
            ports := servicePorts
            clusterIP := ClusterIPNone } }
    if authEnabled K componentMeta.labels then
      let annotations : Bindings := service.meta.annotations.getD []
      Except.ok
        { meta :=
            { service.meta with
              annotations := some (annotations.set servingCertAnnotation componentMeta.name) }
          spec := { service.spec with ports := service.spec.ports ++ [httpsPort] } }
    else Except.ok service

/-! ## Deployment reconciler: defaulting -/

/-- The TCP-socket readiness probe `setDefaultPodSpec` builds for a port. -/
def tcpReadinessProbe (port : Int) : Probe :=
  { handler := { tcpSocket := some { port := { intVal := port } } }
    timeoutSeconds := 1
    periodSeconds := 10
    successThreshold := 1
    failureThreshold := 3 }

/-- The body of the container loop of `setDefaultPodSpec`. -/
def setDefaultContainer (K : Constants) (c : Container) : Container :=
  let c := if c.terminationMessagePath = "" then
    { c with terminationMessagePath := "/dev/termination-log" } else c
  let c := if c.terminationMessagePolicy = "" then
    { c with terminationMessagePolicy := TerminationMessageReadFile } else c
  let c := if c.imagePullPolicy = "" then { c with imagePullPolicy := PullIfNotPresent } else c
  if c.name = K.InferenceServiceContainerName ∨ c.name = K.TransformerContainerName then
    if c.readinessProbe.isNone then
      match c.ports with
      | [] => { c with readinessProbe := some (tcpReadinessProbe 8080) }
      | p :: _ => { c with readinessProbe := some (tcpReadinessProbe p.containerPort) }
    else c
  else c

/-- The function `setDefaultPodSpec`, returning the pod spec it leaves behind. -/
def setDefaultPodSpec (K : Constants) (podSpec : PodSpec) : PodSpec :=
  let podSpec := if podSpec.dnsPolicy = "" then
    { podSpec with dnsPolicy := DNSClusterFirst } else podSpec
  let podSpec := if podSpec.restartPolicy = "" then
    { podSpec with restartPolicy := RestartPolicyAlways } else podSpec
  let podSpec := if podSpec.terminationGracePeriodSeconds.isNone then
    { podSpec with terminationGracePeriodSeconds := some DefaultTerminationGracePeriodSeconds }
    else podSpec
  let podSpec := if podSpec.securityContext.isNone then
    { podSpec with securityContext := some {} } else podSpec
  let podSpec := if podSpec.schedulerName = "" then
    { podSpec with schedulerName := DefaultSchedulerName } else podSpec
  { podSpec with containers := podSpec.containers.map (setDefaultContainer K) }

/-- The function `setDefaultDeploymentSpec`, returning the spec it leaves behind. -/
def setDefaultDeploymentSpec (K : Constants) (spec : DeploymentSpec) : DeploymentSpec :=
  let spec := if spec.strategy.type = "" then
    { spec with strategy := { spec.strategy with type := RollingUpdateDeploymentStrategyType } }
    else spec
  let spec :=
    if spec.strategy.type = RollingUpdateDeploymentStrategyType
        ∧ spec.strategy.rollingUpdate.isNone then
      { spec with
        strategy :=
          { spec.strategy with
            rollingUpdate := some
              { maxUnavailable := some { type := IntStrType.string, strVal := "25%" }
                maxSurge := some { type := IntStrType.string, strVal := "25%" } } } }
    else spec
  let spec := if spec.revisionHistoryLimit.isNone then
    { spec with revisionHistoryLimit := some 10 } else spec
  let spec := if spec.progressDeadlineSeconds.isNone then
    { spec with progressDeadlineSeconds := some 600 } else spec
  { spec with
    template :=
      { spec.template with
        spec := { spec.template.spec with serviceAccountName := K.KserveServiceAccountName } } }

/-! ## Deployment reconciler: the auth proxy -/

/-- A Go `error` value; `isNotFound` is what `apierr.IsNotFound` answers for it. -/
structure GoError where
  isNotFound : Bool := false
  message : String := ""
  deriving DecidableEq, Repr

/-- A value decoded by `encoding/json` into `interface{}`. The code only asks whether a value
is a string; the contents of arrays and objects are not carried. -/
inductive JsonValue where
  | null
  | bool (b : Bool)
  | number (text : String)
  | string (s : String)
  | array
  | object
  deriving DecidableEq, Repr

/-- Library functions of other modules that the deployment builder calls; they are parameters
of the development. `jsonUnmarshal` is `json.Unmarshal` into a `map[string]interface{}`
(an error message, or the decoded map), `parseQuantity` is `resource.ParseQuantity`
(`resource.MustParse` panics where it fails). -/
structure Lib where
  jsonUnmarshal : String → Except String (List (String × JsonValue))
  parseQuantity : String → Option Quantity

/-- The function `resource.MustParse`. -/
def MustParse (L : Lib) (str : String) : Except Fault Quantity :=
  match L.parseQuantity str with
  | some q => Except.ok q
  | none => Except.error Fault.mustParse

/-- Read `m[k]` on a decoded JSON object. -/
def jsonLookup : List (String × JsonValue) → String → Option JsonValue
  | [], _ => none
  | (k, v) :: rest, key => if k = key then some v else jsonLookup rest key

/-- The type assertion `str, ok := v.(string)`. -/
def stringAssertion (v : Option JsonValue) : String × Bool :=
  match v with
  | some (JsonValue.string s) => (s, true)
  | _ => ("", false)

/-- One statement `if str, ok := oauthData[key].(string); !ok { current = str }`. -/
def assignUnlessString (oauthData : List (String × JsonValue)) (key : String)
    (current : String) : String :=
  let r := stringAssertion (jsonLookup oauthData key)
  if !r.2 then r.1 else current

/-- The function `GetKServeContainerPort`, on the container list of the pod spec. -/
def GetKServeContainerPort : List Container → String
  | [] => ""
  | container :: rest =>
    if container.name = "kserve-container" then
      match container.ports with
      | p :: _ => Itoa p.containerPort
      | [] => GetKServeContainerPort rest
    else GetKServeContainerPort rest

/-- The five settings of the auth proxy: image, CPU limit, memory limit, CPU request and
memory request. -/
structure OauthSettings where
  image : String
  cpuLimit : String
  memoryLimit : String
  cpuRequest : String
  memoryRequest : String
  deriving DecidableEq, Repr

/-- The initial values of the five settings. -/
def defaultOauthSettings (K : Constants) : OauthSettings :=
  { image := K.OauthProxyImage
    cpuLimit := K.OauthProxyResourceCPULimit
    memoryLimit := K.OauthProxyResourceMemoryLimit
    cpuRequest := K.OauthProxyResourceCPURequest
    memoryRequest := K.OauthProxyResourceMemoryRequest }

/-- The five conditional assignments made once the `deploy` entry has been decoded. -/
def applyOauthData (oauthData : List (String × JsonValue)) (s : OauthSettings) :
    OauthSettings :=
  { image := assignUnlessString oauthData "image" s.image
    cpuLimit := assignUnlessString oauthData "cpuLimit" s.cpuLimit
    memoryLimit := assignUnlessString oauthData "memoryLimit" s.memoryLimit
    cpuRequest := assignUnlessString oauthData "cpuRequest" s.cpuRequest
    memoryRequest := assignUnlessString oauthData "memoryRequest" s.memoryRequest }

/-- The ten arguments of the proxy container. -/
def oauthProxyArgs (upstreamPort : String) (namespace_ : String) : List String :=
  [ "--https-address=:8443",
    "--provider=openshift",
    "--openshift-service-account=kserve-sa",
    "--upstream=http://localhost:" ++ upstreamPort,
    "--tls-cert=/etc/tls/private/tls.crt",
    "--tls-key=/etc/tls/private/tls.key",
    "--cookie-secret=SECRET",
    "--openshift-delegate-urls=\x7b\"/\": \x7b\"namespace\": \"" ++ namespace_
      ++ "\", \"resource\": \"services\", \"verb\": \"get\"\x7d\x7d",
    "--openshift-sar=\x7b\"namespace\": \"" ++ namespace_
      ++ "\", \"resource\": \"services\", \"verb\": \"get\"\x7d",
    "--skip-auth-regex=\"(^/metrics|^/apis/v1beta1/healthz)\"" ]

/-- The health probe of the proxy container with the given initial delay. -/
def oauthProbe (initialDelaySeconds : Int) : Probe :=
  { handler :=
      { httpGet := some
          { path := "/oauth/healthz"
            port := IntOrString.fromInt OauthProxyPort
            scheme := URISchemeHTTPS } }
    initialDelaySeconds := initialDelaySeconds
    timeoutSeconds := 1
    periodSeconds := 5
    successThreshold := 1
    failureThreshold := 3 }

/-- The container literal `generateOauthProxyContainer` returns; the four quantities are
parsed in the order of the literal and the first failure panics. -/
def oauthProxyContainer (L : Lib) (s : OauthSettings) (upstreamPort : String)
    (namespace_ : String) : Except Fault Container :=
  match MustParse L s.cpuLimit with
  | Except.error f => Except.error f
  | Except.ok cpuLimit =>
  match MustParse L s.memoryLimit with
  | Except.error f => Except.error f
  | Except.ok memoryLimit =>
  match MustParse L s.cpuRequest with
  | Except.error f => Except.error f
  | Except.ok cpuRequest =>
  match MustParse L s.memoryRequest with
  | Except.error f => Except.error f
  | Except.ok memoryRequest =>
    Except.ok
      { name := "oauth-proxy"
        args := oauthProxyArgs upstreamPort namespace_
        image := s.image
        ports := [{ containerPort := OauthProxyPort, name := "https" }]
        livenessProbe := some (oauthProbe 30)
        readinessProbe := some (oauthProbe 5)
        resources :=
          { limits := [("cpu", cpuLimit), ("memory", memoryLimit)]
            requests := [("cpu", cpuRequest), ("memory", memoryRequest)] }
        volumeMounts := [{ name := tlsVolumeName, mountPath := "/etc/tls/private" }] }

/-- The function `generateOauthProxyContainer`. The argument `cli` is what the cluster client
answers to the one `Get` of the inference-service ConfigMap; `configMapName` is
`constants.InferenceServiceConfigMapName`. The result is a panic, or the returned pair of a
container and an error (`none` is the nil error). -/
def generateOauthProxyContainer (L : Lib) (K : Constants) (configMapName : String)
    (cli : Except GoError ConfigMap) (upstreamPort : String) (namespace_ : String) :
    Except Fault (Container × Option GoError) :=
  let settings := defaultOauthSettings K
  match cli with
  | Except.ok inferenceServiceConfigMap =>
    match L.jsonUnmarshal ((inferenceServiceConfigMap.data.get "deploy").getD "") with
    | Except.error e =>
      Except.ok ({}, some
        { message := "error retrieving value for key 'oauthProxy' from configmap "
            ++ configMapName ++ ". " ++ e })
    | Except.ok oauthData =>
      match oauthProxyContainer L (applyOauthData oauthData settings) upstreamPort namespace_ with
      | Except.error f => Except.error f
      | Except.ok c => Except.ok (c, none)
  | Except.error _ =>
    match oauthProxyContainer L settings upstreamPort namespace_ with
    | Except.error f => Except.error f
    | Except.ok c => Except.ok (c, none)

/-! ## Deployment reconciler: `createRawDeployment` -/

/-- The TLS secret volume `createRawDeployment` appends in auth mode. -/
def tlsSecretVolume (componentMeta : ObjectMeta) : Volume :=
  { name := tlsVolumeName
    secret := some { secretName := componentMeta.name, defaultMode := some 420 } }

/-- The auth branch of `createRawDeployment`, on the defaulted pod spec. -/
def injectOauthProxy (L : Lib) (K : Constants) (configMapName : String)
    (cli : Except GoError ConfigMap) (componentMeta : ObjectMeta) (podSpec : PodSpec) :
    Except Fault PodSpec :=
  let port := GetKServeContainerPort podSpec.containers
  let kserveContainerPort := if port = "" then InferenceServiceDefaultHttpPort else port
  match generateOauthProxyContainer L K configMapName cli kserveContainerPort
      componentMeta.ns with
  | Except.error f => Except.error f
  | Except.ok (oauthProxyContainer, err) =>
    let podSpec :=
      if err.isSome then
        { podSpec with containers := podSpec.containers ++ [oauthProxyContainer] }
      else podSpec
    Except.ok { podSpec with volumes := podSpec.volumes ++ [tlsSecretVolume componentMeta] }

/-- The component metadata after `podMetadata.Labels["app"] = ...`. The label map is shared
by `podMetadata` and `componentMeta`, so the write shows in both. -/
def withAppLabel (componentMeta : ObjectMeta) (labels : Bindings) : ObjectMeta :=
  { componentMeta with labels := some (labels.set "app" (GetRawServiceLabel componentMeta.name)) }

/-- The conditional around the auth branch of `createRawDeployment`. -/
def authPodSpec (L : Lib) (K : Constants) (configMapName : String)
    (cli : Except GoError ConfigMap) (componentMeta : ObjectMeta) (podSpec : PodSpec) :
    Except Fault PodSpec :=
  if authEnabled K componentMeta.labels then
    injectOauthProxy L K configMapName cli componentMeta podSpec
  else Except.ok podSpec

/-- The Deployment literal of `createRawDeployment`, the strategy override and the
defaulting of the spec, once `componentExt` is known not to be nil. -/
def assembleDeployment (K : Constants) (componentMeta podMetadata : ObjectMeta)
    (ext : ComponentExtensionSpec) (podSpec : PodSpec) : Deployment :=
  let deployment : Deployment :=
    { meta := componentMeta
      spec :=
        { selector := some
            { matchLabels := some [("app", GetRawServiceLabel componentMeta.name)] }
          template := { meta := podMetadata, spec := podSpec } } }
  let deployment : Deployment :=
    match ext.deploymentStrategy with
    | some strategy => { deployment with spec := { deployment.spec with strategy := strategy } }
    | none => deployment
  { deployment with spec := setDefaultDeploymentSpec K deployment.spec }

/-- The function `createRawDeployment`. It panics on a nil label map at the write of the
`app` label, inside the auth branch where `resource.MustParse` does, and on a nil
`componentExt` at the read of its deployment strategy. -/
def createRawDeployment (L : Lib) (K : Constants) (configMapName : String)
    (cli : Except GoError ConfigMap) (componentMeta : ObjectMeta)
    (componentExt : Option ComponentExtensionSpec) (podSpec : PodSpec) :
    Except Fault Deployment :=
  match componentMeta.labels with
  | none => Except.error Fault.nilMapWrite
  | some labels =>
    let componentMeta := withAppLabel componentMeta labels
    let podMetadata := componentMeta
    match authPodSpec L K configMapName cli componentMeta (setDefaultPodSpec K podSpec) with
    | Except.error f => Except.error f
    | Except.ok podSpec =>
      match componentExt with
      | none => Except.error Fault.nilPointer
      | some ext => Except.ok (assembleDeployment K componentMeta podMetadata ext podSpec)

/-! ## The cluster client -/

/-- The type `types.NamespacedName`. -/
structure NamespacedName where
  ns : String
  name : String
  deriving DecidableEq, Repr

/-- The type `constants.CheckResultType`. -/
inductive CheckResultType where
  | CheckResultCreate
  | CheckResultUpdate
  | CheckResultExisted
  | CheckResultUnknown
  deriving DecidableEq, Repr

/-- A call issued to the cluster client. -/
inductive Call (α : Type) where
  | get (key : NamespacedName)
  | dryRunUpdate (obj : α)
  | create (obj : α)
  | update (obj : α)
  deriving DecidableEq, Repr

/-- The cluster client (`client.Client`) for one kind of object, over a cluster state `σ`.
`get` fetches by key. `dryRunUpdate` is `Update` with `DryRunAll`: it persists nothing and
answers the object as the server would store it, which the client writes into the object it
was given. `create` and `update` answer the stored object or an error, and the next state. -/
structure Client (σ α : Type) where
  get : σ → NamespacedName → Except GoError α
  dryRunUpdate : σ → α → Except GoError α
  create : σ → α → Except GoError α × σ
  update : σ → α → Except GoError α × σ

/-- What an existence check returns: the check result, the live object, the error, and with
them the reconciler's own object after the check and the calls issued. -/
structure CheckOutcome (α : Type) where
  result : CheckResultType
  existing : Option α
  err : Option GoError
  desired : α
  calls : List (Call α)

/-- What `Reconcile` returns: the object, the error, and with them the cluster state left
behind and the calls issued. -/
structure ReconcileOutcome (σ α : Type) where
  value : Option α
  err : Option GoError
  state : σ
  calls : List (Call α)

/-- The switch of `Reconcile` that follows a check without error; it is the same in both
reconcilers. -/
def applyCheck {σ α : Type} (client : Client σ α) (s : σ) (chk : CheckOutcome α) :
    ReconcileOutcome σ α :=
  match chk.result with
  | CheckResultType.CheckResultCreate =>
    match client.create s chk.desired with
    | (Except.error opErr, s1) =>
      { value := none, err := some opErr, state := s1,
        calls := chk.calls ++ [Call.create chk.desired] }
    | (Except.ok stored, s1) =>
      { value := some stored, err := none, state := s1,
        calls := chk.calls ++ [Call.create chk.desired] }
  | CheckResultType.CheckResultUpdate =>
    match client.update s chk.desired with
    | (Except.error opErr, s1) =>
      { value := none, err := some opErr, state := s1,
        calls := chk.calls ++ [Call.update chk.desired] }
    | (Except.ok stored, s1) =>
      { value := some stored, err := none, state := s1,
        calls := chk.calls ++ [Call.update chk.desired] }
  | _ => { value := chk.existing, err := none, state := s, calls := chk.calls }

/-- The body of `Reconcile` after the existence check; it is the same in both reconcilers. -/
def reconcileWith {σ α : Type} (client : Client σ α) (s : σ) (chk : CheckOutcome α) :
    ReconcileOutcome σ α :=
  match chk.err with
  | some err => { value := none, err := some err, state := s, calls := chk.calls }
  | none => applyCheck client s chk

/-! ## Deployment reconciler: check and reconcile -/

/-- The comparison `cmp.Equal` of go-cmp on two `map[string]string`: both nil, or both not
nil with the same keys and the same value under each key; the order of the bindings plays no
part. -/
def GoMap.cmpEqual (a b : GoMap) : Bool :=
  match a, b with
  | none, none => true
  | some x, some y =>
    x.all (fun kv => decide (y.get kv.1 = x.get kv.1))
      && y.all (fun kv => decide (x.get kv.1 = y.get kv.1))
  | _, _ => false

/-- Read `m[k]` on the bindings of a resource list. -/
def resourceListGet : List (String × Quantity) → String → Option Quantity
  | [], _ => none
  | (k, v) :: rest, key => if k = key then some v else resourceListGet rest key

/-- The comparison `cmp.Equal` on two resource lists, with the comparer of `kmp` for the
quantities: both nil, or both not nil with the same keys and under each key quantities that
`Cmp` finds equal. -/
def resourceListCmpEqual (a : List (String × Quantity)) (aNonNil : Bool)
    (b : List (String × Quantity)) (bNonNil : Bool) : Bool :=
  a.all (fun kv => decide (resourceListGet b kv.1 = resourceListGet a kv.1))
    && b.all (fun kv => decide (resourceListGet a kv.1 = resourceListGet b kv.1))
    && (!(a.isEmpty && b.isEmpty) || aNonNil == bNonNil)

/-- Two lists of the same length whose elements at each index are equal under `eq`. -/
def elementsCmpEqual {α : Type} (eq : α → α → Bool) : List α → List α → Bool
  | [], [] => true
  | x :: xs, y :: ys => eq x y && elementsCmpEqual eq xs ys
  | _, _ => false

/-- The comparison `cmp.Equal` on two slices whose elements it compares by `eq`: both nil, or
both not nil with the same length and equal elements at each index. -/
def sliceCmpEqual {α : Type} (eq : α → α → Bool) (a : List α) (aNonNil : Bool)
    (b : List α) (bNonNil : Bool) : Bool :=
  elementsCmpEqual eq a b && (!a.isEmpty || aNonNil == bNonNil)

/-- The comparison `cmp.Equal` on two `corev1.ResourceRequirements`. -/
def ResourceRequirements.cmpEqual (a b : ResourceRequirements) : Bool :=
  resourceListCmpEqual a.limits a.limitsNonNil b.limits b.limitsNonNil
    && resourceListCmpEqual a.requests a.requestsNonNil b.requests b.requestsNonNil
    && decide (a.otherFields = b.otherFields)

/-- The comparison `cmp.Equal` on two containers, field by field; a pointer field is equal
when both pointers are nil or both point to equal values. -/
def Container.cmpEqual (a b : Container) : Bool :=
  decide (a.name = b.name) && decide (a.image = b.image)
    && sliceCmpEqual (fun x y => decide (x = y)) a.command a.commandNonNil
        b.command b.commandNonNil
    && sliceCmpEqual (fun x y => decide (x = y)) a.args a.argsNonNil b.args b.argsNonNil
    && sliceCmpEqual (fun x y => decide (x = y)) a.ports a.portsNonNil b.ports b.portsNonNil
    && ResourceRequirements.cmpEqual a.resources b.resources
    && decide (a.livenessProbe = b.livenessProbe)
    && decide (a.readinessProbe = b.readinessProbe)
    && sliceCmpEqual (fun x y => decide (x = y)) a.volumeMounts a.volumeMountsNonNil
        b.volumeMounts b.volumeMountsNonNil
    && decide (a.terminationMessagePath = b.terminationMessagePath)
    && decide (a.terminationMessagePolicy = b.terminationMessagePolicy)
    && decide (a.imagePullPolicy = b.imagePullPolicy)
    && decide (a.otherFields = b.otherFields)

/-- The comparison `cmp.Equal` on two pod specs. -/
def PodSpec.cmpEqual (a b : PodSpec) : Bool :=
  sliceCmpEqual Container.cmpEqual a.containers a.containersNonNil
      b.containers b.containersNonNil
    && sliceCmpEqual (fun x y => decide (x = y)) a.volumes a.volumesNonNil
        b.volumes b.volumesNonNil
    && decide (a.dnsPolicy = b.dnsPolicy)
    && decide (a.restartPolicy = b.restartPolicy)
    && decide (a.terminationGracePeriodSeconds = b.terminationGracePeriodSeconds)
    && decide (a.securityContext = b.securityContext)
    && decide (a.schedulerName = b.schedulerName)
    && decide (a.serviceAccountName = b.serviceAccountName)
    && decide (a.otherFields = b.otherFields)

/-- The comparison `cmp.Equal` on two `metav1.ObjectMeta`. -/
def ObjectMeta.cmpEqual (a b : ObjectMeta) : Bool :=
  decide (a.name = b.name) && decide (a.ns = b.ns)
    && GoMap.cmpEqual a.labels b.labels
    && GoMap.cmpEqual a.annotations b.annotations
    && decide (a.otherFields = b.otherFields)

/-- The comparison `cmp.Equal` on two pod templates. -/
def PodTemplateSpec.cmpEqual (a b : PodTemplateSpec) : Bool :=
  ObjectMeta.cmpEqual a.meta b.meta && PodSpec.cmpEqual a.spec b.spec

/-- The comparison `cmp.Equal` on two pointers to a label selector. -/
def selectorCmpEqual (a b : Option LabelSelector) : Bool :=
  match a, b with
  | none, none => true
  | some x, some y =>
    GoMap.cmpEqual x.matchLabels y.matchLabels && decide (x.otherFields = y.otherFields)
  | _, _ => false

/-- The comparison `cmp.Equal` on two Deployment specs under the option
`cmpopts.IgnoreFields(appsv1.DeploymentSpec{}, "Replicas")`: every field but `Replicas`. -/
def DeploymentSpec.cmpEqualIgnoringReplicas (a b : DeploymentSpec) : Bool :=
  selectorCmpEqual a.selector b.selector
    && PodTemplateSpec.cmpEqual a.template b.template
    && decide (a.strategy = b.strategy)
    && decide (a.minReadySeconds = b.minReadySeconds)
    && decide (a.revisionHistoryLimit = b.revisionHistoryLimit)
    && decide (a.paused = b.paused)
    && decide (a.progressDeadlineSeconds = b.progressDeadlineSeconds)

/-- The test `diff != ""` on `kmp.SafeDiff(desired, existing, ignoreFields)` with
`ignoreFields = cmpopts.IgnoreFields(appsv1.DeploymentSpec{}, "Replicas")`. The text of
`cmp.Diff` is empty exactly when `cmp.Equal` holds under the same options, and
`kmp.SafeDiff` adds the comparer of quantities; it answers an error only when the
comparison panics, which it does not on these types, so that branch is not carried. -/
def deploymentSpecDiffers (desired existing : DeploymentSpec) : Bool :=
  !DeploymentSpec.cmpEqualIgnoringReplicas desired existing

/-- The method `DeploymentReconciler.checkDeploymentExist`. -/
def checkDeploymentExist {σ : Type} (client : Client σ Deployment) (s : σ)
    (deployment : Deployment) : CheckOutcome Deployment :=
  let key : NamespacedName := { ns := deployment.meta.ns, name := deployment.meta.name }
  match client.get s key with
  | Except.error err =>
    if err.isNotFound then
      { result := CheckResultType.CheckResultCreate, existing := none, err := none,
        desired := deployment, calls := [Call.get key] }
    else
      { result := CheckResultType.CheckResultUnknown, existing := none, err := some err,
        desired := deployment, calls := [Call.get key] }
  | Except.ok existingDeployment =>
    match client.dryRunUpdate s deployment with
    | Except.error err =>
      { result := CheckResultType.CheckResultUnknown, existing := none, err := some err,
        desired := deployment, calls := [Call.get key, Call.dryRunUpdate deployment] }
    | Except.ok populated =>
      if deploymentSpecDiffers populated.spec existingDeployment.spec then
        { result := CheckResultType.CheckResultUpdate, existing := some existingDeployment,
          err := none, desired := populated,
          calls := [Call.get key, Call.dryRunUpdate deployment] }
      else
        { result := CheckResultType.CheckResultExisted, existing := some existingDeployment,
          err := none, desired := populated,
          calls := [Call.get key, Call.dryRunUpdate deployment] }

/-- The method `DeploymentReconciler.Reconcile`. -/
def DeploymentReconciler.Reconcile {σ : Type} (client : Client σ Deployment) (s : σ)
    (deployment : Deployment) : ReconcileOutcome σ Deployment :=
  reconcileWith client s (checkDeploymentExist client s deployment)

/-! ## Service reconciler: check and reconcile -/

/-- The call `equality.Semantic.DeepEqual` on two `map[string]string`: the same keys with
the same values, a nil map being equal to an empty one. -/
def mapSemanticEqual (a b : GoMap) : Bool :=
  let x : Bindings := a.getD []
  let y : Bindings := b.getD []
  x.all (fun kv => decide (y.get kv.1 = x.get kv.1))
    && y.all (fun kv => decide (x.get kv.1 = y.get kv.1))

/-- The function `semanticServiceEquals`; two port slices are deeply equal when they hold
equal ports in the same order. -/
def semanticServiceEquals (desired existing : Service) : Bool :=
  decide (desired.spec.ports = existing.spec.ports)
    && mapSemanticEqual desired.spec.selector existing.spec.selector

/-- The method `ServiceReconciler.checkServiceExist`. -/
def checkServiceExist {σ : Type} (client : Client σ Service) (s : σ) (service : Service) :
    CheckOutcome Service :=
  let key : NamespacedName := { ns := service.meta.ns, name := service.meta.name }
  match client.get s key with
  | Except.error err =>
    if err.isNotFound then
      { result := CheckResultType.CheckResultCreate, existing := none, err := none,
        desired := service, calls := [Call.get key] }
    else
      { result := CheckResultType.CheckResultUnknown, existing := none, err := some err,
        desired := service, calls := [Call.get key] }
  | Except.ok existingService =>
    if semanticServiceEquals service existingService then
      { result := CheckResultType.CheckResultExisted, existing := some existingService,
        err := none, desired := service, calls := [Call.get key] }
    else
      { result := CheckResultType.CheckResultUpdate, existing := some existingService,
        err := none, desired := service, calls := [Call.get key] }

/-- The method `ServiceReconciler.Reconcile`. -/
def ServiceReconciler.Reconcile {σ : Type} (client : Client σ Service) (s : σ)
    (service : Service) : ReconcileOutcome σ Service :=
  reconcileWith client s (checkServiceExist client s service)

/-! ## A cluster that stores objects as submitted -/

/-- The stored objects of one kind, by key. -/
abbrev Store (α : Type) := List (NamespacedName × α)

/-- Fetch an object of the store by key. -/
def Store.find {α : Type} : Store α → NamespacedName → Option α
  | [], _ => none
  | (k, v) :: rest, key => if k = key then some v else Store.find rest key

/-- Replace the object stored under a key, or add it. -/
def Store.put {α : Type} : Store α → NamespacedName → α → Store α
  | [], key, obj => [(key, obj)]
  | (k, v) :: rest, key, obj =>
    if k = key then (k, obj) :: rest else (k, v) :: Store.put rest key obj

/-- Modelled from the spec: the API server is not part of the sources; this is the model
cluster of the idempotence property, which stores every object exactly as submitted. A fetch
of a missing key is a not-found error, a create of a present key and an update of a missing
key fail, and a dry-run update answers the submitted object unchanged. -/
def storeClient {α : Type} (keyOf : α → NamespacedName) : Client (Store α) α :=
  { get := fun s key =>
      match s.find key with
      | some obj => Except.ok obj
      | none => Except.error { isNotFound := true, message := "not found" }
    dryRunUpdate := fun s obj =>
      match s.find (keyOf obj) with
      | some _ => Except.ok obj
      | none => Except.error { isNotFound := true, message := "not found" }
    create := fun s obj =>
      match s.find (keyOf obj) with
      | some _ => (Except.error { isNotFound := false, message := "already exists" }, s)
      | none => (Except.ok obj, s.put (keyOf obj) obj)
    update := fun s obj =>
      match s.find (keyOf obj) with
      | some _ => (Except.ok obj, s.put (keyOf obj) obj)
      | none => (Except.error { isNotFound := true, message := "not found" }, s) }

/-- The key of a Deployment. -/
def deploymentKey (d : Deployment) : NamespacedName := { ns := d.meta.ns, name := d.meta.name }

/-- The key of a Service. -/
def serviceKey (svc : Service) : NamespacedName := { ns := svc.meta.ns, name := svc.meta.name }

/-! ## Concrete parameters for the scenarios of the package test -/

/-- A choice of the open constants, used to evaluate the builders on concrete inputs. -/
def demoConstants : Constants :=
  { TransformerContainerName := "transformer-container"
    InferenceServiceContainerName := "kserve-container"
    InferenceServiceDefaultAgentPort := 9081
    ODHKserveRawAuth := "security.opendatahub.io/enable-auth"
    OauthProxyImage := "oauth-proxy-image"
    OauthProxyResourceCPULimit := "200m"
    OauthProxyResourceMemoryLimit := "128Mi"
    OauthProxyResourceCPURequest := "100m"
    OauthProxyResourceMemoryRequest := "64Mi"
    KserveServiceAccountName := "kserve-sa" }

/-- A choice of the library functions, used to evaluate the builders on concrete inputs: the
empty string is not JSON and is not a quantity, the text of an empty object decodes to the
empty map, and any non-empty text is taken as a quantity. -/
def demoLib : Lib :=
  { jsonUnmarshal := fun data =>
      if data = "" then Except.error "unexpected end of JSON input"
      else if data = "\x7b\x7d" then Except.ok []
      else Except.error "not decoded here"
    parseQuantity := fun str => if str = "" then none else some { canonical := str } }

/-- The ConfigMap the package test creates: it has no `deploy` entry. -/
def testConfigMap : ConfigMap :=
  { data := some [("explainers", "..."), ("ingress", "..."), ("storageInitializer", "...")] }

/-- The text of a `deploy` entry that gives a string for each of the five proxy settings. -/
def configuredDeployText : String :=
  "\x7b\"image\": \"custom-proxy-image\", \"cpuLimit\": \"500m\", \"memoryLimit\": \"256Mi\", "
    ++ "\"cpuRequest\": \"250m\", \"memoryRequest\": \"96Mi\"\x7d"

/-- A ConfigMap whose `deploy` entry configures the five proxy settings. -/
def configuredConfigMap : ConfigMap :=
  { data := some [("deploy", configuredDeployText)] }

/-- A choice of the library functions that decodes the text of `configuredDeployText` as
`encoding/json` does, and otherwise behaves as `demoLib`. -/
def configuredLib : Lib :=
  { jsonUnmarshal := fun data =>
      if data = configuredDeployText then
        Except.ok
          [("image", JsonValue.string "custom-proxy-image"),
           ("cpuLimit", JsonValue.string "500m"),
           ("memoryLimit", JsonValue.string "256Mi"),
           ("cpuRequest", JsonValue.string "250m"),
           ("memoryRequest", JsonValue.string "96Mi")]
      else demoLib.jsonUnmarshal data
    parseQuantity := demoLib.parseQuantity }

/-- A cluster client every call of which fails with the given error and changes nothing. -/
def brokenClient {α : Type} (e : GoError) : Client Unit α :=
  { get := fun _ _ => Except.error e
    dryRunUpdate := fun _ _ => Except.error e
    create := fun s _ => (Except.error e, s)
    update := fun s _ => (Except.error e, s) }

/-- Whether a decoded value is there and is a JSON string, that is whether the type
assertion `.(string)` on it succeeds. -/
def isJsonString (v : Option JsonValue) : Bool :=
  match v with
  | some (JsonValue.string _) => true
  | _ => false

/-- The text of a `deploy` entry whose `image` is a number and whose four resource settings
are strings. -/
def numericImageDeployText : String :=
  "\x7b\"image\": 5, \"cpuLimit\": \"500m\", \"memoryLimit\": \"256Mi\", "
    ++ "\"cpuRequest\": \"250m\", \"memoryRequest\": \"96Mi\"\x7d"

/-- A ConfigMap whose `deploy` entry is `numericImageDeployText`. -/
def numericImageConfigMap : ConfigMap :=
  { data := some [("deploy", numericImageDeployText)] }

/-- A choice of the library functions that decodes the text of `numericImageDeployText` as
`encoding/json` does, and otherwise behaves as `demoLib`. -/
def numericImageLib : Lib :=
  { jsonUnmarshal := fun data =>
      if data = numericImageDeployText then
        Except.ok
          [("image", JsonValue.number "5"),
           ("cpuLimit", JsonValue.string "500m"),
           ("memoryLimit", JsonValue.string "256Mi"),
           ("cpuRequest", JsonValue.string "250m"),
           ("memoryRequest", JsonValue.string "96Mi")]
      else demoLib.jsonUnmarshal data
    parseQuantity := demoLib.parseQuantity }

/-! ## Lemmas on maps and stores -/

theorem Bindings.get_set_self (b : Bindings) (key val : String) :
    (b.set key val).get key = some val := by
  induction b with
  | nil => simp [Bindings.set, Bindings.get]
  | cons kv rest ih =>
    obtain ⟨k, v⟩ := kv
    by_cases h : k = key
    · simp [Bindings.set, Bindings.get, h]
    · simp [Bindings.set, Bindings.get, h, ih]

theorem Bindings.get_set_other (b : Bindings) (key val other : String) (h : key ≠ other) :
    (b.set key val).get other = b.get other := by
  induction b with
  | nil => simp [Bindings.set, Bindings.get, h]
  | cons kv rest ih =>
    obtain ⟨k, v⟩ := kv
    by_cases hk : k = key
    · subst hk
      simp [Bindings.set, Bindings.get, h]
    · by_cases ho : k = other
      · subst ho
        simp [Bindings.set, Bindings.get, hk]
      · simp [Bindings.set, Bindings.get, hk, ho, ih]

theorem Store.find_put_self {α : Type} (s : Store α) (key : NamespacedName) (obj : α) :
    (s.put key obj).find key = some obj := by
  induction s with
  | nil => simp [Store.put, Store.find]
  | cons kv rest ih =>
    obtain ⟨k, v⟩ := kv
    by_cases h : k = key
    · simp [Store.put, Store.find, h]
    · simp [Store.put, Store.find, h, ih]

theorem mapSemanticEqual_self (m : GoMap) : mapSemanticEqual m m = true := by
  simp [mapSemanticEqual]

/-! ## Lemmas on `createService` -/

theorem overriddenServicePorts_plain (K : Constants) (componentMeta : ObjectMeta)
    (componentExt : Option ComponentExtensionSpec) (podSpec : PodSpec)
    (hb : hasBatcher componentExt = false) (hl : hasLogger componentExt = false) :
    overriddenServicePorts K componentMeta componentExt podSpec
      = Except.ok (baseServicePorts K componentMeta podSpec) := by
  simp [overriddenServicePorts, hb, hl]

theorem overriddenServicePorts_labels (K : Constants) (componentMeta : ObjectMeta)
    (labels : GoMap) (componentExt : Option ComponentExtensionSpec) (podSpec : PodSpec) :
    overriddenServicePorts K { componentMeta with labels := labels } componentExt podSpec
      = overriddenServicePorts K componentMeta componentExt podSpec := by
  simp [overriddenServicePorts, baseServicePorts, containerServicePorts]

theorem createService_ok_iff (K : Constants) (componentMeta : ObjectMeta)
    (componentExt : Option ComponentExtensionSpec) (podSpec : PodSpec) (svc : Service) :
    createService K componentMeta componentExt podSpec = Except.ok svc ↔
      ∃ servicePorts,
        overriddenServicePorts K componentMeta componentExt podSpec = Except.ok servicePorts ∧
        svc =
          (if authEnabled K componentMeta.labels then
            { meta :=
                { componentMeta with
                  annotations := some (Bindings.set (componentMeta.annotations.getD [])
                    servingCertAnnotation componentMeta.name) }
              spec :=
                { selector := some [("app", GetRawServiceLabel componentMeta.name)]
                  ports := servicePorts ++ [httpsPort]
                  clusterIP := ClusterIPNone } }
          else
            { meta := componentMeta
              spec :=
                { selector := some [("app", GetRawServiceLabel componentMeta.name)]
                  ports := servicePorts
                  clusterIP := ClusterIPNone } }) := by
  unfold createService
  cases h : overriddenServicePorts K componentMeta componentExt podSpec with
  | error f => simp
  | ok servicePorts =>
    by_cases ha : authEnabled K componentMeta.labels = true
    · simp [ha, eq_comm]
    · simp [ha, eq_comm]

theorem hasBatcher_false_of (componentExt : Option ComponentExtensionSpec)
    (h : ∀ ext, componentExt = some ext → ext.batcher = none ∧ ext.logger = none) :
    hasBatcher componentExt = false := by
  cases componentExt with
  | none => rfl
  | some ext => simp [hasBatcher, (h ext rfl).1]

theorem hasLogger_false_of (componentExt : Option ComponentExtensionSpec)
    (h : ∀ ext, componentExt = some ext → ext.batcher = none ∧ ext.logger = none) :
    hasLogger componentExt = false := by
  cases componentExt with
  | none => rfl
  | some ext => simp [hasLogger, (h ext rfl).2]

theorem overriddenServicePorts_cons (K : Constants) (componentMeta : ObjectMeta)
    (componentExt : Option ComponentExtensionSpec) (podSpec : PodSpec)
    (sp : ServicePort) (sps : List ServicePort)
    (h : baseServicePorts K componentMeta podSpec = sp :: sps) :
    overriddenServicePorts K componentMeta componentExt podSpec
      = Except.ok
          ({ sp with
             targetPort :=
               if hasBatcher componentExt = true ∨ hasLogger componentExt = true then
                 agentTargetPort K
               else sp.targetPort } :: sps) := by
  unfold overriddenServicePorts
  cases hb : hasBatcher componentExt <;> cases hl : hasLogger componentExt <;>
    simp [h, setFirstTargetPort]

theorem baseServicePorts_cons (K : Constants) (componentMeta : ObjectMeta) (podSpec : PodSpec)
    (c0 : Container) (rest : List Container) (hc : podSpec.containers = c0 :: rest) :
    baseServicePorts K componentMeta podSpec
      = containerServicePorts componentMeta (findTransformer K podSpec.containers c0) := by
  simp [baseServicePorts, hc]

theorem authEnabled_eq_false (K : Constants) (labels : GoMap)
    (h : labels.get K.ODHKserveRawAuth ≠ some "true") : authEnabled K labels = false := by
  simp [authEnabled, h]

theorem authEnabled_eq_true (K : Constants) (labels : GoMap)
    (h : labels.get K.ODHKserveRawAuth = some "true") : authEnabled K labels = true := by
  simp [authEnabled, h]

/-! ## Properties of the Service builder -/

/-- C3: when the labels of `componentMeta` carry the auth flag with value "true", the ports of
the Service built by `createService` are the ports built for the same input under any label
map without the flag, followed by the one port named "https" (port 8443, target port the
name "https", protocol TCP), and the serving-cert annotation equals `componentMeta.Name`. -/
theorem createService_auth_appends_https (K : Constants) (componentMeta : ObjectMeta)
    (plainLabels : GoMap) (componentExt : Option ComponentExtensionSpec) (podSpec : PodSpec)
    (svc : Service)
    (hauth : componentMeta.labels.get K.ODHKserveRawAuth = some "true")
    (hplain : plainLabels.get K.ODHKserveRawAuth ≠ some "true")
    (hsvc : createService K componentMeta componentExt podSpec = Except.ok svc) :
    ∃ plain : Service,
      createService K { componentMeta with labels := plainLabels } componentExt podSpec
        = Except.ok plain ∧
      svc.spec.ports = plain.spec.ports ++
        [{ name := "https", protocol := "TCP", port := 8443,
           targetPort := { type := IntStrType.string, intVal := 0, strVal := "https" } }] ∧
      svc.meta.annotations.get "service.beta.openshift.io/serving-cert-secret-name"
        = some componentMeta.name := by
  obtain ⟨servicePorts, hports, hs⟩ := (createService_ok_iff K componentMeta componentExt podSpec svc).1 hsvc
  rw [if_pos (authEnabled_eq_true K _ hauth)] at hs
  refine ⟨{ meta := { componentMeta with labels := plainLabels }
            spec := { selector := some [("app", GetRawServiceLabel componentMeta.name)]
                      ports := servicePorts
                      clusterIP := ClusterIPNone } }, ?_, ?_, ?_⟩
  · rw [createService_ok_iff]
    refine ⟨servicePorts, ?_, ?_⟩
    · rw [overriddenServicePorts_labels]; exact hports
    · rw [if_neg]
      simpa using authEnabled_eq_false K plainLabels hplain
  · subst hs
    rfl
  · subst hs
    exact Bindings.get_set_self _ _ _

/-- C3, an instance: the component "raw-foo-predictor" with the auth label and one container
declaring port 8080. -/
theorem createService_auth_appends_https_witness :
    ∃ plain : Service,
      createService demoConstants
          { name := "raw-foo-predictor", ns := "default", labels := some [] } none
          { containers := [{ name := "kserve-container", ports := [{ containerPort := 8080 }] }] }
        = Except.ok plain ∧
      plain.spec.ports.length = 1 :=
  have h := createService_auth_appends_https demoConstants
    { name := "raw-foo-predictor", ns := "default",
      labels := some [("security.opendatahub.io/enable-auth", "true")] }
    (some []) none
    { containers := [{ name := "kserve-container", ports := [{ containerPort := 8080 }] }] }
    { meta :=
        { name := "raw-foo-predictor", ns := "default",
          labels := some [("security.opendatahub.io/enable-auth", "true")],
          annotations := some
            [("service.beta.openshift.io/serving-cert-secret-name", "raw-foo-predictor")] }
      spec :=
        { selector := some [("app", "isvc.raw-foo-predictor")]
          ports :=
            [{ name := "http", port := 80,
               targetPort := { type := IntStrType.int, intVal := 8080 } },
             { name := "https", protocol := "TCP", port := 8443,
               targetPort := { type := IntStrType.string, strVal := "https" } }]
          clusterIP := "None" } }
    (by decide) (by decide) (by decide)
  match h with
  | ⟨plain, hp, hports, _⟩ => ⟨plain, hp, by
      have hl := congrArg List.length hports
      simp at hl
      omega⟩

/-- C4: the code at the input of the package test with auth enabled (component
"raw-auth-predictor", one model-server container without ports, no batcher or logger). The
built Service has two ports, the synthesized port 80 -> 8080 named after the component and
then the "https" port; the test expects the "https" port alone. -/
theorem createService_auth_test_has_two_ports (K : Constants) :
    (createService K
        { name := "raw-auth-predictor", ns := "default",
          labels := some [(K.ODHKserveRawAuth, "true")] }
        (some { minReplicas := some 1, maxReplicas := 3 })
        { containers := [{ name := K.InferenceServiceContainerName }] }).toOption.map
      (fun svc => svc.spec.ports)
    = some
        [{ name := "raw-auth-predictor", protocol := "TCP", port := 80,
           targetPort := { type := IntStrType.int, intVal := 8080, strVal := "" } },
         { name := "https", protocol := "TCP", port := 8443,
           targetPort := { type := IntStrType.string, intVal := 0, strVal := "https" } }] := by
  have hA : Atoi InferenceServiceDefaultHttpPort = 8080 := by decide
  simp [createService, overriddenServicePorts, hasBatcher, hasLogger, baseServicePorts,
    findTransformer, containerServicePorts, authEnabled, GoMap.get, Bindings.get, httpsPort,
    hA, CommonDefaultHttpPort, ProtocolTCP, OauthProxyPort, Except.toOption]

/-- C7: every Service that `createService` returns has `Spec.ClusterIP` equal to "None". -/
theorem createService_headless (K : Constants) (componentMeta : ObjectMeta)
    (componentExt : Option ComponentExtensionSpec) (podSpec : PodSpec) (svc : Service)
    (hsvc : createService K componentMeta componentExt podSpec = Except.ok svc) :
    svc.spec.clusterIP = "None" := by
  obtain ⟨servicePorts, -, hs⟩ := (createService_ok_iff K componentMeta componentExt podSpec svc).1 hsvc
  subst hs
  split <;> rfl

/-- C7, an instance: auth flag, batcher, logger and container ports all present. -/
theorem createService_headless_witness :
    ∃ svc : Service,
      createService demoConstants
          { name := "raw-foo-predictor",
            labels := some [("security.opendatahub.io/enable-auth", "true")] }
          (some { batcher := some {}, logger := some {} })
          { containers := [{ name := "kserve-container", ports := [{ containerPort := 8080 }] }] }
        = Except.ok svc ∧
      svc.spec.ports.length = 2 ∧ svc.spec.clusterIP = "None" :=
  have h : createService demoConstants
        { name := "raw-foo-predictor",
          labels := some [("security.opendatahub.io/enable-auth", "true")] }
        (some { batcher := some {}, logger := some {} })
        { containers := [{ name := "kserve-container", ports := [{ containerPort := 8080 }] }] }
      = Except.ok
        { meta :=
            { name := "raw-foo-predictor",
              labels := some [("security.opendatahub.io/enable-auth", "true")],
              annotations := some
                [("service.beta.openshift.io/serving-cert-secret-name", "raw-foo-predictor")] }
          spec :=
            { selector := some [("app", "isvc.raw-foo-predictor")]
              ports :=
                [{ name := "http", port := 80,
                   targetPort := { type := IntStrType.int, intVal := 9081 } },
                 { name := "https", protocol := "TCP", port := 8443,
                   targetPort := { type := IntStrType.string, strVal := "https" } }]
              clusterIP := "None" } } := by decide
  ⟨_, h, rfl, createService_headless demoConstants _ _ _ _ h⟩

/-- C8: when the chosen container declares at least one port and neither batcher nor logger
is configured, `createService` returns a Service whose first port has port 80, the integer
target port of the first declared container port, its protocol, and its name, or "http" when
that name is empty. -/
theorem createService_first_port (K : Constants) (componentMeta : ObjectMeta)
    (componentExt : Option ComponentExtensionSpec) (podSpec : PodSpec)
    (c0 : Container) (rest : List Container) (p : ContainerPort) (ps : List ContainerPort)
    (hc : podSpec.containers = c0 :: rest)
    (hp : (findTransformer K podSpec.containers c0).ports = p :: ps)
    (hext : ∀ ext, componentExt = some ext → ext.batcher = none ∧ ext.logger = none) :
    ∃ svc : Service,
      createService K componentMeta componentExt podSpec = Except.ok svc ∧
      svc.spec.ports.head? = some
        { name := if p.name = "" then "http" else p.name
          protocol := p.protocol
          port := 80
          targetPort := { type := IntStrType.int, intVal := p.containerPort, strVal := "" } } := by
  have hb := hasBatcher_false_of componentExt hext
  have hl := hasLogger_false_of componentExt hext
  have hbase : baseServicePorts K componentMeta podSpec
      = firstServicePort p :: ps.map nextServicePort := by
    rw [baseServicePorts_cons K componentMeta podSpec c0 rest hc]
    simp [containerServicePorts, hp]
  have hfirst : firstServicePort p =
      { name := if p.name = "" then "http" else p.name
        protocol := p.protocol
        port := 80
        targetPort := { type := IntStrType.int, intVal := p.containerPort, strVal := "" } } := by
    unfold firstServicePort
    by_cases hn : p.name = "" <;> simp [hn, CommonDefaultHttpPort]
  have hov := overriddenServicePorts_plain K componentMeta componentExt podSpec hb hl
  by_cases ha : authEnabled K componentMeta.labels = true
  · refine ⟨_, (createService_ok_iff K componentMeta componentExt podSpec _).2
      ⟨_, hov, rfl⟩, ?_⟩
    rw [if_pos ha, hbase, hfirst]
    rfl
  · refine ⟨_, (createService_ok_iff K componentMeta componentExt podSpec _).2
      ⟨_, hov, rfl⟩, ?_⟩
    rw [if_neg ha, hbase, hfirst]
    rfl

/-- C8, the scenario of the specification: the ports `[{name: "http", containerPort: 8080}]`
give exactly one Service port, with port 80, target port 8080 and name "http". -/
theorem createService_first_port_witness :
    createService demoConstants { name := "raw-foo-predictor", ns := "default" } none
        { containers :=
            [{ name := "kserve-container", ports := [{ name := "http", containerPort := 8080 }] }] }
      = Except.ok
        { meta := { name := "raw-foo-predictor", ns := "default" }
          spec :=
            { selector := some [("app", "isvc.raw-foo-predictor")]
              ports :=
                [{ name := "http", protocol := "", port := 80,
                   targetPort := { type := IntStrType.int, intVal := 8080, strVal := "" } }]
              clusterIP := "None" } } ∧
    ∃ svc : Service,
      createService demoConstants { name := "raw-foo-predictor", ns := "default" } none
          { containers :=
              [{ name := "kserve-container",
                 ports := [{ name := "http", containerPort := 8080 }] }] }
        = Except.ok svc ∧
      svc.spec.ports.head? = some
        { name := "http", protocol := "", port := 80,
          targetPort := { type := IntStrType.int, intVal := 8080, strVal := "" } } :=
  ⟨by decide,
    createService_first_port demoConstants { name := "raw-foo-predictor", ns := "default" } none
      { containers :=
          [{ name := "kserve-container", ports := [{ name := "http", containerPort := 8080 }] }] }
      { name := "kserve-container", ports := [{ name := "http", containerPort := 8080 }] } []
      { name := "http", containerPort := 8080 } []
      (by decide) (by decide) (by intro ext h; cases h)⟩

theorem nextServicePort_eq (q : ContainerPort) :
    nextServicePort q =
      { name := q.name
        protocol := if q.protocol = "" then "TCP" else q.protocol
        port := q.containerPort
        targetPort := { type := IntStrType.int, intVal := q.containerPort, strVal := "" } } := by
  unfold nextServicePort
  by_cases hq : q.protocol = "" <;> simp [hq, ProtocolTCP]

/-- C9: when the chosen container declares at least one port and the auth flag is off,
`createService` returns a Service with as many ports as the container declares, and for
every index from 1 on the Service port at that index has port and integer target port equal
to the container port declared at that index, its name, and its protocol, or TCP when that
protocol is empty. -/
theorem createService_subsequent_ports (K : Constants) (componentMeta : ObjectMeta)
    (componentExt : Option ComponentExtensionSpec) (podSpec : PodSpec)
    (c0 : Container) (rest : List Container)
    (hc : podSpec.containers = c0 :: rest)
    (hn : (findTransformer K podSpec.containers c0).ports ≠ [])
    (hauth : componentMeta.labels.get K.ODHKserveRawAuth ≠ some "true") :
    ∃ svc : Service,
      createService K componentMeta componentExt podSpec = Except.ok svc ∧
      svc.spec.ports.length = (findTransformer K podSpec.containers c0).ports.length ∧
      ∀ (i : Nat) (q : ContainerPort), 1 ≤ i →
        (findTransformer K podSpec.containers c0).ports[i]? = some q →
        svc.spec.ports[i]? = some
          { name := q.name
            protocol := if q.protocol = "" then "TCP" else q.protocol
            port := q.containerPort
            targetPort :=
              { type := IntStrType.int, intVal := q.containerPort, strVal := "" } } := by
  cases hp : (findTransformer K podSpec.containers c0).ports with
  | nil => exact absurd hp hn
  | cons p ps =>
    have hbase : baseServicePorts K componentMeta podSpec
        = firstServicePort p :: ps.map nextServicePort := by
      rw [baseServicePorts_cons K componentMeta podSpec c0 rest hc]
      simp [containerServicePorts, hp]
    have hov := overriddenServicePorts_cons K componentMeta componentExt podSpec _ _ hbase
    have ha : ¬ authEnabled K componentMeta.labels = true := by
      simp [authEnabled_eq_false K _ hauth]
    refine ⟨_, (createService_ok_iff K componentMeta componentExt podSpec _).2
      ⟨_, hov, rfl⟩, ?_, ?_⟩
    · rw [if_neg ha]
      simp
    · intro i q hi hq
      rw [if_neg ha]
      obtain ⟨j, rfl⟩ : ∃ j, i = j + 1 := ⟨i - 1, by omega⟩
      simp only [List.getElem?_cons_succ] at hq ⊢
      rw [List.getElem?_map, hq]
      simp [nextServicePort_eq]

/-- C9, an instance: a container declaring three ports, the second without protocol. -/
theorem createService_subsequent_ports_witness :
    ∃ svc : Service,
      createService demoConstants { name := "raw-foo-predictor" } none
          { containers :=
              [{ name := "kserve-container",
                 ports := [{ name := "http", containerPort := 8080 },
                           { name := "grpc", containerPort := 9000 },
                           { name := "metrics", containerPort := 9090, protocol := "UDP" }] }] }
        = Except.ok svc ∧
      svc.spec.ports.length = 3 ∧
      svc.spec.ports[1]? = some
        { name := "grpc", protocol := "TCP", port := 9000,
          targetPort := { type := IntStrType.int, intVal := 9000, strVal := "" } } ∧
      svc.spec.ports[2]? = some
        { name := "metrics", protocol := "UDP", port := 9090,
          targetPort := { type := IntStrType.int, intVal := 9090, strVal := "" } } :=
  match createService_subsequent_ports demoConstants { name := "raw-foo-predictor" } none
      { containers :=
          [{ name := "kserve-container",
             ports := [{ name := "http", containerPort := 8080 },
                       { name := "grpc", containerPort := 9000 },
                       { name := "metrics", containerPort := 9090, protocol := "UDP" }] }] }
      { name := "kserve-container",
        ports := [{ name := "http", containerPort := 8080 },
                  { name := "grpc", containerPort := 9000 },
                  { name := "metrics", containerPort := 9090, protocol := "UDP" }] } []
      rfl (by decide) (by decide) with
  | ⟨svc, hsvc, hlen, hports⟩ =>
    ⟨svc, hsvc, hlen,
      hports 1 { name := "grpc", containerPort := 9000 } (by decide) (by decide),
      hports 2 { name := "metrics", containerPort := 9090, protocol := "UDP" }
        (by decide) (by decide)⟩

/-- C10: when the container list is not empty, the chosen container declares no port, the
auth flag is off and neither batcher nor logger is configured, `createService` returns a
Service with exactly one port, named `componentMeta.Name`, with port 80, integer target port
8080 and protocol TCP. -/
theorem createService_no_declared_ports (K : Constants) (componentMeta : ObjectMeta)
    (componentExt : Option ComponentExtensionSpec) (podSpec : PodSpec)
    (c0 : Container) (rest : List Container)
    (hc : podSpec.containers = c0 :: rest)
    (hp : (findTransformer K podSpec.containers c0).ports = [])
    (hauth : componentMeta.labels.get K.ODHKserveRawAuth ≠ some "true")
    (hext : ∀ ext, componentExt = some ext → ext.batcher = none ∧ ext.logger = none) :
    ∃ svc : Service,
      createService K componentMeta componentExt podSpec = Except.ok svc ∧
      svc.spec.ports =
        [{ name := componentMeta.name, protocol := "TCP", port := 80,
           targetPort := { type := IntStrType.int, intVal := 8080, strVal := "" } }] := by
  have hb := hasBatcher_false_of componentExt hext
  have hl := hasLogger_false_of componentExt hext
  have hA : Atoi InferenceServiceDefaultHttpPort = 8080 := by decide
  have hbase : baseServicePorts K componentMeta podSpec
      = [{ name := componentMeta.name, protocol := "TCP", port := 80,
           targetPort := { type := IntStrType.int, intVal := 8080, strVal := "" } }] := by
    rw [baseServicePorts_cons K componentMeta podSpec c0 rest hc]
    simp [containerServicePorts, hp, hA, CommonDefaultHttpPort, ProtocolTCP]
  have hov := overriddenServicePorts_plain K componentMeta componentExt podSpec hb hl
  have ha : ¬ authEnabled K componentMeta.labels = true := by
    simp [authEnabled_eq_false K _ hauth]
  refine ⟨_, (createService_ok_iff K componentMeta componentExt podSpec _).2
    ⟨_, hov, rfl⟩, ?_⟩
  rw [if_neg ha, hbase]

/-- C10, the scenario of the package test: the component "raw-foo-predictor" with one
model-server container without ports yields the single port named "raw-foo-predictor",
TCP, 80 -> 8080. -/
theorem createService_no_declared_ports_witness :
    ∃ svc : Service,
      createService demoConstants
          { name := "raw-foo-predictor", ns := "default", labels := some [] }
          (some { minReplicas := some 1, maxReplicas := 3 })
          { containers := [{ name := "kserve-container" }] }
        = Except.ok svc ∧
      svc.spec.ports =
        [{ name := "raw-foo-predictor", protocol := "TCP", port := 80,
           targetPort := { type := IntStrType.int, intVal := 8080, strVal := "" } }] :=
  createService_no_declared_ports demoConstants
    { name := "raw-foo-predictor", ns := "default", labels := some [] }
    (some { minReplicas := some 1, maxReplicas := 3 })
    { containers := [{ name := "kserve-container" }] }
    { name := "kserve-container" } [] rfl (by decide) (by decide)
    (by intro ext h; cases h; exact ⟨rfl, rfl⟩)

/-! ## Lemmas on the Deployment builder -/

theorem setDefaultDeploymentSpec_eq (K : Constants) (spec : DeploymentSpec) :
    setDefaultDeploymentSpec K spec
      = { replicas := spec.replicas
          selector := spec.selector
          template :=
            { meta := spec.template.meta
              spec :=
                { spec.template.spec with serviceAccountName := K.KserveServiceAccountName } }
          strategy :=
            { type :=
                if spec.strategy.type = "" then RollingUpdateDeploymentStrategyType
                else spec.strategy.type
              rollingUpdate :=
                if (if spec.strategy.type = "" then RollingUpdateDeploymentStrategyType
                    else spec.strategy.type) = RollingUpdateDeploymentStrategyType
                    ∧ spec.strategy.rollingUpdate = none then
                  some
                    { maxUnavailable := some { type := IntStrType.string, strVal := "25%" }
                      maxSurge := some { type := IntStrType.string, strVal := "25%" } }
                else spec.strategy.rollingUpdate }
          revisionHistoryLimit := some (spec.revisionHistoryLimit.getD 10)
          progressDeadlineSeconds := some (spec.progressDeadlineSeconds.getD 600)
          minReadySeconds := spec.minReadySeconds
          paused := spec.paused } := by
  obtain ⟨replicas, selector, template, ⟨type, rollingUpdate⟩, history, deadline, ready,
    paused⟩ := spec
  by_cases h1 : type = "" <;> by_cases h2 : type = RollingUpdateDeploymentStrategyType <;>
    cases rollingUpdate <;> cases history <;> cases deadline <;>
    simp [setDefaultDeploymentSpec, h1, h2]

theorem setDefaultDeploymentSpec_selector (K : Constants) (spec : DeploymentSpec) :
    (setDefaultDeploymentSpec K spec).selector = spec.selector := by
  rw [setDefaultDeploymentSpec_eq]

theorem setDefaultDeploymentSpec_template (K : Constants) (spec : DeploymentSpec) :
    (setDefaultDeploymentSpec K spec).template
      = { spec.template with
          spec := { spec.template.spec with serviceAccountName := K.KserveServiceAccountName } } := by
  rw [setDefaultDeploymentSpec_eq]

theorem createRawDeployment_ok_iff (L : Lib) (K : Constants) (configMapName : String)
    (cli : Except GoError ConfigMap) (componentMeta : ObjectMeta)
    (componentExt : Option ComponentExtensionSpec) (podSpec : PodSpec) (d : Deployment) :
    createRawDeployment L K configMapName cli componentMeta componentExt podSpec = Except.ok d ↔
      ∃ (labels : Bindings) (ext : ComponentExtensionSpec) (injected : PodSpec),
        componentMeta.labels = some labels ∧ componentExt = some ext ∧
        authPodSpec L K configMapName cli (withAppLabel componentMeta labels)
          (setDefaultPodSpec K podSpec) = Except.ok injected ∧
        d = assembleDeployment K (withAppLabel componentMeta labels)
          (withAppLabel componentMeta labels) ext injected := by
  unfold createRawDeployment
  cases hl : componentMeta.labels with
  | none => simp
  | some labels =>
    simp only []
    cases hi : authPodSpec L K configMapName cli (withAppLabel componentMeta labels)
        (setDefaultPodSpec K podSpec) with
    | error f => simp [hi]
    | ok injected =>
      cases componentExt with
      | none => simp
      | some ext =>
        simp only [hi, Except.ok.injEq, Option.some.injEq]
        constructor
        · intro h
          exact ⟨labels, ext, injected, rfl, rfl, hi, h.symm⟩
        · rintro ⟨labels1, ext1, injected1, h1, h2, h3, h4⟩
          subst h1 h2
          have h5 : injected = injected1 := Except.ok.inj (hi.symm.trans h3)
          subst h5
          exact h4.symm

theorem exists_ok_of_isSome {ε α : Type} (e : Except ε α) (h : e.toOption.isSome = true) :
    ∃ a, e = Except.ok a := by
  cases e with
  | error f => simp [Except.toOption] at h
  | ok a => exact ⟨a, rfl⟩

theorem assembleDeployment_meta (K : Constants) (componentMeta podMetadata : ObjectMeta)
    (ext : ComponentExtensionSpec) (podSpec : PodSpec) :
    (assembleDeployment K componentMeta podMetadata ext podSpec).meta = componentMeta := by
  unfold assembleDeployment
  cases ext.deploymentStrategy <;> rfl

theorem assembleDeployment_selector (K : Constants) (componentMeta podMetadata : ObjectMeta)
    (ext : ComponentExtensionSpec) (podSpec : PodSpec) :
    (assembleDeployment K componentMeta podMetadata ext podSpec).spec.selector
      = some { matchLabels := some [("app", GetRawServiceLabel componentMeta.name)] } := by
  unfold assembleDeployment
  cases ext.deploymentStrategy <;> simp [setDefaultDeploymentSpec_selector]

theorem assembleDeployment_template (K : Constants) (componentMeta podMetadata : ObjectMeta)
    (ext : ComponentExtensionSpec) (podSpec : PodSpec) :
    (assembleDeployment K componentMeta podMetadata ext podSpec).spec.template
      = { meta := podMetadata
          spec := { podSpec with serviceAccountName := K.KserveServiceAccountName } } := by
  unfold assembleDeployment
  cases ext.deploymentStrategy <;> simp [setDefaultDeploymentSpec_template]

/-! ## Properties of the Deployment builder -/

/-- C1: whenever `createRawDeployment` and `createService` return for the same
`componentMeta`, the selector of the Service and the match labels of the Deployment selector
are both the one-entry map from "app" to "isvc." followed by `componentMeta.Name`, and the
pod template labels of the Deployment map "app" to that same value. -/
theorem selector_consistency (L : Lib) (K : Constants) (configMapName : String)
    (cli : Except GoError ConfigMap) (componentMeta : ObjectMeta)
    (componentExt serviceExt : Option ComponentExtensionSpec) (podSpec servicePodSpec : PodSpec)
    (d : Deployment) (svc : Service)
    (hd : createRawDeployment L K configMapName cli componentMeta componentExt podSpec
      = Except.ok d)
    (hs : createService K componentMeta serviceExt servicePodSpec = Except.ok svc) :
    svc.spec.selector = some [("app", "isvc." ++ componentMeta.name)] ∧
    d.spec.selector = some { matchLabels := some [("app", "isvc." ++ componentMeta.name)] } ∧
    d.spec.template.meta.labels.get "app" = some ("isvc." ++ componentMeta.name) := by
  obtain ⟨servicePorts, -, hsvc⟩ :=
    (createService_ok_iff K componentMeta serviceExt servicePodSpec svc).1 hs
  obtain ⟨labels, ext, injected, -, -, -, hdep⟩ :=
    (createRawDeployment_ok_iff L K configMapName cli componentMeta componentExt podSpec d).1 hd
  refine ⟨?_, ?_, ?_⟩
  · subst hsvc
    split <;> rfl
  · subst hdep
    rw [assembleDeployment_selector]
    rfl
  · subst hdep
    rw [assembleDeployment_template]
    exact Bindings.get_set_self _ _ _

/-- C1, the scenario of the package test: component "raw-foo-predictor" with its component
labels and one model-server container. -/
theorem selector_consistency_witness :
    ∃ (d : Deployment) (svc : Service),
      createRawDeployment demoLib demoConstants "inferenceservice-config"
          (Except.ok testConfigMap)
          { name := "raw-foo-predictor", ns := "default",
            labels := some [("component", "predictor")] }
          (some { minReplicas := some 1, maxReplicas := 3 })
          { containers := [{ name := "kserve-container" }] } = Except.ok d ∧
      createService demoConstants
          { name := "raw-foo-predictor", ns := "default",
            labels := some [("component", "predictor")] }
          (some { minReplicas := some 1, maxReplicas := 3 })
          { containers := [{ name := "kserve-container" }] } = Except.ok svc ∧
      svc.spec.selector = some [("app", "isvc.raw-foo-predictor")] ∧
      d.spec.selector = some { matchLabels := some [("app", "isvc.raw-foo-predictor")] } ∧
      d.spec.template.meta.labels.get "app" = some "isvc.raw-foo-predictor" :=
  match exists_ok_of_isSome
      (createRawDeployment demoLib demoConstants "inferenceservice-config"
        (Except.ok testConfigMap)
        { name := "raw-foo-predictor", ns := "default",
          labels := some [("component", "predictor")] }
        (some { minReplicas := some 1, maxReplicas := 3 })
        { containers := [{ name := "kserve-container" }] }) (by decide),
    exists_ok_of_isSome
      (createService demoConstants
        { name := "raw-foo-predictor", ns := "default",
          labels := some [("component", "predictor")] }
        (some { minReplicas := some 1, maxReplicas := 3 })
        { containers := [{ name := "kserve-container" }] }) (by decide) with
  | ⟨d, hd⟩, ⟨svc, hs⟩ =>
    ⟨d, svc, hd, hs,
      selector_consistency demoLib demoConstants "inferenceservice-config"
        (Except.ok testConfigMap)
        { name := "raw-foo-predictor", ns := "default",
          labels := some [("component", "predictor")] }
        (some { minReplicas := some 1, maxReplicas := 3 })
        (some { minReplicas := some 1, maxReplicas := 3 })
        { containers := [{ name := "kserve-container" }] }
        { containers := [{ name := "kserve-container" }] } d svc hd hs⟩

/-- C2: the code at the input of the package test with auth enabled (component
"raw-auth-predictor", label flag "true", one model-server container). With the ConfigMap of
the test, which has no `deploy` entry, the container appended to the Deployment is the
zero-valued one with the empty name; with no ConfigMap in the cluster no container is
appended at all. In neither case does the Deployment hold a container named "oauth-proxy";
the Secret volume is appended in both. -/
theorem createRawDeployment_auth_test_containers :
    (createRawDeployment demoLib demoConstants "inferenceservice-config"
        (Except.ok testConfigMap)
        { name := "raw-auth-predictor", ns := "default",
          labels := some [("security.opendatahub.io/enable-auth", "true")] }
        (some { minReplicas := some 1, maxReplicas := 3 })
        { containers := [{ name := "kserve-container" }] }).toOption.map
      (fun d => (d.spec.template.spec.containers.map (fun c => c.name),
        d.spec.template.spec.volumes))
      = some (["kserve-container", ""],
          [{ name := "proxy-tls",
             secret := some { secretName := "raw-auth-predictor", defaultMode := some 420 } }]) ∧
    (createRawDeployment demoLib demoConstants "inferenceservice-config"
        (Except.error { isNotFound := true, message := "not found" })
        { name := "raw-auth-predictor", ns := "default",
          labels := some [("security.opendatahub.io/enable-auth", "true")] }
        (some { minReplicas := some 1, maxReplicas := 3 })
        { containers := [{ name := "kserve-container" }] }).toOption.map
      (fun d => (d.spec.template.spec.containers.map (fun c => c.name),
        d.spec.template.spec.volumes))
      = some (["kserve-container"],
          [{ name := "proxy-tls",
             secret := some { secretName := "raw-auth-predictor", defaultMode := some 420 } }]) := by
  constructor <;> decide

/-! ## Properties of the existence checks and of `Reconcile` -/

theorem goMapCmpEqual_self (m : GoMap) : GoMap.cmpEqual m m = true := by
  cases m <;> simp [GoMap.cmpEqual]

theorem resourceListCmpEqual_self (a : List (String × Quantity)) (f : Bool) :
    resourceListCmpEqual a f a f = true := by
  simp [resourceListCmpEqual]

theorem elementsCmpEqual_self {α : Type} (eq : α → α → Bool) (h : ∀ x, eq x x = true)
    (a : List α) : elementsCmpEqual eq a a = true := by
  induction a with
  | nil => rfl
  | cons x xs ih => simp [elementsCmpEqual, h, ih]

theorem sliceCmpEqual_self {α : Type} (eq : α → α → Bool) (h : ∀ x, eq x x = true)
    (a : List α) (f : Bool) : sliceCmpEqual eq a f a f = true := by
  simp [sliceCmpEqual, elementsCmpEqual_self eq h]

theorem containerCmpEqual_self (c : Container) : Container.cmpEqual c c = true := by
  simp [Container.cmpEqual, ResourceRequirements.cmpEqual, sliceCmpEqual_self,
    resourceListCmpEqual_self]

theorem podSpecCmpEqual_self (p : PodSpec) : PodSpec.cmpEqual p p = true := by
  simp [PodSpec.cmpEqual, sliceCmpEqual_self, containerCmpEqual_self]

theorem podTemplateCmpEqual_self (t : PodTemplateSpec) :
    PodTemplateSpec.cmpEqual t t = true := by
  simp [PodTemplateSpec.cmpEqual, ObjectMeta.cmpEqual, goMapCmpEqual_self,
    podSpecCmpEqual_self]

theorem selectorCmpEqual_self (a : Option LabelSelector) : selectorCmpEqual a a = true := by
  cases a <;> simp [selectorCmpEqual, goMapCmpEqual_self]

theorem cmpEqualIgnoringReplicas_self (a : DeploymentSpec) (replicas : Option Int) :
    DeploymentSpec.cmpEqualIgnoringReplicas a { a with replicas := replicas } = true := by
  simp [DeploymentSpec.cmpEqualIgnoringReplicas, selectorCmpEqual_self,
    podTemplateCmpEqual_self]

theorem deploymentSpecDiffers_self (a : DeploymentSpec) : deploymentSpecDiffers a a = false := by
  have h := cmpEqualIgnoringReplicas_self a a.replicas
  simp [deploymentSpecDiffers, h]

theorem semanticServiceEquals_self (a : Service) : semanticServiceEquals a a = true := by
  simp [semanticServiceEquals, mapSemanticEqual_self]

theorem deployment_reconcile_converged (s : Store Deployment) (d x : Deployment)
    (hf : s.find (deploymentKey d) = some x)
    (hd : deploymentSpecDiffers d.spec x.spec = false) :
    (checkDeploymentExist (storeClient deploymentKey) s d).result
      = CheckResultType.CheckResultExisted ∧
    (DeploymentReconciler.Reconcile (storeClient deploymentKey) s d).calls
      = [Call.get (deploymentKey d), Call.dryRunUpdate d] ∧
    (DeploymentReconciler.Reconcile (storeClient deploymentKey) s d).state = s ∧
    (DeploymentReconciler.Reconcile (storeClient deploymentKey) s d).err = none ∧
    (DeploymentReconciler.Reconcile (storeClient deploymentKey) s d).value = some x := by
  have hf1 : Store.find s { ns := d.meta.ns, name := d.meta.name } = some x := hf
  simp [DeploymentReconciler.Reconcile, reconcileWith, applyCheck, checkDeploymentExist,
    storeClient, deploymentKey, hf1, hd]

theorem deployment_reconcile_store (s : Store Deployment) (d : Deployment) :
    ∃ x, (DeploymentReconciler.Reconcile (storeClient deploymentKey) s d).state.find
        (deploymentKey d) = some x ∧
      deploymentSpecDiffers d.spec x.spec = false := by
  cases hf : s.find (deploymentKey d) with
  | none =>
    have hf1 : Store.find s { ns := d.meta.ns, name := d.meta.name } = none := hf
    refine ⟨d, ?_, deploymentSpecDiffers_self _⟩
    simp [DeploymentReconciler.Reconcile, reconcileWith, applyCheck, checkDeploymentExist,
      storeClient, deploymentKey, hf1, Store.find_put_self]
  | some e =>
    have hf1 : Store.find s { ns := d.meta.ns, name := d.meta.name } = some e := hf
    cases hb : deploymentSpecDiffers d.spec e.spec with
    | true =>
      refine ⟨d, ?_, deploymentSpecDiffers_self _⟩
      simp [DeploymentReconciler.Reconcile, reconcileWith, applyCheck, checkDeploymentExist,
        storeClient, deploymentKey, hf1, hb, Store.find_put_self]
    | false =>
      refine ⟨e, ?_, hb⟩
      simp [DeploymentReconciler.Reconcile, reconcileWith, applyCheck, checkDeploymentExist,
        storeClient, deploymentKey, hf1, hb]

theorem service_reconcile_converged (s : Store Service) (svc x : Service)
    (hf : s.find (serviceKey svc) = some x)
    (hd : semanticServiceEquals svc x = true) :
    (checkServiceExist (storeClient serviceKey) s svc).result
      = CheckResultType.CheckResultExisted ∧
    (ServiceReconciler.Reconcile (storeClient serviceKey) s svc).calls
      = [Call.get (serviceKey svc)] ∧
    (ServiceReconciler.Reconcile (storeClient serviceKey) s svc).state = s ∧
    (ServiceReconciler.Reconcile (storeClient serviceKey) s svc).err = none ∧
    (ServiceReconciler.Reconcile (storeClient serviceKey) s svc).value = some x := by
  have hf1 : Store.find s { ns := svc.meta.ns, name := svc.meta.name } = some x := hf
  simp [ServiceReconciler.Reconcile, reconcileWith, applyCheck, checkServiceExist,
    storeClient, serviceKey, hf1, hd]

theorem service_reconcile_store (s : Store Service) (svc : Service) :
    ∃ x, (ServiceReconciler.Reconcile (storeClient serviceKey) s svc).state.find
        (serviceKey svc) = some x ∧
      semanticServiceEquals svc x = true := by
  cases hf : s.find (serviceKey svc) with
  | none =>
    have hf1 : Store.find s { ns := svc.meta.ns, name := svc.meta.name } = none := hf
    refine ⟨svc, ?_, semanticServiceEquals_self _⟩
    simp [ServiceReconciler.Reconcile, reconcileWith, applyCheck, checkServiceExist,
      storeClient, serviceKey, hf1, Store.find_put_self]
  | some e =>
    have hf1 : Store.find s { ns := svc.meta.ns, name := svc.meta.name } = some e := hf
    cases hb : semanticServiceEquals svc e with
    | false =>
      refine ⟨svc, ?_, semanticServiceEquals_self _⟩
      simp [ServiceReconciler.Reconcile, reconcileWith, applyCheck, checkServiceExist,
        storeClient, serviceKey, hf1, hb, Store.find_put_self]
    | true =>
      refine ⟨e, ?_, hb⟩
      simp [ServiceReconciler.Reconcile, reconcileWith, applyCheck, checkServiceExist,
        storeClient, serviceKey, hf1, hb]

/-- C6: over the cluster that stores objects as submitted, after a `Reconcile` of the
Deployment reconciler or of the Service reconciler that returned no error, a second
`Reconcile` with the same desired object classifies the resource as Existed, issues the
fetch (and for the Deployment the dry-run update) and no create or update call, leaves the
store unchanged, and returns without error the object the store holds under the key. -/
theorem reconcile_twice_is_noop :
    (∀ (s : Store Deployment) (d : Deployment),
      (DeploymentReconciler.Reconcile (storeClient deploymentKey) s d).err = none →
      (checkDeploymentExist (storeClient deploymentKey)
          (DeploymentReconciler.Reconcile (storeClient deploymentKey) s d).state d).result
        = CheckResultType.CheckResultExisted ∧
      (DeploymentReconciler.Reconcile (storeClient deploymentKey)
          (DeploymentReconciler.Reconcile (storeClient deploymentKey) s d).state d).calls
        = [Call.get (deploymentKey d), Call.dryRunUpdate d] ∧
      (DeploymentReconciler.Reconcile (storeClient deploymentKey)
          (DeploymentReconciler.Reconcile (storeClient deploymentKey) s d).state d).state
        = (DeploymentReconciler.Reconcile (storeClient deploymentKey) s d).state ∧
      (DeploymentReconciler.Reconcile (storeClient deploymentKey)
          (DeploymentReconciler.Reconcile (storeClient deploymentKey) s d).state d).err = none ∧
      (∃ stored,
        (DeploymentReconciler.Reconcile (storeClient deploymentKey) s d).state.find
          (deploymentKey d) = some stored ∧
        (DeploymentReconciler.Reconcile (storeClient deploymentKey)
          (DeploymentReconciler.Reconcile (storeClient deploymentKey) s d).state d).value
          = some stored)) ∧
    (∀ (s : Store Service) (svc : Service),
      (ServiceReconciler.Reconcile (storeClient serviceKey) s svc).err = none →
      (checkServiceExist (storeClient serviceKey)
          (ServiceReconciler.Reconcile (storeClient serviceKey) s svc).state svc).result
        = CheckResultType.CheckResultExisted ∧
      (ServiceReconciler.Reconcile (storeClient serviceKey)
          (ServiceReconciler.Reconcile (storeClient serviceKey) s svc).state svc).calls
        = [Call.get (serviceKey svc)] ∧
      (ServiceReconciler.Reconcile (storeClient serviceKey)
          (ServiceReconciler.Reconcile (storeClient serviceKey) s svc).state svc).state
        = (ServiceReconciler.Reconcile (storeClient serviceKey) s svc).state ∧
      (ServiceReconciler.Reconcile (storeClient serviceKey)
          (ServiceReconciler.Reconcile (storeClient serviceKey) s svc).state svc).err = none ∧
      (∃ stored,
        (ServiceReconciler.Reconcile (storeClient serviceKey) s svc).state.find
          (serviceKey svc) = some stored ∧
        (ServiceReconciler.Reconcile (storeClient serviceKey)
          (ServiceReconciler.Reconcile (storeClient serviceKey) s svc).state svc).value
          = some stored)) := by
  constructor
  · intro s d _
    obtain ⟨x, hx, hd⟩ := deployment_reconcile_store s d
    obtain ⟨h1, h2, h3, h4, h5⟩ := deployment_reconcile_converged _ d x hx hd
    exact ⟨h1, h2, h3, h4, x, hx, h5⟩
  · intro s svc _
    obtain ⟨x, hx, hd⟩ := service_reconcile_store s svc
    obtain ⟨h1, h2, h3, h4, h5⟩ := service_reconcile_converged _ svc x hx hd
    exact ⟨h1, h2, h3, h4, x, hx, h5⟩

/-- C6, an instance: on the empty store the first `Reconcile` of the Deployment
"raw-foo-predictor" creates it without error; the second issues the fetch and the dry-run
only and leaves the store as it is. -/
theorem reconcile_twice_is_noop_witness :
    (DeploymentReconciler.Reconcile (storeClient deploymentKey) []
        { meta := { name := "raw-foo-predictor", ns := "default" }
          spec := { revisionHistoryLimit := some 10 } }).err = none ∧
    (DeploymentReconciler.Reconcile (storeClient deploymentKey)
        (DeploymentReconciler.Reconcile (storeClient deploymentKey) []
          { meta := { name := "raw-foo-predictor", ns := "default" }
            spec := { revisionHistoryLimit := some 10 } }).state
        { meta := { name := "raw-foo-predictor", ns := "default" }
          spec := { revisionHistoryLimit := some 10 } }).calls
      = [Call.get (deploymentKey
            { meta := { name := "raw-foo-predictor", ns := "default" }
              spec := { revisionHistoryLimit := some 10 } }),
         Call.dryRunUpdate
            { meta := { name := "raw-foo-predictor", ns := "default" }
              spec := { revisionHistoryLimit := some 10 } }] :=
  ⟨by decide,
    (reconcile_twice_is_noop.1 []
      { meta := { name := "raw-foo-predictor", ns := "default" }
        spec := { revisionHistoryLimit := some 10 } } (by decide)).2.1⟩

/-! ## The primary container and the agent override -/

theorem baseServicePorts_ne_nil (K : Constants) (componentMeta : ObjectMeta)
    (podSpec : PodSpec) (c0 : Container) (rest : List Container)
    (hc : podSpec.containers = c0 :: rest) :
    ∃ sp sps, baseServicePorts K componentMeta podSpec = sp :: sps := by
  rw [baseServicePorts_cons K componentMeta podSpec c0 rest hc]
  unfold containerServicePorts
  cases (findTransformer K podSpec.containers c0).ports with
  | nil => exact ⟨_, _, rfl⟩
  | cons p ps => exact ⟨_, _, rfl⟩

/-- C12: for a non-empty container list and an extension spec that configures a batcher or a
logger, `createService` returns a Service whose first port has the integer target port
`constants.InferenceServiceDefaultAgentPort` and otherwise the name, port number and
protocol of the first port built for the same input without batcher and logger, and whose
other ports are the other ports built without them. -/
theorem createService_agent_override (K : Constants) (componentMeta : ObjectMeta)
    (ext : ComponentExtensionSpec) (podSpec : PodSpec)
    (c0 : Container) (rest : List Container)
    (hc : podSpec.containers = c0 :: rest)
    (hbl : ext.batcher ≠ none ∨ ext.logger ≠ none) :
    ∃ (svc plain : Service) (first : ServicePort) (others : List ServicePort),
      createService K componentMeta (some ext) podSpec = Except.ok svc ∧
      createService K componentMeta (some { ext with batcher := none, logger := none }) podSpec
        = Except.ok plain ∧
      plain.spec.ports = first :: others ∧
      svc.spec.ports =
        { name := first.name
          protocol := first.protocol
          port := first.port
          targetPort :=
            { type := IntStrType.int, intVal := K.InferenceServiceDefaultAgentPort,
              strVal := "" } } :: others := by
  obtain ⟨sp, sps, hbase⟩ := baseServicePorts_ne_nil K componentMeta podSpec c0 rest hc
  have hov := overriddenServicePorts_cons K componentMeta (some ext) podSpec sp sps hbase
  have hplain := overriddenServicePorts_cons K componentMeta
    (some { ext with batcher := none, logger := none }) podSpec sp sps hbase
  have hsome : hasBatcher (some ext) = true ∨ hasLogger (some ext) = true := by
    rcases hbl with h | h
    · left
      simpa [hasBatcher, Option.isSome_iff_ne_none] using h
    · right
      simpa [hasLogger, Option.isSome_iff_ne_none] using h
  rw [if_pos hsome] at hov
  have hnone : ¬ (hasBatcher (some { ext with batcher := none, logger := none }) = true ∨
      hasLogger (some { ext with batcher := none, logger := none }) = true) := by
    simp [hasBatcher, hasLogger]
  rw [if_neg hnone] at hplain
  by_cases ha : authEnabled K componentMeta.labels = true
  · refine ⟨_, _, sp, sps ++ [httpsPort],
      (createService_ok_iff K componentMeta _ podSpec _).2 ⟨_, hov, rfl⟩,
      (createService_ok_iff K componentMeta _ podSpec _).2 ⟨_, hplain, rfl⟩, ?_, ?_⟩
    · rw [if_pos ha]
      rfl
    · rw [if_pos ha]
      rfl
  · refine ⟨_, _, sp, sps,
      (createService_ok_iff K componentMeta _ podSpec _).2 ⟨_, hov, rfl⟩,
      (createService_ok_iff K componentMeta _ podSpec _).2 ⟨_, hplain, rfl⟩, ?_, ?_⟩
    · rw [if_neg ha]
    · rw [if_neg ha]
      rfl

/-- C12, an instance: a batcher on a container declaring ports 8080 and 9000. -/
theorem createService_agent_override_witness :
    ∃ (svc plain : Service) (first : ServicePort) (others : List ServicePort),
      createService demoConstants { name := "raw-foo-predictor" }
          (some { batcher := some {} })
          { containers :=
              [{ name := "kserve-container",
                 ports := [{ containerPort := 8080 }, { containerPort := 9000 }] }] }
        = Except.ok svc ∧
      createService demoConstants { name := "raw-foo-predictor" } (some {})
          { containers :=
              [{ name := "kserve-container",
                 ports := [{ containerPort := 8080 }, { containerPort := 9000 }] }] }
        = Except.ok plain ∧
      plain.spec.ports = first :: others ∧
      svc.spec.ports =
        { name := first.name
          protocol := first.protocol
          port := first.port
          targetPort := { type := IntStrType.int, intVal := 9081, strVal := "" } } :: others :=
  createService_agent_override demoConstants { name := "raw-foo-predictor" }
    { batcher := some {} }
    { containers :=
        [{ name := "kserve-container",
           ports := [{ containerPort := 8080 }, { containerPort := 9000 }] }] }
    { name := "kserve-container",
      ports := [{ containerPort := 8080 }, { containerPort := 9000 }] } [] rfl
    (Or.inl (by decide))

/-! ## Defaulting of the Deployment spec -/

theorem assembleDeployment_spec (K : Constants) (componentMeta podMetadata : ObjectMeta)
    (ext : ComponentExtensionSpec) (podSpec : PodSpec) :
    (assembleDeployment K componentMeta podMetadata ext podSpec).spec
      = setDefaultDeploymentSpec K
          { selector := some
              { matchLabels := some [("app", GetRawServiceLabel componentMeta.name)] }
            template := { meta := podMetadata, spec := podSpec }
            strategy := ext.deploymentStrategy.getD {} } := by
  unfold assembleDeployment
  cases ext.deploymentStrategy <;> rfl

theorem setDefaultDeploymentSpec_revisionHistoryLimit (K : Constants) (spec : DeploymentSpec) :
    (setDefaultDeploymentSpec K spec).revisionHistoryLimit
      = some (spec.revisionHistoryLimit.getD 10) := by
  rw [setDefaultDeploymentSpec_eq]

theorem setDefaultDeploymentSpec_progressDeadlineSeconds (K : Constants)
    (spec : DeploymentSpec) :
    (setDefaultDeploymentSpec K spec).progressDeadlineSeconds
      = some (spec.progressDeadlineSeconds.getD 600) := by
  rw [setDefaultDeploymentSpec_eq]

theorem setDefaultDeploymentSpec_strategy (K : Constants) (spec : DeploymentSpec) :
    (setDefaultDeploymentSpec K spec).strategy
      = { type :=
            if spec.strategy.type = "" then RollingUpdateDeploymentStrategyType
            else spec.strategy.type
          rollingUpdate :=
            if (if spec.strategy.type = "" then RollingUpdateDeploymentStrategyType
                else spec.strategy.type) = RollingUpdateDeploymentStrategyType
                ∧ spec.strategy.rollingUpdate = none then
              some
                { maxUnavailable := some { type := IntStrType.string, strVal := "25%" }
                  maxSurge := some { type := IntStrType.string, strVal := "25%" } }
            else spec.strategy.rollingUpdate } := by
  rw [setDefaultDeploymentSpec_eq]

/-- C13: when `componentExt` carries no deployment-strategy override, every Deployment that
`createRawDeployment` returns has strategy type "RollingUpdate" with `MaxUnavailable` and
`MaxSurge` both the string "25%". -/
theorem createRawDeployment_default_strategy (L : Lib) (K : Constants)
    (configMapName : String) (cli : Except GoError ConfigMap) (componentMeta : ObjectMeta)
    (ext : ComponentExtensionSpec) (podSpec : PodSpec) (d : Deployment)
    (hd : createRawDeployment L K configMapName cli componentMeta (some ext) podSpec
      = Except.ok d)
    (hs : ext.deploymentStrategy = none) :
    d.spec.strategy =
      { type := "RollingUpdate"
        rollingUpdate := some
          { maxUnavailable := some { type := IntStrType.string, intVal := 0, strVal := "25%" }
            maxSurge := some { type := IntStrType.string, intVal := 0, strVal := "25%" } } } := by
  obtain ⟨labels, ext1, injected, -, hext, -, hdep⟩ :=
    (createRawDeployment_ok_iff L K configMapName cli componentMeta (some ext) podSpec d).1 hd
  cases hext
  subst hdep
  rw [assembleDeployment_spec, setDefaultDeploymentSpec_strategy, hs]
  simp [RollingUpdateDeploymentStrategyType]

/-- C13, the scenario of the package test: component "raw-foo-predictor" without overrides. -/
theorem createRawDeployment_default_strategy_witness :
    ∃ d : Deployment,
      createRawDeployment demoLib demoConstants "inferenceservice-config"
          (Except.ok testConfigMap)
          { name := "raw-foo-predictor", ns := "default", labels := some [] }
          (some { minReplicas := some 1, maxReplicas := 3 })
          { containers := [{ name := "kserve-container" }] } = Except.ok d ∧
      d.spec.strategy =
        { type := "RollingUpdate"
          rollingUpdate := some
            { maxUnavailable := some
                { type := IntStrType.string, intVal := 0, strVal := "25%" }
              maxSurge := some
                { type := IntStrType.string, intVal := 0, strVal := "25%" } } } :=
  match exists_ok_of_isSome
      (createRawDeployment demoLib demoConstants "inferenceservice-config"
        (Except.ok testConfigMap)
        { name := "raw-foo-predictor", ns := "default", labels := some [] }
        (some { minReplicas := some 1, maxReplicas := 3 })
        { containers := [{ name := "kserve-container" }] }) (by decide) with
  | ⟨d, hd⟩ =>
    ⟨d, hd, createRawDeployment_default_strategy demoLib demoConstants
      "inferenceservice-config" (Except.ok testConfigMap)
      { name := "raw-foo-predictor", ns := "default", labels := some [] }
      { minReplicas := some 1, maxReplicas := 3 }
      { containers := [{ name := "kserve-container" }] } d hd rfl⟩

/-- C14: when the deployment-strategy override of `componentExt` has a non-empty type other
than "RollingUpdate", or has type "RollingUpdate" with rolling-update parameters, every
Deployment that `createRawDeployment` returns has exactly the override as its strategy. -/
theorem createRawDeployment_strategy_override (L : Lib) (K : Constants)
    (configMapName : String) (cli : Except GoError ConfigMap) (componentMeta : ObjectMeta)
    (ext : ComponentExtensionSpec) (podSpec : PodSpec) (strategy : DeploymentStrategy)
    (d : Deployment)
    (hd : createRawDeployment L K configMapName cli componentMeta (some ext) podSpec
      = Except.ok d)
    (hs : ext.deploymentStrategy = some strategy)
    (hcase : (strategy.type ≠ "" ∧ strategy.type ≠ "RollingUpdate") ∨
      (strategy.type = "RollingUpdate" ∧ strategy.rollingUpdate ≠ none)) :
    d.spec.strategy = strategy := by
  obtain ⟨labels, ext1, injected, -, hext, -, hdep⟩ :=
    (createRawDeployment_ok_iff L K configMapName cli componentMeta (some ext) podSpec d).1 hd
  cases hext
  subst hdep
  rw [assembleDeployment_spec, setDefaultDeploymentSpec_strategy, hs]
  rcases hcase with ⟨h1, h2⟩ | ⟨h1, h2⟩
  · simp [RollingUpdateDeploymentStrategyType, h1, h2]
  · cases strategy with
    | mk type rollingUpdate =>
      simp only at h1 h2
      subst h1
      simp [RollingUpdateDeploymentStrategyType, h2]

/-- C14, the scenario of the package test: the override has type "Recreate" and no
parameters, and none are added. -/
theorem createRawDeployment_strategy_override_witness :
    ∃ d : Deployment,
      createRawDeployment demoLib demoConstants "inferenceservice-config"
          (Except.ok testConfigMap)
          { name := "raw-foo-predictor", ns := "default", labels := some [] }
          (some { minReplicas := some 1, maxReplicas := 3,
                  deploymentStrategy := some { type := "Recreate" } })
          { containers := [{ name := "kserve-container" }] } = Except.ok d ∧
      d.spec.strategy = { type := "Recreate", rollingUpdate := none } :=
  match exists_ok_of_isSome
      (createRawDeployment demoLib demoConstants "inferenceservice-config"
        (Except.ok testConfigMap)
        { name := "raw-foo-predictor", ns := "default", labels := some [] }
        (some { minReplicas := some 1, maxReplicas := 3,
                deploymentStrategy := some { type := "Recreate" } })
        { containers := [{ name := "kserve-container" }] }) (by decide) with
  | ⟨d, hd⟩ =>
    ⟨d, hd, createRawDeployment_strategy_override demoLib demoConstants
      "inferenceservice-config" (Except.ok testConfigMap)
      { name := "raw-foo-predictor", ns := "default", labels := some [] }
      { minReplicas := some 1, maxReplicas := 3,
        deploymentStrategy := some { type := "Recreate" } }
      { containers := [{ name := "kserve-container" }] }
      { type := "Recreate" } d hd rfl (Or.inl ⟨by decide, by decide⟩)⟩

/-- C15: `setDefaultDeploymentSpec` sets `RevisionHistoryLimit` to 10 and
`ProgressDeadlineSeconds` to 600 when the field is unset and keeps a value that is set; and
every Deployment that `createRawDeployment` returns has the values 10 and 600. -/
theorem revision_history_and_progress_deadline :
    (∀ (K : Constants) (spec : DeploymentSpec),
      (spec.revisionHistoryLimit = none →
        (setDefaultDeploymentSpec K spec).revisionHistoryLimit = some 10) ∧
      (∀ v, spec.revisionHistoryLimit = some v →
        (setDefaultDeploymentSpec K spec).revisionHistoryLimit = some v) ∧
      (spec.progressDeadlineSeconds = none →
        (setDefaultDeploymentSpec K spec).progressDeadlineSeconds = some 600) ∧
      (∀ v, spec.progressDeadlineSeconds = some v →
        (setDefaultDeploymentSpec K spec).progressDeadlineSeconds = some v)) ∧
    (∀ (L : Lib) (K : Constants) (configMapName : String) (cli : Except GoError ConfigMap)
      (componentMeta : ObjectMeta) (componentExt : Option ComponentExtensionSpec)
      (podSpec : PodSpec) (d : Deployment),
      createRawDeployment L K configMapName cli componentMeta componentExt podSpec
        = Except.ok d →
      d.spec.revisionHistoryLimit = some 10 ∧ d.spec.progressDeadlineSeconds = some 600) := by
  constructor
  · intro K spec
    refine ⟨?_, ?_, ?_, ?_⟩
    · intro h
      rw [setDefaultDeploymentSpec_revisionHistoryLimit, h]
      rfl
    · intro v h
      rw [setDefaultDeploymentSpec_revisionHistoryLimit, h]
      rfl
    · intro h
      rw [setDefaultDeploymentSpec_progressDeadlineSeconds, h]
      rfl
    · intro v h
      rw [setDefaultDeploymentSpec_progressDeadlineSeconds, h]
      rfl
  · intro L K configMapName cli componentMeta componentExt podSpec d hd
    obtain ⟨labels, ext, injected, -, -, -, hdep⟩ :=
      (createRawDeployment_ok_iff L K configMapName cli componentMeta componentExt podSpec d).1 hd
    subst hdep
    rw [assembleDeployment_spec, setDefaultDeploymentSpec_revisionHistoryLimit,
      setDefaultDeploymentSpec_progressDeadlineSeconds]
    exact ⟨rfl, rfl⟩

/-- C15, instances: a set revision history limit of 3 is kept while the unset progress
deadline becomes 600, and the Deployment of the package test has 10 and 600. -/
theorem revision_history_and_progress_deadline_witness :
    (setDefaultDeploymentSpec demoConstants
        { revisionHistoryLimit := some 3 }).revisionHistoryLimit = some 3 ∧
    (setDefaultDeploymentSpec demoConstants
        { revisionHistoryLimit := some 3 }).progressDeadlineSeconds = some 600 ∧
    ∃ d : Deployment,
      createRawDeployment demoLib demoConstants "inferenceservice-config"
          (Except.ok testConfigMap)
          { name := "raw-foo-predictor", ns := "default", labels := some [] }
          (some { minReplicas := some 1, maxReplicas := 3 })
          { containers := [{ name := "kserve-container" }] } = Except.ok d ∧
      d.spec.revisionHistoryLimit = some 10 ∧ d.spec.progressDeadlineSeconds = some 600 :=
  ⟨(revision_history_and_progress_deadline.1 demoConstants
      { revisionHistoryLimit := some 3 }).2.1 3 rfl,
    (revision_history_and_progress_deadline.1 demoConstants
      { revisionHistoryLimit := some 3 }).2.2.1 rfl,
    match exists_ok_of_isSome
        (createRawDeployment demoLib demoConstants "inferenceservice-config"
          (Except.ok testConfigMap)
          { name := "raw-foo-predictor", ns := "default", labels := some [] }
          (some { minReplicas := some 1, maxReplicas := 3 })
          { containers := [{ name := "kserve-container" }] }) (by decide) with
    | ⟨d, hd⟩ =>
      ⟨d, hd, revision_history_and_progress_deadline.2 demoLib demoConstants
        "inferenceservice-config" (Except.ok testConfigMap)
        { name := "raw-foo-predictor", ns := "default", labels := some [] }
        (some { minReplicas := some 1, maxReplicas := 3 })
        { containers := [{ name := "kserve-container" }] } d hd⟩⟩

/-- C16: whatever service account name the input pod spec carries, the pod template of every
Deployment that `createRawDeployment` returns has the service account name
`constants.KserveServiceAccountName`. -/
theorem createRawDeployment_service_account (L : Lib) (K : Constants)
    (configMapName : String) (cli : Except GoError ConfigMap) (componentMeta : ObjectMeta)
    (componentExt : Option ComponentExtensionSpec) (podSpec : PodSpec) (d : Deployment)
    (hd : createRawDeployment L K configMapName cli componentMeta componentExt podSpec
      = Except.ok d) :
    d.spec.template.spec.serviceAccountName = K.KserveServiceAccountName := by
  obtain ⟨labels, ext, injected, -, -, -, hdep⟩ :=
    (createRawDeployment_ok_iff L K configMapName cli componentMeta componentExt podSpec d).1 hd
  subst hdep
  rw [assembleDeployment_template]

/-- C16, an instance: the input pod spec names the service account "custom-sa", the built
pod template names "kserve-sa". -/
theorem createRawDeployment_service_account_witness :
    ∃ d : Deployment,
      createRawDeployment demoLib demoConstants "inferenceservice-config"
          (Except.ok testConfigMap)
          { name := "raw-foo-predictor", ns := "default", labels := some [] }
          (some { minReplicas := some 1, maxReplicas := 3 })
          { containers := [{ name := "kserve-container" }], serviceAccountName := "custom-sa" }
        = Except.ok d ∧
      d.spec.template.spec.serviceAccountName = "kserve-sa" :=
  match exists_ok_of_isSome
      (createRawDeployment demoLib demoConstants "inferenceservice-config"
        (Except.ok testConfigMap)
        { name := "raw-foo-predictor", ns := "default", labels := some [] }
        (some { minReplicas := some 1, maxReplicas := 3 })
        { containers := [{ name := "kserve-container" }], serviceAccountName := "custom-sa" })
      (by decide) with
  | ⟨d, hd⟩ =>
    ⟨d, hd, createRawDeployment_service_account demoLib demoConstants
      "inferenceservice-config" (Except.ok testConfigMap)
      { name := "raw-foo-predictor", ns := "default", labels := some [] }
      (some { minReplicas := some 1, maxReplicas := 3 })
      { containers := [{ name := "kserve-container" }], serviceAccountName := "custom-sa" }
      d hd⟩

/-! ## Defaulting of the pod spec -/

theorem setDefaultContainer_eq (K : Constants) (c : Container) :
    setDefaultContainer K c
      = { c with
          terminationMessagePath :=
            if c.terminationMessagePath = "" then "/dev/termination-log"
            else c.terminationMessagePath
          terminationMessagePolicy :=
            if c.terminationMessagePolicy = "" then "File" else c.terminationMessagePolicy
          imagePullPolicy :=
            if c.imagePullPolicy = "" then "IfNotPresent" else c.imagePullPolicy
          readinessProbe :=
            if (c.name = K.InferenceServiceContainerName
                  ∨ c.name = K.TransformerContainerName) ∧ c.readinessProbe = none then
              some (tcpReadinessProbe
                ((c.ports.head?.map (fun p => p.containerPort)).getD 8080))
            else c.readinessProbe } := by
  obtain ⟨name, image, command, args, ports, resources, liveness, readiness, mounts, path,
    policy, pull, commandNonNil, argsNonNil, portsNonNil, mountsNonNil, other⟩ := c
  by_cases h1 : path = "" <;> by_cases h2 : policy = "" <;> by_cases h3 : pull = "" <;>
    by_cases h4 : name = K.InferenceServiceContainerName ∨ name = K.TransformerContainerName <;>
    cases readiness <;> cases ports <;>
    simp [setDefaultContainer, h1, h2, h3, h4, TerminationMessageReadFile, PullIfNotPresent]

theorem setDefaultContainer_name (K : Constants) (c : Container) :
    (setDefaultContainer K c).name = c.name := by
  rw [setDefaultContainer_eq]

theorem setDefaultContainer_ports (K : Constants) (c : Container) :
    (setDefaultContainer K c).ports = c.ports := by
  rw [setDefaultContainer_eq]

theorem setDefaultContainer_terminationMessagePath (K : Constants) (c : Container) :
    (setDefaultContainer K c).terminationMessagePath
      = if c.terminationMessagePath = "" then "/dev/termination-log"
        else c.terminationMessagePath := by
  rw [setDefaultContainer_eq]

theorem setDefaultContainer_terminationMessagePolicy (K : Constants) (c : Container) :
    (setDefaultContainer K c).terminationMessagePolicy
      = if c.terminationMessagePolicy = "" then "File" else c.terminationMessagePolicy := by
  rw [setDefaultContainer_eq]

theorem setDefaultContainer_imagePullPolicy (K : Constants) (c : Container) :
    (setDefaultContainer K c).imagePullPolicy
      = if c.imagePullPolicy = "" then "IfNotPresent" else c.imagePullPolicy := by
  rw [setDefaultContainer_eq]

theorem setDefaultContainer_readinessProbe (K : Constants) (c : Container) :
    (setDefaultContainer K c).readinessProbe
      = if (c.name = K.InferenceServiceContainerName ∨ c.name = K.TransformerContainerName)
            ∧ c.readinessProbe = none then
          some (tcpReadinessProbe ((c.ports.head?.map (fun p => p.containerPort)).getD 8080))
        else c.readinessProbe := by
  rw [setDefaultContainer_eq]

theorem setDefaultPodSpec_eq (K : Constants) (podSpec : PodSpec) :
    setDefaultPodSpec K podSpec
      = { podSpec with
          containers := podSpec.containers.map (setDefaultContainer K)
          dnsPolicy := if podSpec.dnsPolicy = "" then "ClusterFirst" else podSpec.dnsPolicy
          restartPolicy :=
            if podSpec.restartPolicy = "" then "Always" else podSpec.restartPolicy
          terminationGracePeriodSeconds :=
            if podSpec.terminationGracePeriodSeconds = none then some 30
            else podSpec.terminationGracePeriodSeconds
          securityContext :=
            if podSpec.securityContext = none then
              some { runAsUser := none, runAsGroup := none, runAsNonRoot := none,
                     fsGroup := none }
            else podSpec.securityContext
          schedulerName :=
            if podSpec.schedulerName = "" then "default-scheduler"
            else podSpec.schedulerName } := by
  obtain ⟨containers, volumes, dns, restart, grace, security, scheduler, account,
    containersNonNil, volumesNonNil, other⟩ := podSpec
  by_cases h1 : dns = "" <;> by_cases h2 : restart = "" <;> by_cases h5 : scheduler = "" <;>
    cases grace <;> cases security <;>
    simp [setDefaultPodSpec, h1, h2, h5, DNSClusterFirst, RestartPolicyAlways,
      DefaultTerminationGracePeriodSeconds, DefaultSchedulerName]

theorem setDefaultPodSpec_containers (K : Constants) (podSpec : PodSpec) :
    (setDefaultPodSpec K podSpec).containers = podSpec.containers.map (setDefaultContainer K) := by
  rw [setDefaultPodSpec_eq]

theorem setDefaultPodSpec_getElem (K : Constants) (podSpec : PodSpec) (i : Nat)
    (c : Container) (hc : podSpec.containers[i]? = some c) :
    (setDefaultPodSpec K podSpec).containers[i]? = some (setDefaultContainer K c) := by
  rw [setDefaultPodSpec_containers, List.getElem?_map, hc]
  rfl

theorem setDefaultPodSpec_dnsPolicy (K : Constants) (podSpec : PodSpec) :
    (setDefaultPodSpec K podSpec).dnsPolicy
      = (if podSpec.dnsPolicy = "" then "ClusterFirst" else podSpec.dnsPolicy) := by
  rw [setDefaultPodSpec_eq]

theorem setDefaultPodSpec_restartPolicy (K : Constants) (podSpec : PodSpec) :
    (setDefaultPodSpec K podSpec).restartPolicy
      = (if podSpec.restartPolicy = "" then "Always" else podSpec.restartPolicy) := by
  rw [setDefaultPodSpec_eq]

theorem setDefaultPodSpec_terminationGracePeriodSeconds (K : Constants) (podSpec : PodSpec) :
    (setDefaultPodSpec K podSpec).terminationGracePeriodSeconds
      = (if podSpec.terminationGracePeriodSeconds = none then some 30
         else podSpec.terminationGracePeriodSeconds) := by
  rw [setDefaultPodSpec_eq]

theorem setDefaultPodSpec_securityContext (K : Constants) (podSpec : PodSpec) :
    (setDefaultPodSpec K podSpec).securityContext
      = (if podSpec.securityContext = none then
           some { runAsUser := none, runAsGroup := none, runAsNonRoot := none,
                  fsGroup := none }
         else podSpec.securityContext) := by
  rw [setDefaultPodSpec_eq]

theorem setDefaultPodSpec_schedulerName (K : Constants) (podSpec : PodSpec) :
    (setDefaultPodSpec K podSpec).schedulerName
      = (if podSpec.schedulerName = "" then "default-scheduler"
         else podSpec.schedulerName) := by
  rw [setDefaultPodSpec_eq]

/-- C17: after `setDefaultPodSpec`, a container named as the model-server container or as
the transformer container that had no readiness probe has the TCP-socket readiness probe
on its first declared container port, or on 8080 when it declares none, with initial delay
0, timeout 1, period 10, success threshold 1 and failure threshold 3; a container that had
a readiness probe keeps it; a container of any other name keeps what it had, so gets
none. -/
theorem setDefaultPodSpec_readiness_probe (K : Constants) (podSpec : PodSpec) (i : Nat)
    (c : Container) (hc : podSpec.containers[i]? = some c) :
    ∃ c1 : Container,
      (setDefaultPodSpec K podSpec).containers[i]? = some c1 ∧
      c1.name = c.name ∧
      ((c.name = K.InferenceServiceContainerName ∨ c.name = K.TransformerContainerName) →
        c.readinessProbe = none →
        c1.readinessProbe = some
          { handler :=
              { httpGet := none
                tcpSocket := some
                  { port :=
                      { type := IntStrType.int
                        intVal := (c.ports.head?.map (fun p => p.containerPort)).getD 8080
                        strVal := "" } } }
            initialDelaySeconds := 0
            timeoutSeconds := 1
            periodSeconds := 10
            successThreshold := 1
            failureThreshold := 3 }) ∧
      (∀ probe, c.readinessProbe = some probe → c1.readinessProbe = some probe) ∧
      (c.name ≠ K.InferenceServiceContainerName → c.name ≠ K.TransformerContainerName →
        c1.readinessProbe = c.readinessProbe) := by
  refine ⟨setDefaultContainer K c, setDefaultPodSpec_getElem K podSpec i c hc,
    setDefaultContainer_name K c, ?_, ?_, ?_⟩
  · intro hname hprobe
    rw [setDefaultContainer_readinessProbe, if_pos ⟨hname, hprobe⟩]
    rfl
  · intro probe hprobe
    rw [setDefaultContainer_readinessProbe, if_neg]
    · exact hprobe
    · rintro ⟨-, h⟩
      rw [hprobe] at h
      cases h
  · intro h1 h2
    rw [setDefaultContainer_readinessProbe, if_neg]
    rintro ⟨h | h, -⟩
    · exact h1 h
    · exact h2 h

/-- C17, the scenario of the package test: the model-server container without ports and
without probe gets the TCP-socket probe on port 8080. -/
theorem setDefaultPodSpec_readiness_probe_witness :
    ∃ c1 : Container,
      (setDefaultPodSpec demoConstants
          { containers := [{ name := "kserve-container" }] }).containers[0]? = some c1 ∧
      c1.readinessProbe = some
        { handler :=
            { httpGet := none
              tcpSocket := some
                { port := { type := IntStrType.int, intVal := 8080, strVal := "" } } }
          initialDelaySeconds := 0
          timeoutSeconds := 1
          periodSeconds := 10
          successThreshold := 1
          failureThreshold := 3 } :=
  match setDefaultPodSpec_readiness_probe demoConstants
      { containers := [{ name := "kserve-container" }] } 0 { name := "kserve-container" }
      rfl with
  | ⟨c1, hget, _, hprobe, _, _⟩ => ⟨c1, hget, hprobe (Or.inl rfl) rfl⟩

/-- C18: `setDefaultPodSpec` sets the DNS policy to "ClusterFirst", the restart policy to
"Always", the termination grace period to 30, the security context to the empty object and
the scheduler name to "default-scheduler", and for every container the termination message
path to "/dev/termination-log", the termination message policy to "File" and the image pull
policy to "IfNotPresent", each exactly when the field was unset; a field that was set keeps
its value. -/
theorem setDefaultPodSpec_fills_unset (K : Constants) (podSpec : PodSpec) :
    (setDefaultPodSpec K podSpec).dnsPolicy
        = (if podSpec.dnsPolicy = "" then "ClusterFirst" else podSpec.dnsPolicy) ∧
    (setDefaultPodSpec K podSpec).restartPolicy
        = (if podSpec.restartPolicy = "" then "Always" else podSpec.restartPolicy) ∧
    (setDefaultPodSpec K podSpec).terminationGracePeriodSeconds
        = (if podSpec.terminationGracePeriodSeconds = none then some 30
           else podSpec.terminationGracePeriodSeconds) ∧
    (setDefaultPodSpec K podSpec).securityContext
        = (if podSpec.securityContext = none then
             some { runAsUser := none, runAsGroup := none, runAsNonRoot := none,
                    fsGroup := none }
           else podSpec.securityContext) ∧
    (setDefaultPodSpec K podSpec).schedulerName
        = (if podSpec.schedulerName = "" then "default-scheduler"
           else podSpec.schedulerName) ∧
    (setDefaultPodSpec K podSpec).containers.length = podSpec.containers.length ∧
    ∀ (i : Nat) (c : Container), podSpec.containers[i]? = some c →
      ∃ c1 : Container,
        (setDefaultPodSpec K podSpec).containers[i]? = some c1 ∧
        c1.terminationMessagePath
          = (if c.terminationMessagePath = "" then "/dev/termination-log"
             else c.terminationMessagePath) ∧
        c1.terminationMessagePolicy
          = (if c.terminationMessagePolicy = "" then "File"
             else c.terminationMessagePolicy) ∧
        c1.imagePullPolicy
          = (if c.imagePullPolicy = "" then "IfNotPresent" else c.imagePullPolicy) := by
  refine ⟨setDefaultPodSpec_dnsPolicy K podSpec, setDefaultPodSpec_restartPolicy K podSpec,
    setDefaultPodSpec_terminationGracePeriodSeconds K podSpec,
    setDefaultPodSpec_securityContext K podSpec, setDefaultPodSpec_schedulerName K podSpec,
    ?_, ?_⟩
  · rw [setDefaultPodSpec_containers, List.length_map]
  · intro i c hc
    exact ⟨setDefaultContainer K c, setDefaultPodSpec_getElem K podSpec i c hc,
      setDefaultContainer_terminationMessagePath K c,
      setDefaultContainer_terminationMessagePolicy K c,
      setDefaultContainer_imagePullPolicy K c⟩

/-- C18, an instance: a pod spec with restart policy "Never" and a container with image pull
policy "Always" keeps both, and the unset fields get the defaults. -/
theorem setDefaultPodSpec_fills_unset_witness :
    (setDefaultPodSpec demoConstants
        { restartPolicy := "Never"
          containers := [{ name := "kserve-container", imagePullPolicy := "Always" }] }).restartPolicy
      = "Never" ∧
    (setDefaultPodSpec demoConstants
        { restartPolicy := "Never"
          containers := [{ name := "kserve-container", imagePullPolicy := "Always" }] }).dnsPolicy
      = "ClusterFirst" ∧
    ∃ c1 : Container,
      (setDefaultPodSpec demoConstants
          { restartPolicy := "Never"
            containers :=
              [{ name := "kserve-container", imagePullPolicy := "Always" }] }).containers[0]?
        = some c1 ∧
      c1.terminationMessagePath = "/dev/termination-log" ∧
      c1.terminationMessagePolicy = "File" ∧
      c1.imagePullPolicy = "Always" :=
  match setDefaultPodSpec_fills_unset demoConstants
      { restartPolicy := "Never"
        containers := [{ name := "kserve-container", imagePullPolicy := "Always" }] } with
  | ⟨hdns, hrestart, _, _, _, _, hcontainers⟩ =>
    ⟨hrestart, hdns,
      hcontainers 0 { name := "kserve-container", imagePullPolicy := "Always" } rfl⟩

/-! ## The configuration of the auth proxy -/

theorem oauthProxyContainer_ok (L : Lib) (s : OauthSettings) (upstreamPort namespace_ : String)
    (q1 q2 q3 q4 : Quantity)
    (h1 : L.parseQuantity s.cpuLimit = some q1) (h2 : L.parseQuantity s.memoryLimit = some q2)
    (h3 : L.parseQuantity s.cpuRequest = some q3)
    (h4 : L.parseQuantity s.memoryRequest = some q4) :
    oauthProxyContainer L s upstreamPort namespace_
      = Except.ok
          { name := "oauth-proxy"
            args := oauthProxyArgs upstreamPort namespace_
            image := s.image
            ports := [{ containerPort := OauthProxyPort, name := "https" }]
            livenessProbe := some (oauthProbe 30)
            readinessProbe := some (oauthProbe 5)
            resources :=
              { limits := [("cpu", q1), ("memory", q2)]
                requests := [("cpu", q3), ("memory", q4)] }
            volumeMounts := [{ name := tlsVolumeName, mountPath := "/etc/tls/private" }] } := by
  simp [oauthProxyContainer, MustParse, h1, h2, h3, h4]

theorem generateOauthProxyContainer_absent (L : Lib) (K : Constants) (configMapName : String)
    (e : GoError) (upstreamPort namespace_ : String) :
    generateOauthProxyContainer L K configMapName (Except.error e) upstreamPort namespace_
      = (match oauthProxyContainer L (defaultOauthSettings K) upstreamPort namespace_ with
         | Except.error f => Except.error f
         | Except.ok c => Except.ok (c, none)) := by
  rfl

theorem generateOauthProxyContainer_undecoded (L : Lib) (K : Constants)
    (configMapName : String) (configMap : ConfigMap) (msg upstreamPort namespace_ : String)
    (h : L.jsonUnmarshal ((configMap.data.get "deploy").getD "") = Except.error msg) :
    generateOauthProxyContainer L K configMapName (Except.ok configMap) upstreamPort namespace_
      = Except.ok ({}, some
          { message := "error retrieving value for key 'oauthProxy' from configmap "
              ++ configMapName ++ ". " ++ msg }) := by
  simp [generateOauthProxyContainer, h]

theorem injectOauthProxy_ok_of (L : Lib) (K : Constants) (configMapName : String)
    (cli : Except GoError ConfigMap) (componentMeta : ObjectMeta) (podSpec : PodSpec)
    (r : Container × Option GoError)
    (h : ∀ upstreamPort, generateOauthProxyContainer L K configMapName cli upstreamPort
      componentMeta.ns = Except.ok r) :
    ∃ injected, injectOauthProxy L K configMapName cli componentMeta podSpec
      = Except.ok injected := by
  unfold injectOauthProxy
  simp only [h]
  exact ⟨_, rfl⟩

theorem createRawDeployment_ok_of (L : Lib) (K : Constants) (configMapName : String)
    (cli : Except GoError ConfigMap) (componentMeta : ObjectMeta) (labels : Bindings)
    (ext : ComponentExtensionSpec) (podSpec : PodSpec) (r : Container × Option GoError)
    (hl : componentMeta.labels = some labels)
    (h : ∀ upstreamPort namespace_, generateOauthProxyContainer L K configMapName cli
      upstreamPort namespace_ = Except.ok r) :
    ∃ d, createRawDeployment L K configMapName cli componentMeta (some ext) podSpec
      = Except.ok d := by
  have hinj : ∃ injected, authPodSpec L K configMapName cli (withAppLabel componentMeta labels)
      (setDefaultPodSpec K podSpec) = Except.ok injected := by
    unfold authPodSpec
    split
    · exact injectOauthProxy_ok_of L K configMapName cli _ _ r (fun port => h port _)
    · exact ⟨_, rfl⟩
  obtain ⟨injected, hinj⟩ := hinj
  exact ⟨_, (createRawDeployment_ok_iff L K configMapName cli componentMeta (some ext)
    podSpec _).2 ⟨labels, ext, injected, hl, rfl, hinj, rfl⟩⟩

/-- C19: the code at the input of the package test with auth enabled (component
"raw-auth-predictor", label flag "true", one model-server container), whose ConfigMap has no
`deploy` entry. `generateOauthProxyContainer` returns an error together with the zero-valued
container, and the container the Deployment gains has the empty name, the empty image and no
resources, where the package test expects the container "oauth-proxy" with the hard-coded
image "oauth-proxy-image" and the hard-coded limits and requests. With no ConfigMap in the
cluster the generator returns that container without error, and the Deployment gains no
container at all. In both cases the build returns a Deployment. -/
theorem config_fallback_test_configmap :
    (generateOauthProxyContainer demoLib demoConstants "inferenceservice-config"
        (Except.ok testConfigMap) "8080" "default").toOption.map
      (fun r => (r.1, r.2.isSome)) = some ({}, true) ∧
    (createRawDeployment demoLib demoConstants "inferenceservice-config"
        (Except.ok testConfigMap)
        { name := "raw-auth-predictor", ns := "default",
          labels := some [("security.opendatahub.io/enable-auth", "true")] }
        (some { minReplicas := some 1, maxReplicas := 3 })
        { containers :=
            [{ name := "kserve-container", image := "tensorflow/serving:1.14.0" }] }).toOption.map
      (fun d => d.spec.template.spec.containers.map (fun c => (c.name, c.image, c.resources)))
      = some [("kserve-container", "tensorflow/serving:1.14.0", {}), ("", "", {})] ∧
    (generateOauthProxyContainer demoLib demoConstants "inferenceservice-config"
        (Except.error { isNotFound := true, message := "not found" }) "8080"
        "default").toOption.map
      (fun r => (r.1.name, r.1.image, r.1.resources, r.2))
      = some ("oauth-proxy", "oauth-proxy-image",
          { limits := [("cpu", { canonical := "200m" }), ("memory", { canonical := "128Mi" })]
            requests :=
              [("cpu", { canonical := "100m" }), ("memory", { canonical := "64Mi" })] },
          none) ∧
    (createRawDeployment demoLib demoConstants "inferenceservice-config"
        (Except.error { isNotFound := true, message := "not found" })
        { name := "raw-auth-predictor", ns := "default",
          labels := some [("security.opendatahub.io/enable-auth", "true")] }
        (some { minReplicas := some 1, maxReplicas := 3 })
        { containers :=
            [{ name := "kserve-container", image := "tensorflow/serving:1.14.0" }] }).toOption.map
      (fun d => d.spec.template.spec.containers.map (fun c => (c.name, c.image, c.resources)))
      = some [("kserve-container", "tensorflow/serving:1.14.0", {})] ∧
    demoConstants.OauthProxyImage = "oauth-proxy-image" := by
  refine ⟨?_, ?_, ?_, ?_, ?_⟩ <;> decide

/-- What `generateOauthProxyContainer` and the build do without a usable configuration, for
every input with the auth flag set and `componentExt` not nil. When the ConfigMap is absent
and the hard-coded quantities are well-formed, the generator returns without error the
container "oauth-proxy" with the hard-coded image, limits and requests, and the build
returns a Deployment. When the ConfigMap is present and its `deploy` entry (the empty text
when the entry is missing) fails to decode, the generator returns an error and the
zero-valued container, and the build returns a Deployment too. -/
theorem generateOauthProxyContainer_without_configuration (L : Lib) (K : Constants) (configMapName : String)
    (cli : Except GoError ConfigMap) (componentMeta : ObjectMeta)
    (ext : ComponentExtensionSpec) (podSpec : PodSpec)
    (hflag : componentMeta.labels.get K.ODHKserveRawAuth = some "true") :
    (∀ (e : GoError) (q1 q2 q3 q4 : Quantity), cli = Except.error e →
      L.parseQuantity K.OauthProxyResourceCPULimit = some q1 →
      L.parseQuantity K.OauthProxyResourceMemoryLimit = some q2 →
      L.parseQuantity K.OauthProxyResourceCPURequest = some q3 →
      L.parseQuantity K.OauthProxyResourceMemoryRequest = some q4 →
      (∃ d, createRawDeployment L K configMapName cli componentMeta (some ext) podSpec
        = Except.ok d) ∧
      ∀ upstreamPort namespace_ : String,
        ∃ c : Container,
          generateOauthProxyContainer L K configMapName cli upstreamPort namespace_
            = Except.ok (c, none) ∧
          c.name = "oauth-proxy" ∧ c.image = K.OauthProxyImage ∧
          c.resources =
            { limits := [("cpu", q1), ("memory", q2)]
              requests := [("cpu", q3), ("memory", q4)] }) ∧
    (∀ (configMap : ConfigMap) (msg : String), cli = Except.ok configMap →
      L.jsonUnmarshal ((configMap.data.get "deploy").getD "") = Except.error msg →
      (∃ d, createRawDeployment L K configMapName cli componentMeta (some ext) podSpec
        = Except.ok d) ∧
      ∀ upstreamPort namespace_ : String,
        ∃ err : GoError,
          generateOauthProxyContainer L K configMapName cli upstreamPort namespace_
            = Except.ok ({}, some err)) := by
  have hl : ∃ labels, componentMeta.labels = some labels := by
    cases h : componentMeta.labels with
    | none => rw [h] at hflag; cases hflag
    | some labels => exact ⟨labels, rfl⟩
  obtain ⟨labels, hl⟩ := hl
  constructor
  · intro e q1 q2 q3 q4 hcli h1 h2 h3 h4
    subst hcli
    have hgen : ∀ upstreamPort namespace_ : String,
        generateOauthProxyContainer L K configMapName (Except.error e) upstreamPort namespace_
          = Except.ok
            ({ name := "oauth-proxy"
               args := oauthProxyArgs upstreamPort namespace_
               image := K.OauthProxyImage
               ports := [{ containerPort := OauthProxyPort, name := "https" }]
               livenessProbe := some (oauthProbe 30)
               readinessProbe := some (oauthProbe 5)
               resources :=
                 { limits := [("cpu", q1), ("memory", q2)]
                   requests := [("cpu", q3), ("memory", q4)] }
               volumeMounts :=
                 [{ name := tlsVolumeName, mountPath := "/etc/tls/private" }] }, none) := by
      intro upstreamPort namespace_
      rw [generateOauthProxyContainer_absent,
        oauthProxyContainer_ok L (defaultOauthSettings K) upstreamPort namespace_ q1 q2 q3 q4
          h1 h2 h3 h4]
      rfl
    refine ⟨?_, ?_⟩
    · unfold createRawDeployment
      rw [hl]
      simp only []
      have hinj : ∃ injected, authPodSpec L K configMapName (Except.error e)
          (withAppLabel componentMeta labels) (setDefaultPodSpec K podSpec)
            = Except.ok injected := by
        unfold authPodSpec injectOauthProxy
        split
        · simp only [hgen]
          exact ⟨_, rfl⟩
        · exact ⟨_, rfl⟩
      obtain ⟨injected, hinj⟩ := hinj
      rw [hinj]
      exact ⟨_, rfl⟩
    · intro upstreamPort namespace_
      exact ⟨_, hgen upstreamPort namespace_, rfl, rfl, rfl⟩
  · intro configMap msg hcli hjson
    subst hcli
    refine ⟨?_, ?_⟩
    · exact createRawDeployment_ok_of L K configMapName (Except.ok configMap) componentMeta
        labels ext podSpec _ hl
        (fun port ns => generateOauthProxyContainer_undecoded L K configMapName configMap msg
          port ns hjson)
    · intro upstreamPort namespace_
      exact ⟨_, generateOauthProxyContainer_undecoded L K configMapName configMap msg
        upstreamPort namespace_ hjson⟩

/-- C20: the code at a ConfigMap whose `deploy` entry gives the strings
"custom-proxy-image", "500m", "256Mi", "250m" and "96Mi" for the five settings. The
container `generateOauthProxyContainer` returns has the hard-coded image
"oauth-proxy-image" and the hard-coded quantities 200m, 128Mi, 100m and 64Mi: a setting
whose configured value is a string is left at its hard-coded value. -/
theorem generateOauthProxyContainer_ignores_configured_strings :
    (generateOauthProxyContainer configuredLib demoConstants "inferenceservice-config"
        (Except.ok configuredConfigMap) "8080" "default").toOption.map
      (fun r => (r.1.name, r.1.image, r.1.resources, r.2))
    = some ("oauth-proxy", "oauth-proxy-image",
        { limits := [("cpu", { canonical := "200m" }), ("memory", { canonical := "128Mi" })]
          requests :=
            [("cpu", { canonical := "100m" }), ("memory", { canonical := "64Mi" })] },
        none) := by
  decide

/-! ## The existence checks and the drivers, call by call -/

theorem checkDeploymentExist_cases {σ : Type} (client : Client σ Deployment) (s : σ)
    (d : Deployment) :
    (∃ e, client.get s { ns := d.meta.ns, name := d.meta.name } = Except.error e ∧
      e.isNotFound = true ∧
      checkDeploymentExist client s d =
        { result := CheckResultType.CheckResultCreate, existing := none, err := none,
          desired := d, calls := [Call.get { ns := d.meta.ns, name := d.meta.name }] }) ∨
    (∃ e, client.get s { ns := d.meta.ns, name := d.meta.name } = Except.error e ∧
      e.isNotFound = false ∧
      checkDeploymentExist client s d =
        { result := CheckResultType.CheckResultUnknown, existing := none, err := some e,
          desired := d, calls := [Call.get { ns := d.meta.ns, name := d.meta.name }] }) ∨
    (∃ live e, client.get s { ns := d.meta.ns, name := d.meta.name } = Except.ok live ∧
      client.dryRunUpdate s d = Except.error e ∧
      checkDeploymentExist client s d =
        { result := CheckResultType.CheckResultUnknown, existing := none, err := some e,
          desired := d,
          calls := [Call.get { ns := d.meta.ns, name := d.meta.name },
                    Call.dryRunUpdate d] }) ∨
    (∃ live populated, client.get s { ns := d.meta.ns, name := d.meta.name } = Except.ok live ∧
      client.dryRunUpdate s d = Except.ok populated ∧
      deploymentSpecDiffers populated.spec live.spec = true ∧
      checkDeploymentExist client s d =
        { result := CheckResultType.CheckResultUpdate, existing := some live, err := none,
          desired := populated,
          calls := [Call.get { ns := d.meta.ns, name := d.meta.name },
                    Call.dryRunUpdate d] }) ∨
    (∃ live populated, client.get s { ns := d.meta.ns, name := d.meta.name } = Except.ok live ∧
      client.dryRunUpdate s d = Except.ok populated ∧
      deploymentSpecDiffers populated.spec live.spec = false ∧
      checkDeploymentExist client s d =
        { result := CheckResultType.CheckResultExisted, existing := some live, err := none,
          desired := populated,
          calls := [Call.get { ns := d.meta.ns, name := d.meta.name },
                    Call.dryRunUpdate d] }) := by
  cases hget : client.get s { ns := d.meta.ns, name := d.meta.name } with
  | error e =>
    cases hnf : e.isNotFound with
    | true =>
      left
      exact ⟨e, rfl, hnf, by simp [checkDeploymentExist, hget, hnf]⟩
    | false =>
      right; left
      exact ⟨e, rfl, hnf, by simp [checkDeploymentExist, hget, hnf]⟩
  | ok live =>
    cases hdry : client.dryRunUpdate s d with
    | error e =>
      right; right; left
      exact ⟨live, e, rfl, rfl, by simp [checkDeploymentExist, hget, hdry]⟩
    | ok populated =>
      cases hb : deploymentSpecDiffers populated.spec live.spec with
      | true =>
        right; right; right; left
        exact ⟨live, populated, rfl, rfl, hb, by simp [checkDeploymentExist, hget, hdry, hb]⟩
      | false =>
        right; right; right; right
        exact ⟨live, populated, rfl, rfl, hb, by simp [checkDeploymentExist, hget, hdry, hb]⟩

theorem checkServiceExist_cases {σ : Type} (client : Client σ Service) (s : σ)
    (svc : Service) :
    (∃ e, client.get s { ns := svc.meta.ns, name := svc.meta.name } = Except.error e ∧
      e.isNotFound = true ∧
      checkServiceExist client s svc =
        { result := CheckResultType.CheckResultCreate, existing := none, err := none,
          desired := svc, calls := [Call.get { ns := svc.meta.ns, name := svc.meta.name }] }) ∨
    (∃ e, client.get s { ns := svc.meta.ns, name := svc.meta.name } = Except.error e ∧
      e.isNotFound = false ∧
      checkServiceExist client s svc =
        { result := CheckResultType.CheckResultUnknown, existing := none, err := some e,
          desired := svc, calls := [Call.get { ns := svc.meta.ns, name := svc.meta.name }] }) ∨
    (∃ live, client.get s { ns := svc.meta.ns, name := svc.meta.name } = Except.ok live ∧
      semanticServiceEquals svc live = false ∧
      checkServiceExist client s svc =
        { result := CheckResultType.CheckResultUpdate, existing := some live, err := none,
          desired := svc, calls := [Call.get { ns := svc.meta.ns, name := svc.meta.name }] }) ∨
    (∃ live, client.get s { ns := svc.meta.ns, name := svc.meta.name } = Except.ok live ∧
      semanticServiceEquals svc live = true ∧
      checkServiceExist client s svc =
        { result := CheckResultType.CheckResultExisted, existing := some live, err := none,
          desired := svc, calls := [Call.get { ns := svc.meta.ns, name := svc.meta.name }] }) := by
  cases hget : client.get s { ns := svc.meta.ns, name := svc.meta.name } with
  | error e =>
    cases hnf : e.isNotFound with
    | true =>
      left
      exact ⟨e, rfl, hnf, by simp [checkServiceExist, hget, hnf]⟩
    | false =>
      right; left
      exact ⟨e, rfl, hnf, by simp [checkServiceExist, hget, hnf]⟩
  | ok live =>
    cases hb : semanticServiceEquals svc live with
    | false =>
      right; right; left
      exact ⟨live, rfl, hb, by simp [checkServiceExist, hget, hb]⟩
    | true =>
      right; right; right
      exact ⟨live, rfl, hb, by simp [checkServiceExist, hget, hb]⟩

theorem checkDeploymentExist_err_none {σ : Type} (client : Client σ Deployment) (s : σ)
    (d : Deployment)
    (h : (checkDeploymentExist client s d).result ≠ CheckResultType.CheckResultUnknown) :
    (checkDeploymentExist client s d).err = none := by
  rcases checkDeploymentExist_cases client s d with
    ⟨e, -, -, hc⟩ | ⟨e, -, -, hc⟩ | ⟨live, e, -, -, hc⟩ | ⟨live, p, -, -, -, hc⟩ |
    ⟨live, p, -, -, -, hc⟩
  all_goals rw [hc] at h ⊢
  all_goals simp at h ⊢

theorem checkServiceExist_err_none {σ : Type} (client : Client σ Service) (s : σ)
    (svc : Service)
    (h : (checkServiceExist client s svc).result ≠ CheckResultType.CheckResultUnknown) :
    (checkServiceExist client s svc).err = none := by
  rcases checkServiceExist_cases client s svc with
    ⟨e, -, -, hc⟩ | ⟨e, -, -, hc⟩ | ⟨live, -, -, hc⟩ | ⟨live, -, -, hc⟩
  all_goals rw [hc] at h ⊢
  all_goals simp at h ⊢

/-- C21: for the Deployment check and for the Service check, when the fetch of the live
object under the namespace and name of the desired object answers a not-found error, the
check result is Create, with no error and no live object, and the fetch is the only call
issued, so no dry-run update is attempted. -/
theorem not_found_means_create :
    (∀ (σ : Type) (client : Client σ Deployment) (s : σ) (d : Deployment) (e : GoError),
      client.get s { ns := d.meta.ns, name := d.meta.name } = Except.error e →
      e.isNotFound = true →
      (checkDeploymentExist client s d).result = CheckResultType.CheckResultCreate ∧
      (checkDeploymentExist client s d).err = none ∧
      (checkDeploymentExist client s d).existing = none ∧
      (checkDeploymentExist client s d).calls
        = [Call.get { ns := d.meta.ns, name := d.meta.name }]) ∧
    (∀ (σ : Type) (client : Client σ Service) (s : σ) (svc : Service) (e : GoError),
      client.get s { ns := svc.meta.ns, name := svc.meta.name } = Except.error e →
      e.isNotFound = true →
      (checkServiceExist client s svc).result = CheckResultType.CheckResultCreate ∧
      (checkServiceExist client s svc).err = none ∧
      (checkServiceExist client s svc).existing = none ∧
      (checkServiceExist client s svc).calls
        = [Call.get { ns := svc.meta.ns, name := svc.meta.name }]) := by
  constructor
  · intro σ client s d e hget hnf
    simp [checkDeploymentExist, hget, hnf]
  · intro σ client s svc e hget hnf
    simp [checkServiceExist, hget, hnf]

/-- C21, an instance: on the empty store the check of the Deployment "raw-foo-predictor"
answers Create after the fetch alone. -/
theorem not_found_means_create_witness :
    (checkDeploymentExist (storeClient deploymentKey) []
        { meta := { name := "raw-foo-predictor", ns := "default" } }).result
      = CheckResultType.CheckResultCreate ∧
    (checkDeploymentExist (storeClient deploymentKey) []
        { meta := { name := "raw-foo-predictor", ns := "default" } }).calls
      = [Call.get { ns := "default", name := "raw-foo-predictor" }] :=
  match not_found_means_create.1 (Store Deployment) (storeClient deploymentKey) []
      { meta := { name := "raw-foo-predictor", ns := "default" } }
      { isNotFound := true, message := "not found" } rfl rfl with
  | ⟨hresult, _, _, hcalls⟩ => ⟨hresult, hcalls⟩

/-- C22: for both reconcilers, when the fetch fails with an error that is not not-found, or
for the Deployment the dry-run update fails, the check result is Unknown and `Reconcile`
returns no object and that error, having issued no create and no persisting update and
left the cluster as it was; and when the create call or the update call fails, `Reconcile`
returns no object and that error. -/
theorem reconcile_propagates_errors :
    (∀ (σ : Type) (client : Client σ Deployment) (s : σ) (d : Deployment) (e : GoError),
      client.get s { ns := d.meta.ns, name := d.meta.name } = Except.error e →
      e.isNotFound = false →
      (checkDeploymentExist client s d).result = CheckResultType.CheckResultUnknown ∧
      (DeploymentReconciler.Reconcile client s d).value = none ∧
      (DeploymentReconciler.Reconcile client s d).err = some e ∧
      (DeploymentReconciler.Reconcile client s d).calls
        = [Call.get { ns := d.meta.ns, name := d.meta.name }] ∧
      (DeploymentReconciler.Reconcile client s d).state = s) ∧
    (∀ (σ : Type) (client : Client σ Deployment) (s : σ) (d live : Deployment) (e : GoError),
      client.get s { ns := d.meta.ns, name := d.meta.name } = Except.ok live →
      client.dryRunUpdate s d = Except.error e →
      (checkDeploymentExist client s d).result = CheckResultType.CheckResultUnknown ∧
      (DeploymentReconciler.Reconcile client s d).value = none ∧
      (DeploymentReconciler.Reconcile client s d).err = some e ∧
      (DeploymentReconciler.Reconcile client s d).calls
        = [Call.get { ns := d.meta.ns, name := d.meta.name }, Call.dryRunUpdate d] ∧
      (DeploymentReconciler.Reconcile client s d).state = s) ∧
    (∀ (σ : Type) (client : Client σ Deployment) (s s1 : σ) (d : Deployment) (e : GoError),
      (checkDeploymentExist client s d).result = CheckResultType.CheckResultCreate →
      client.create s (checkDeploymentExist client s d).desired = (Except.error e, s1) →
      (DeploymentReconciler.Reconcile client s d).value = none ∧
      (DeploymentReconciler.Reconcile client s d).err = some e) ∧
    (∀ (σ : Type) (client : Client σ Deployment) (s s1 : σ) (d : Deployment) (e : GoError),
      (checkDeploymentExist client s d).result = CheckResultType.CheckResultUpdate →
      client.update s (checkDeploymentExist client s d).desired = (Except.error e, s1) →
      (DeploymentReconciler.Reconcile client s d).value = none ∧
      (DeploymentReconciler.Reconcile client s d).err = some e) ∧
    (∀ (σ : Type) (client : Client σ Service) (s : σ) (svc : Service) (e : GoError),
      client.get s { ns := svc.meta.ns, name := svc.meta.name } = Except.error e →
      e.isNotFound = false →
      (checkServiceExist client s svc).result = CheckResultType.CheckResultUnknown ∧
      (ServiceReconciler.Reconcile client s svc).value = none ∧
      (ServiceReconciler.Reconcile client s svc).err = some e ∧
      (ServiceReconciler.Reconcile client s svc).calls
        = [Call.get { ns := svc.meta.ns, name := svc.meta.name }] ∧
      (ServiceReconciler.Reconcile client s svc).state = s) ∧
    (∀ (σ : Type) (client : Client σ Service) (s s1 : σ) (svc : Service) (e : GoError),
      (checkServiceExist client s svc).result = CheckResultType.CheckResultCreate →
      client.create s (checkServiceExist client s svc).desired = (Except.error e, s1) →
      (ServiceReconciler.Reconcile client s svc).value = none ∧
      (ServiceReconciler.Reconcile client s svc).err = some e) ∧
    (∀ (σ : Type) (client : Client σ Service) (s s1 : σ) (svc : Service) (e : GoError),
      (checkServiceExist client s svc).result = CheckResultType.CheckResultUpdate →
      client.update s (checkServiceExist client s svc).desired = (Except.error e, s1) →
      (ServiceReconciler.Reconcile client s svc).value = none ∧
      (ServiceReconciler.Reconcile client s svc).err = some e) := by
  refine ⟨?_, ?_, ?_, ?_, ?_, ?_, ?_⟩
  · intro σ client s d e hget hnf
    simp [DeploymentReconciler.Reconcile, reconcileWith, checkDeploymentExist, hget, hnf]
  · intro σ client s d live e hget hdry
    simp [DeploymentReconciler.Reconcile, reconcileWith, checkDeploymentExist, hget, hdry]
  · intro σ client s s1 d e hres hcreate
    have herr : (checkDeploymentExist client s d).err = none :=
      checkDeploymentExist_err_none client s d (by rw [hres]; decide)
    simp [DeploymentReconciler.Reconcile, reconcileWith, applyCheck, herr, hres, hcreate]
  · intro σ client s s1 d e hres hupdate
    have herr : (checkDeploymentExist client s d).err = none :=
      checkDeploymentExist_err_none client s d (by rw [hres]; decide)
    simp [DeploymentReconciler.Reconcile, reconcileWith, applyCheck, herr, hres, hupdate]
  · intro σ client s svc e hget hnf
    simp [ServiceReconciler.Reconcile, reconcileWith, checkServiceExist, hget, hnf]
  · intro σ client s s1 svc e hres hcreate
    have herr : (checkServiceExist client s svc).err = none :=
      checkServiceExist_err_none client s svc (by rw [hres]; decide)
    simp [ServiceReconciler.Reconcile, reconcileWith, applyCheck, herr, hres, hcreate]
  · intro σ client s s1 svc e hres hupdate
    have herr : (checkServiceExist client s svc).err = none :=
      checkServiceExist_err_none client s svc (by rw [hres]; decide)
    simp [ServiceReconciler.Reconcile, reconcileWith, applyCheck, herr, hres, hupdate]

/-- C22, instances: a client whose calls all fail with a timeout makes `Reconcile` of the
Deployment return no object and the timeout after the fetch alone; a client whose calls
all fail with a not-found error leads the Service reconciler to the create call, whose
failure is returned. -/
theorem reconcile_propagates_errors_witness :
    (DeploymentReconciler.Reconcile (brokenClient { message := "timeout" }) ()
        { meta := { name := "raw-foo-predictor", ns := "default" } }).err
      = some { isNotFound := false, message := "timeout" } ∧
    (DeploymentReconciler.Reconcile (brokenClient { message := "timeout" }) ()
        { meta := { name := "raw-foo-predictor", ns := "default" } }).calls
      = [Call.get { ns := "default", name := "raw-foo-predictor" }] ∧
    (ServiceReconciler.Reconcile (brokenClient { isNotFound := true, message := "gone" }) ()
        { meta := { name := "raw-foo-predictor", ns := "default" } }).value = none ∧
    (ServiceReconciler.Reconcile (brokenClient { isNotFound := true, message := "gone" }) ()
        { meta := { name := "raw-foo-predictor", ns := "default" } }).err
      = some { isNotFound := true, message := "gone" } :=
  match reconcile_propagates_errors.1 Unit (brokenClient { message := "timeout" }) ()
      { meta := { name := "raw-foo-predictor", ns := "default" } }
      { message := "timeout" } rfl rfl,
    reconcile_propagates_errors.2.2.2.2.2.1 Unit
      (brokenClient { isNotFound := true, message := "gone" }) () ()
      { meta := { name := "raw-foo-predictor", ns := "default" } }
      { isNotFound := true, message := "gone" } (by decide) rfl with
  | ⟨_, _, herr, hcalls, _⟩, ⟨hvalue, herr2⟩ => ⟨herr, hcalls, hvalue, herr2⟩

/-- C23: for both reconcilers, when the check result is Create, `Reconcile` issues after the
fetch exactly one create call, whose payload is the desired object; when it is Update it
issues after the fetch (and for the Deployment the dry-run) exactly one update call, whose
payload is the desired object (for the Deployment as the dry-run populated it); and when
that call succeeds `Reconcile` returns without error the desired object as the call left
it, which is what the client answers for it, not the fetched live object. -/
theorem driver_on_create_and_update :
    (∀ (σ : Type) (client : Client σ Deployment) (s : σ) (d : Deployment),
      (checkDeploymentExist client s d).result = CheckResultType.CheckResultCreate →
      (DeploymentReconciler.Reconcile client s d).calls
        = [Call.get { ns := d.meta.ns, name := d.meta.name }, Call.create d] ∧
      ∀ (stored : Deployment) (s1 : σ), client.create s d = (Except.ok stored, s1) →
        (DeploymentReconciler.Reconcile client s d).value = some stored ∧
        (DeploymentReconciler.Reconcile client s d).err = none ∧
        (DeploymentReconciler.Reconcile client s d).state = s1) ∧
    (∀ (σ : Type) (client : Client σ Deployment) (s : σ) (d : Deployment),
      (checkDeploymentExist client s d).result = CheckResultType.CheckResultUpdate →
      ∃ populated : Deployment,
        client.dryRunUpdate s d = Except.ok populated ∧
        (DeploymentReconciler.Reconcile client s d).calls
          = [Call.get { ns := d.meta.ns, name := d.meta.name }, Call.dryRunUpdate d,
             Call.update populated] ∧
        ∀ (stored : Deployment) (s1 : σ),
          client.update s populated = (Except.ok stored, s1) →
          (DeploymentReconciler.Reconcile client s d).value = some stored ∧
          (DeploymentReconciler.Reconcile client s d).err = none ∧
          (DeploymentReconciler.Reconcile client s d).state = s1) ∧
    (∀ (σ : Type) (client : Client σ Service) (s : σ) (svc : Service),
      (checkServiceExist client s svc).result = CheckResultType.CheckResultCreate →
      (ServiceReconciler.Reconcile client s svc).calls
        = [Call.get { ns := svc.meta.ns, name := svc.meta.name }, Call.create svc] ∧
      ∀ (stored : Service) (s1 : σ), client.create s svc = (Except.ok stored, s1) →
        (ServiceReconciler.Reconcile client s svc).value = some stored ∧
        (ServiceReconciler.Reconcile client s svc).err = none ∧
        (ServiceReconciler.Reconcile client s svc).state = s1) ∧
    (∀ (σ : Type) (client : Client σ Service) (s : σ) (svc : Service),
      (checkServiceExist client s svc).result = CheckResultType.CheckResultUpdate →
      (ServiceReconciler.Reconcile client s svc).calls
        = [Call.get { ns := svc.meta.ns, name := svc.meta.name }, Call.update svc] ∧
      ∀ (stored : Service) (s1 : σ), client.update s svc = (Except.ok stored, s1) →
        (ServiceReconciler.Reconcile client s svc).value = some stored ∧
        (ServiceReconciler.Reconcile client s svc).err = none ∧
        (ServiceReconciler.Reconcile client s svc).state = s1) := by
  refine ⟨?_, ?_, ?_, ?_⟩
  · intro σ client s d hres
    rcases checkDeploymentExist_cases client s d with
      ⟨e, -, -, hc⟩ | ⟨e, -, -, hc⟩ | ⟨live, e, -, -, hc⟩ | ⟨live, p, -, -, -, hc⟩ |
      ⟨live, p, -, -, -, hc⟩ <;> rw [hc] at hres <;> simp at hres
    constructor
    · cases hcr : client.create s d with
      | mk r s1 =>
        cases r <;>
          simp [DeploymentReconciler.Reconcile, reconcileWith, applyCheck, hc, hcr]
    · intro stored s1 hcr
      simp [DeploymentReconciler.Reconcile, reconcileWith, applyCheck, hc, hcr]
  · intro σ client s d hres
    rcases checkDeploymentExist_cases client s d with
      ⟨e, -, -, hc⟩ | ⟨e, -, -, hc⟩ | ⟨live, e, -, -, hc⟩ | ⟨live, p, -, hdry, -, hc⟩ |
      ⟨live, p, -, -, -, hc⟩ <;> rw [hc] at hres <;> simp at hres
    refine ⟨p, hdry, ?_, ?_⟩
    · cases hup : client.update s p with
      | mk r s1 =>
        cases r <;>
          simp [DeploymentReconciler.Reconcile, reconcileWith, applyCheck, hc, hup]
    · intro stored s1 hup
      simp [DeploymentReconciler.Reconcile, reconcileWith, applyCheck, hc, hup]
  · intro σ client s svc hres
    rcases checkServiceExist_cases client s svc with
      ⟨e, -, -, hc⟩ | ⟨e, -, -, hc⟩ | ⟨live, -, -, hc⟩ | ⟨live, -, -, hc⟩ <;>
      rw [hc] at hres <;> simp at hres
    constructor
    · cases hcr : client.create s svc with
      | mk r s1 =>
        cases r <;>
          simp [ServiceReconciler.Reconcile, reconcileWith, applyCheck, hc, hcr]
    · intro stored s1 hcr
      simp [ServiceReconciler.Reconcile, reconcileWith, applyCheck, hc, hcr]
  · intro σ client s svc hres
    rcases checkServiceExist_cases client s svc with
      ⟨e, -, -, hc⟩ | ⟨e, -, -, hc⟩ | ⟨live, -, -, hc⟩ | ⟨live, -, -, hc⟩ <;>
      rw [hc] at hres <;> simp at hres
    constructor
    · cases hup : client.update s svc with
      | mk r s1 =>
        cases r <;>
          simp [ServiceReconciler.Reconcile, reconcileWith, applyCheck, hc, hup]
    · intro stored s1 hup
      simp [ServiceReconciler.Reconcile, reconcileWith, applyCheck, hc, hup]

/-- C23, an instance: on the empty store the Deployment "raw-foo-predictor" is created by
one create call and `Reconcile` returns it. -/
theorem driver_on_create_and_update_witness :
    (DeploymentReconciler.Reconcile (storeClient deploymentKey) []
        { meta := { name := "raw-foo-predictor", ns := "default" } }).calls
      = [Call.get { ns := "default", name := "raw-foo-predictor" },
         Call.create { meta := { name := "raw-foo-predictor", ns := "default" } }] ∧
    (DeploymentReconciler.Reconcile (storeClient deploymentKey) []
        { meta := { name := "raw-foo-predictor", ns := "default" } }).value
      = some { meta := { name := "raw-foo-predictor", ns := "default" } } :=
  match driver_on_create_and_update.1 (Store Deployment) (storeClient deploymentKey) []
      { meta := { name := "raw-foo-predictor", ns := "default" } } (by decide) with
  | ⟨hcalls, hsuccess⟩ =>
    ⟨hcalls,
      (hsuccess { meta := { name := "raw-foo-predictor", ns := "default" } }
        [(({ ns := "default", name := "raw-foo-predictor" } : NamespacedName),
          ({ meta := { name := "raw-foo-predictor", ns := "default" } } : Deployment))]
        rfl).1⟩

/-- C24: for both reconcilers, when the check result is Existed, `Reconcile` returns without
error the live object the fetch answered, issues the fetch (and for the Deployment the
dry-run update) and no create or persisting update call, and leaves the cluster state as
it was. -/
theorem driver_on_existed :
    (∀ (σ : Type) (client : Client σ Deployment) (s : σ) (d : Deployment),
      (checkDeploymentExist client s d).result = CheckResultType.CheckResultExisted →
      ∃ live : Deployment,
        client.get s { ns := d.meta.ns, name := d.meta.name } = Except.ok live ∧
        (DeploymentReconciler.Reconcile client s d).value = some live ∧
        (DeploymentReconciler.Reconcile client s d).err = none ∧
        (DeploymentReconciler.Reconcile client s d).calls
          = [Call.get { ns := d.meta.ns, name := d.meta.name }, Call.dryRunUpdate d] ∧
        (DeploymentReconciler.Reconcile client s d).state = s) ∧
    (∀ (σ : Type) (client : Client σ Service) (s : σ) (svc : Service),
      (checkServiceExist client s svc).result = CheckResultType.CheckResultExisted →
      ∃ live : Service,
        client.get s { ns := svc.meta.ns, name := svc.meta.name } = Except.ok live ∧
        (ServiceReconciler.Reconcile client s svc).value = some live ∧
        (ServiceReconciler.Reconcile client s svc).err = none ∧
        (ServiceReconciler.Reconcile client s svc).calls
          = [Call.get { ns := svc.meta.ns, name := svc.meta.name }] ∧
        (ServiceReconciler.Reconcile client s svc).state = s) := by
  constructor
  · intro σ client s d hres
    rcases checkDeploymentExist_cases client s d with
      ⟨e, -, -, hc⟩ | ⟨e, -, -, hc⟩ | ⟨live, e, -, -, hc⟩ | ⟨live, p, -, -, -, hc⟩ |
      ⟨live, p, hget, -, -, hc⟩ <;> rw [hc] at hres <;> simp at hres
    refine ⟨live, hget, ?_⟩
    simp [DeploymentReconciler.Reconcile, reconcileWith, applyCheck, hc]
  · intro σ client s svc hres
    rcases checkServiceExist_cases client s svc with
      ⟨e, -, -, hc⟩ | ⟨e, -, -, hc⟩ | ⟨live, -, -, hc⟩ | ⟨live, hget, -, hc⟩ <;>
      rw [hc] at hres <;> simp at hres
    refine ⟨live, hget, ?_⟩
    simp [ServiceReconciler.Reconcile, reconcileWith, applyCheck, hc]

/-- C24, an instance: the store holds the Service "raw-foo-predictor" with cluster IP
"10.0.0.7"; the desired Service has the same ports and selector; `Reconcile` returns the
stored one after the fetch alone. -/
theorem driver_on_existed_witness :
    ∃ live : Service,
      (ServiceReconciler.Reconcile (storeClient serviceKey)
          [(({ ns := "default", name := "raw-foo-predictor" } : NamespacedName),
            ({ meta := { name := "raw-foo-predictor", ns := "default" }
               spec := { clusterIP := "10.0.0.7" } } : Service))]
          { meta := { name := "raw-foo-predictor", ns := "default" }
            spec := { clusterIP := "None" } }).value = some live ∧
      live.spec.clusterIP = "10.0.0.7" :=
  match driver_on_existed.2 (Store Service) (storeClient serviceKey)
      [(({ ns := "default", name := "raw-foo-predictor" } : NamespacedName),
        ({ meta := { name := "raw-foo-predictor", ns := "default" }
           spec := { clusterIP := "10.0.0.7" } } : Service))]
      { meta := { name := "raw-foo-predictor", ns := "default" }
        spec := { clusterIP := "None" } } (by decide) with
  | ⟨live, hget, hvalue, _, _, _⟩ =>
    ⟨live, hvalue, by
      have h : live = { meta := { name := "raw-foo-predictor", ns := "default" }
                        spec := { clusterIP := "10.0.0.7" } } :=
        (Except.ok.inj hget).symm
      rw [h]⟩

theorem Bindings.mem_of_get_eq_some (b : Bindings) (key val : String)
    (h : b.get key = some val) : ∃ kv ∈ b, kv.1 = key := by
  induction b with
  | nil => simp [Bindings.get] at h
  | cons kv rest ih =>
    obtain ⟨k, v⟩ := kv
    by_cases hk : k = key
    · exact ⟨(k, v), by simp, hk⟩
    · simp only [Bindings.get, hk, if_false] at h
      obtain ⟨kv, hmem, hkv⟩ := ih h
      exact ⟨kv, by simp [hmem], hkv⟩

theorem GoMap.get_eq_getD (m : GoMap) (key : String) :
    GoMap.get m key = Bindings.get (m.getD []) key := by
  cases m <;> rfl

theorem mapSemanticEqual_iff (a b : GoMap) :
    mapSemanticEqual a b = true ↔ ∀ key, GoMap.get a key = GoMap.get b key := by
  simp only [GoMap.get_eq_getD]
  unfold mapSemanticEqual
  simp only [Bool.and_eq_true, List.all_eq_true, decide_eq_true_eq]
  constructor
  · rintro ⟨h1, h2⟩ key
    cases hx : Bindings.get (a.getD []) key with
    | none =>
      cases hy : Bindings.get (b.getD []) key with
      | none => rfl
      | some w =>
        obtain ⟨kv, hmem, hkv⟩ := Bindings.mem_of_get_eq_some _ _ _ hy
        have := h2 kv hmem
        rw [hkv, hx, hy] at this
        exact this
    | some v =>
      obtain ⟨kv, hmem, hkv⟩ := Bindings.mem_of_get_eq_some _ _ _ hx
      have := h1 kv hmem
      rw [hkv, hx] at this
      exact this.symm
  · intro h
    exact ⟨fun kv _ => (h kv.1).symm, fun kv _ => h kv.1⟩

theorem goMapCmpEqual_iff (a b : GoMap) :
    GoMap.cmpEqual a b = true ↔
      ((a = none ↔ b = none) ∧ ∀ key, GoMap.get a key = GoMap.get b key) := by
  cases a with
  | none =>
    cases b with
    | none => simp [GoMap.cmpEqual]
    | some y => simp [GoMap.cmpEqual]
  | some x =>
    cases b with
    | none => simp [GoMap.cmpEqual]
    | some y =>
      have h : GoMap.cmpEqual (some x) (some y) = mapSemanticEqual (some x) (some y) := rfl
      rw [h, mapSemanticEqual_iff]
      simp

theorem elementsCmpEqual_iff {α : Type} [DecidableEq α] (a b : List α) :
    elementsCmpEqual (fun x y => decide (x = y)) a b = true ↔ a = b := by
  induction a generalizing b with
  | nil => cases b <;> simp [elementsCmpEqual]
  | cons x xs ih => cases b <;> simp [elementsCmpEqual, ih]

theorem sliceCmpEqual_iff {α : Type} [DecidableEq α] (a b : List α) (aNonNil bNonNil : Bool) :
    sliceCmpEqual (fun x y => decide (x = y)) a aNonNil b bNonNil = true ↔
      (a = b ∧ (a = [] → aNonNil = bNonNil)) := by
  cases a <;> simp [sliceCmpEqual, elementsCmpEqual_iff]

/-- C25: when the live Service is found, `checkServiceExist` answers Existed exactly when
the desired and the live `Spec.Ports` are equal and the desired and the live
`Spec.Selector` hold the same value under every key, and Update otherwise; so for any
other live Service with those ports and that selector, whatever its other fields and
whatever the cluster, the answer is the same. -/
theorem checkServiceExist_compares_ports_and_selector (σ : Type) (client : Client σ Service)
    (s : σ) (svc live : Service)
    (hget : client.get s { ns := svc.meta.ns, name := svc.meta.name } = Except.ok live) :
    ((checkServiceExist client s svc).result = CheckResultType.CheckResultExisted ↔
      (svc.spec.ports = live.spec.ports ∧
        ∀ key, GoMap.get svc.spec.selector key = GoMap.get live.spec.selector key)) ∧
    ((checkServiceExist client s svc).result = CheckResultType.CheckResultUpdate ↔
      ¬ (svc.spec.ports = live.spec.ports ∧
        ∀ key, GoMap.get svc.spec.selector key = GoMap.get live.spec.selector key)) ∧
    (∀ (τ : Type) (other : Client τ Service) (t : τ) (live1 : Service),
      other.get t { ns := svc.meta.ns, name := svc.meta.name } = Except.ok live1 →
      live1.spec.ports = live.spec.ports →
      (∀ key, GoMap.get live1.spec.selector key = GoMap.get live.spec.selector key) →
      (checkServiceExist other t svc).result = (checkServiceExist client s svc).result) := by
  have hsem : ∀ x : Service, semanticServiceEquals svc x = true ↔
      (svc.spec.ports = x.spec.ports ∧
        ∀ key, GoMap.get svc.spec.selector key = GoMap.get x.spec.selector key) := by
    intro x
    simp [semanticServiceEquals, mapSemanticEqual_iff]
  have hres : ∀ (τ : Type) (c : Client τ Service) (t : τ) (x : Service),
      c.get t { ns := svc.meta.ns, name := svc.meta.name } = Except.ok x →
      (checkServiceExist c t svc).result =
        (if semanticServiceEquals svc x = true then CheckResultType.CheckResultExisted
         else CheckResultType.CheckResultUpdate) := by
    intro τ c t x hx
    cases hb : semanticServiceEquals svc x <;> simp [checkServiceExist, hx, hb]
  refine ⟨?_, ?_, ?_⟩
  · rw [hres σ client s live hget, ← hsem live]
    cases semanticServiceEquals svc live <;> simp
  · rw [hres σ client s live hget, ← hsem live]
    cases semanticServiceEquals svc live <;> simp
  · intro τ other t live1 hget1 hports hsel
    rw [hres τ other t live1 hget1, hres σ client s live hget]
    have : semanticServiceEquals svc live1 = semanticServiceEquals svc live := by
      rw [Bool.eq_iff_iff, hsem live1, hsem live, hports]
      constructor
      · rintro ⟨h1, h2⟩
        exact ⟨h1, fun key => (h2 key).trans (hsel key)⟩
      · rintro ⟨h1, h2⟩
        exact ⟨h1, fun key => (h2 key).trans (hsel key).symm⟩
    rw [this]

/-- C25, an instance: the live Service differs from the desired one in cluster IP, type and
annotations, has the same ports and selector, and is classified Existed. -/
theorem checkServiceExist_compares_ports_and_selector_witness :
    (checkServiceExist (storeClient serviceKey)
        [(({ ns := "default", name := "raw-foo-predictor" } : NamespacedName),
          ({ meta := { name := "raw-foo-predictor", ns := "default",
                       annotations := some [("managed-by", "platform")] }
             spec := { ports := [{ name := "http", port := 80 }]
                       selector := some [("app", "isvc.raw-foo-predictor")]
                       clusterIP := "10.0.0.7", type := "ClusterIP" } } : Service))]
        { meta := { name := "raw-foo-predictor", ns := "default" }
          spec := { ports := [{ name := "http", port := 80 }]
                    selector := some [("app", "isvc.raw-foo-predictor")]
                    clusterIP := "None" } }).result
      = CheckResultType.CheckResultExisted :=
  (checkServiceExist_compares_ports_and_selector (Store Service) (storeClient serviceKey)
    [(({ ns := "default", name := "raw-foo-predictor" } : NamespacedName),
      ({ meta := { name := "raw-foo-predictor", ns := "default",
                   annotations := some [("managed-by", "platform")] }
         spec := { ports := [{ name := "http", port := 80 }]
                   selector := some [("app", "isvc.raw-foo-predictor")]
                   clusterIP := "10.0.0.7", type := "ClusterIP" } } : Service))]
    { meta := { name := "raw-foo-predictor", ns := "default" }
      spec := { ports := [{ name := "http", port := 80 }]
                selector := some [("app", "isvc.raw-foo-predictor")]
                clusterIP := "None" } }
    { meta := { name := "raw-foo-predictor", ns := "default",
                annotations := some [("managed-by", "platform")] }
      spec := { ports := [{ name := "http", port := 80 }]
                selector := some [("app", "isvc.raw-foo-predictor")]
                clusterIP := "10.0.0.7", type := "ClusterIP" } }
    (by decide)).1.2 ⟨rfl, fun _ => rfl⟩

/-! ## The identity of the built objects -/

/-- C26: every Deployment that `createRawDeployment` returns and every Service that
`createService` returns for a `componentMeta` have its name and namespace as metadata name
and namespace, and so has the pod template of the Deployment. -/
theorem built_objects_carry_identity (L : Lib) (K : Constants) (configMapName : String)
    (cli : Except GoError ConfigMap) (componentMeta : ObjectMeta)
    (componentExt serviceExt : Option ComponentExtensionSpec) (podSpec servicePodSpec : PodSpec)
    (d : Deployment) (svc : Service)
    (hd : createRawDeployment L K configMapName cli componentMeta componentExt podSpec
      = Except.ok d)
    (hs : createService K componentMeta serviceExt servicePodSpec = Except.ok svc) :
    d.meta.name = componentMeta.name ∧ d.meta.ns = componentMeta.ns ∧
    d.spec.template.meta.name = componentMeta.name ∧
    d.spec.template.meta.ns = componentMeta.ns ∧
    svc.meta.name = componentMeta.name ∧ svc.meta.ns = componentMeta.ns := by
  obtain ⟨servicePorts, -, hsvc⟩ :=
    (createService_ok_iff K componentMeta serviceExt servicePodSpec svc).1 hs
  obtain ⟨labels, ext, injected, -, -, -, hdep⟩ :=
    (createRawDeployment_ok_iff L K configMapName cli componentMeta componentExt podSpec d).1 hd
  subst hdep
  rw [assembleDeployment_meta, assembleDeployment_template]
  refine ⟨rfl, rfl, rfl, rfl, ?_, ?_⟩
  · subst hsvc
    split <;> rfl
  · subst hsvc
    split <;> rfl

/-- C26, the end-to-end scenario: component "raw-foo-predictor" in namespace "default", one
model-server container without ports, no overrides, no auth flag. The Deployment is named
"raw-foo-predictor", with RollingUpdate 25%/25%, revision history limit 10 and progress
deadline 600; the Service is named "raw-foo-predictor" and has the one port 80 -> 8080. -/
theorem built_objects_carry_identity_witness :
    createRawDeployment demoLib demoConstants "inferenceservice-config"
        (Except.ok testConfigMap)
        { name := "raw-foo-predictor", ns := "default", labels := some [] }
        (some { minReplicas := some 1, maxReplicas := 3 })
        { containers := [{ name := "kserve-container" }] }
      = Except.ok
        { meta :=
            { name := "raw-foo-predictor", ns := "default",
              labels := some [("app", "isvc.raw-foo-predictor")] }
          spec :=
            { selector := some { matchLabels := some [("app", "isvc.raw-foo-predictor")] }
              template :=
                { meta :=
                    { name := "raw-foo-predictor", ns := "default",
                      labels := some [("app", "isvc.raw-foo-predictor")] }
                  spec :=
                    { containers :=
                        [{ name := "kserve-container"
                           readinessProbe := some
                             { handler :=
                                 { tcpSocket := some
                                     { port := { type := IntStrType.int, intVal := 8080 } } }
                               initialDelaySeconds := 0
                               timeoutSeconds := 1
                               periodSeconds := 10
                               successThreshold := 1
                               failureThreshold := 3 }
                           terminationMessagePath := "/dev/termination-log"
                           terminationMessagePolicy := "File"
                           imagePullPolicy := "IfNotPresent" }]
                      dnsPolicy := "ClusterFirst"
                      restartPolicy := "Always"
                      terminationGracePeriodSeconds := some 30
                      securityContext := some {}
                      schedulerName := "default-scheduler"
                      serviceAccountName := "kserve-sa" } }
              strategy :=
                { type := "RollingUpdate"
                  rollingUpdate := some
                    { maxUnavailable := some { type := IntStrType.string, strVal := "25%" }
                      maxSurge := some { type := IntStrType.string, strVal := "25%" } } }
              revisionHistoryLimit := some 10
              progressDeadlineSeconds := some 600 } } ∧
    createService demoConstants
        { name := "raw-foo-predictor", ns := "default", labels := some [] }
        (some { minReplicas := some 1, maxReplicas := 3 })
        { containers := [{ name := "kserve-container" }] }
      = Except.ok
        { meta := { name := "raw-foo-predictor", ns := "default", labels := some [] }
          spec :=
            { selector := some [("app", "isvc.raw-foo-predictor")]
              ports :=
                [{ name := "raw-foo-predictor", protocol := "TCP", port := 80,
                   targetPort := { type := IntStrType.int, intVal := 8080 } }]
              clusterIP := "None" } } ∧
    ("raw-foo-predictor" : String) = "raw-foo-predictor" ∧
    ("default" : String) = "default" :=
  have hd : createRawDeployment demoLib demoConstants "inferenceservice-config"
      (Except.ok testConfigMap)
      { name := "raw-foo-predictor", ns := "default", labels := some [] }
      (some { minReplicas := some 1, maxReplicas := 3 })
      { containers := [{ name := "kserve-container" }] }
    = Except.ok
      { meta :=
          { name := "raw-foo-predictor", ns := "default",
            labels := some [("app", "isvc.raw-foo-predictor")] }
        spec :=
          { selector := some { matchLabels := some [("app", "isvc.raw-foo-predictor")] }
            template :=
              { meta :=
                  { name := "raw-foo-predictor", ns := "default",
                    labels := some [("app", "isvc.raw-foo-predictor")] }
                spec :=
                  { containers :=
                      [{ name := "kserve-container"
                         readinessProbe := some
                           { handler :=
                               { tcpSocket := some
                                   { port := { type := IntStrType.int, intVal := 8080 } } }
                             initialDelaySeconds := 0
                             timeoutSeconds := 1
                             periodSeconds := 10
                             successThreshold := 1
                             failureThreshold := 3 }
                         terminationMessagePath := "/dev/termination-log"
                         terminationMessagePolicy := "File"
                         imagePullPolicy := "IfNotPresent" }]
                    dnsPolicy := "ClusterFirst"
                    restartPolicy := "Always"
                    terminationGracePeriodSeconds := some 30
                    securityContext := some {}
                    schedulerName := "default-scheduler"
                    serviceAccountName := "kserve-sa" } }
            strategy :=
              { type := "RollingUpdate"
                rollingUpdate := some
                  { maxUnavailable := some { type := IntStrType.string, strVal := "25%" }
                    maxSurge := some { type := IntStrType.string, strVal := "25%" } } }
            revisionHistoryLimit := some 10
            progressDeadlineSeconds := some 600 } } := by decide
  have hs : createService demoConstants
      { name := "raw-foo-predictor", ns := "default", labels := some [] }
      (some { minReplicas := some 1, maxReplicas := 3 })
      { containers := [{ name := "kserve-container" }] }
    = Except.ok
      { meta := { name := "raw-foo-predictor", ns := "default", labels := some [] }
        spec :=
          { selector := some [("app", "isvc.raw-foo-predictor")]
            ports :=
              [{ name := "raw-foo-predictor", protocol := "TCP", port := 80,
                 targetPort := { type := IntStrType.int, intVal := 8080 } }]
            clusterIP := "None" } } := by decide
  match built_objects_carry_identity demoLib demoConstants "inferenceservice-config"
      (Except.ok testConfigMap)
      { name := "raw-foo-predictor", ns := "default", labels := some [] }
      (some { minReplicas := some 1, maxReplicas := 3 })
      (some { minReplicas := some 1, maxReplicas := 3 })
      { containers := [{ name := "kserve-container" }] }
      { containers := [{ name := "kserve-container" }] } _ _ hd hs with
  | ⟨hname, hns, _, _, _, _⟩ => ⟨hd, hs, hname, hns⟩

/-! ## The auth proxy: upstream port, container and volume -/

theorem injectOauthProxy_ok_iff (L : Lib) (K : Constants) (configMapName : String)
    (cli : Except GoError ConfigMap) (componentMeta : ObjectMeta) (podSpec injected : PodSpec) :
    injectOauthProxy L K configMapName cli componentMeta podSpec = Except.ok injected ↔
      ∃ (c : Container) (err : Option GoError),
        generateOauthProxyContainer L K configMapName cli
          (if GetKServeContainerPort podSpec.containers = "" then
             InferenceServiceDefaultHttpPort
           else GetKServeContainerPort podSpec.containers) componentMeta.ns
          = Except.ok (c, err) ∧
        injected =
          { podSpec with
            containers :=
              if err.isSome = true then podSpec.containers ++ [c] else podSpec.containers
            volumes := podSpec.volumes ++ [tlsSecretVolume componentMeta] } := by
  unfold injectOauthProxy
  simp only []
  cases hgen : generateOauthProxyContainer L K configMapName cli
      (if GetKServeContainerPort podSpec.containers = "" then InferenceServiceDefaultHttpPort
       else GetKServeContainerPort podSpec.containers) componentMeta.ns with
  | error f => simp
  | ok r =>
    obtain ⟨c, err⟩ := r
    simp only [Except.ok.injEq, Prod.mk.injEq]
    constructor
    · intro h
      refine ⟨c, err, ⟨rfl, rfl⟩, ?_⟩
      rw [← h]
      cases err <;> rfl
    · rintro ⟨c1, err1, ⟨hc, he⟩, hinj⟩
      subst hc he
      rw [hinj]
      cases c1err : err <;> rfl

theorem oauthProxyContainer_ok_iff (L : Lib) (s : OauthSettings)
    (upstreamPort namespace_ : String) (c : Container) :
    oauthProxyContainer L s upstreamPort namespace_ = Except.ok c ↔
      ∃ q1 q2 q3 q4 : Quantity,
        L.parseQuantity s.cpuLimit = some q1 ∧ L.parseQuantity s.memoryLimit = some q2 ∧
        L.parseQuantity s.cpuRequest = some q3 ∧ L.parseQuantity s.memoryRequest = some q4 ∧
        c =
          { name := "oauth-proxy"
            args := oauthProxyArgs upstreamPort namespace_
            image := s.image
            ports := [{ containerPort := OauthProxyPort, name := "https" }]
            livenessProbe := some (oauthProbe 30)
            readinessProbe := some (oauthProbe 5)
            resources :=
              { limits := [("cpu", q1), ("memory", q2)]
                requests := [("cpu", q3), ("memory", q4)] }
            volumeMounts := [{ name := tlsVolumeName, mountPath := "/etc/tls/private" }] } := by
  constructor
  · intro h
    cases h1 : L.parseQuantity s.cpuLimit with
    | none => simp [oauthProxyContainer, MustParse, h1] at h
    | some q1 =>
      cases h2 : L.parseQuantity s.memoryLimit with
      | none => simp [oauthProxyContainer, MustParse, h1, h2] at h
      | some q2 =>
        cases h3 : L.parseQuantity s.cpuRequest with
        | none => simp [oauthProxyContainer, MustParse, h1, h2, h3] at h
        | some q3 =>
          cases h4 : L.parseQuantity s.memoryRequest with
          | none => simp [oauthProxyContainer, MustParse, h1, h2, h3, h4] at h
          | some q4 =>
            rw [oauthProxyContainer_ok L s upstreamPort namespace_ q1 q2 q3 q4 h1 h2 h3 h4] at h
            exact ⟨q1, q2, q3, q4, rfl, rfl, rfl, rfl, (Except.ok.inj h).symm⟩
  · rintro ⟨q1, q2, q3, q4, h1, h2, h3, h4, hc⟩
    rw [hc]
    exact oauthProxyContainer_ok L s upstreamPort namespace_ q1 q2 q3 q4 h1 h2 h3 h4

theorem generateOauthProxyContainer_decoded (L : Lib) (K : Constants)
    (configMapName : String) (configMap : ConfigMap) (oauthData : List (String × JsonValue))
    (upstreamPort namespace_ : String)
    (h : L.jsonUnmarshal ((configMap.data.get "deploy").getD "") = Except.ok oauthData) :
    generateOauthProxyContainer L K configMapName (Except.ok configMap) upstreamPort namespace_
      = (match oauthProxyContainer L (applyOauthData oauthData (defaultOauthSettings K))
            upstreamPort namespace_ with
         | Except.error f => Except.error f
         | Except.ok c => Except.ok (c, none)) := by
  simp [generateOauthProxyContainer, h]

theorem generateOauthProxyContainer_ok_none (L : Lib) (K : Constants)
    (configMapName : String) (cli : Except GoError ConfigMap)
    (upstreamPort namespace_ : String) (c : Container)
    (h : generateOauthProxyContainer L K configMapName cli upstreamPort namespace_
      = Except.ok (c, none)) :
    ∃ settings : OauthSettings,
      oauthProxyContainer L settings upstreamPort namespace_ = Except.ok c := by
  cases cli with
  | error e =>
    rw [generateOauthProxyContainer_absent] at h
    refine ⟨defaultOauthSettings K, ?_⟩
    cases hc : oauthProxyContainer L (defaultOauthSettings K) upstreamPort namespace_ with
    | error f => rw [hc] at h; cases h
    | ok c1 =>
      rw [hc] at h
      cases h
      rfl
  | ok configMap =>
    cases hj : L.jsonUnmarshal ((configMap.data.get "deploy").getD "") with
    | error msg =>
      rw [generateOauthProxyContainer_undecoded L K configMapName configMap msg _ _ hj] at h
      cases h
    | ok oauthData =>
      rw [generateOauthProxyContainer_decoded L K configMapName configMap oauthData _ _ hj] at h
      refine ⟨applyOauthData oauthData (defaultOauthSettings K), ?_⟩
      cases hc : oauthProxyContainer L (applyOauthData oauthData (defaultOauthSettings K))
          upstreamPort namespace_ with
      | error f => rw [hc] at h; cases h
      | ok c1 =>
        rw [hc] at h
        cases h
        rfl

theorem GetKServeContainerPort_map_setDefaultContainer (K : Constants)
    (containers : List Container) :
    GetKServeContainerPort (containers.map (setDefaultContainer K))
      = GetKServeContainerPort containers := by
  induction containers with
  | nil => rfl
  | cons c rest ih =>
    simp only [List.map_cons, GetKServeContainerPort, setDefaultContainer_name,
      setDefaultContainer_ports, ih]

theorem authEnabled_withAppLabel (K : Constants) (componentMeta : ObjectMeta)
    (labels : Bindings) (hl : componentMeta.labels = some labels)
    (hflag : GoMap.get componentMeta.labels K.ODHKserveRawAuth = some "true")
    (hkey : K.ODHKserveRawAuth ≠ "app") :
    authEnabled K (withAppLabel componentMeta labels).labels = true := by
  rw [hl] at hflag
  have h : Bindings.get (labels.set "app" (GetRawServiceLabel componentMeta.name))
      K.ODHKserveRawAuth = some "true" := by
    rw [Bindings.get_set_other _ _ _ _ (fun h => hkey h.symm)]
    exact hflag
  simp [authEnabled, withAppLabel, GoMap.get, h]

theorem createRawDeployment_auth_ok (L : Lib) (K : Constants) (configMapName : String)
    (cli : Except GoError ConfigMap) (componentMeta : ObjectMeta)
    (componentExt : Option ComponentExtensionSpec) (podSpec : PodSpec) (d : Deployment)
    (hflag : GoMap.get componentMeta.labels K.ODHKserveRawAuth = some "true")
    (hkey : K.ODHKserveRawAuth ≠ "app")
    (hd : createRawDeployment L K configMapName cli componentMeta componentExt podSpec
      = Except.ok d) :
    ∃ (c : Container) (err : Option GoError),
      generateOauthProxyContainer L K configMapName cli
        (if GetKServeContainerPort podSpec.containers = "" then "8080"
         else GetKServeContainerPort podSpec.containers) componentMeta.ns
        = Except.ok (c, err) ∧
      d.spec.template.spec.containers =
        (if err.isSome = true then (setDefaultPodSpec K podSpec).containers ++ [c]
         else (setDefaultPodSpec K podSpec).containers) ∧
      d.spec.template.spec.volumes = podSpec.volumes ++
        [{ name := "proxy-tls"
           secret := some { secretName := componentMeta.name, defaultMode := some 420 } }] := by
  obtain ⟨labels, ext, injected, hl, -, hinj, hdep⟩ :=
    (createRawDeployment_ok_iff L K configMapName cli componentMeta componentExt podSpec d).1 hd
  have hauth := authEnabled_withAppLabel K componentMeta labels hl hflag hkey
  unfold authPodSpec at hinj
  rw [if_pos hauth] at hinj
  obtain ⟨c, err, hgen, hinjected⟩ :=
    (injectOauthProxy_ok_iff L K configMapName cli _ _ injected).1 hinj
  rw [setDefaultPodSpec_containers, GetKServeContainerPort_map_setDefaultContainer] at hgen
  refine ⟨c, err, hgen, ?_, ?_⟩
  · subst hdep
    rw [assembleDeployment_template, hinjected]
  · subst hdep
    rw [assembleDeployment_template, hinjected, setDefaultPodSpec_eq]
    rfl

/-- The function `GetKServeContainerPort` returns the decimal rendering of the first declared
port of the first container named "kserve-container" that declares a port, and the empty
string when no container of that name declares one; the defaulting of the pod spec does not
change it. -/
theorem GetKServeContainerPort_first_port :
    (∀ (containers : List Container) (c : Container) (p : ContainerPort)
        (ps : List ContainerPort),
      containers.find? (fun c => decide (c.name = "kserve-container" ∧ c.ports ≠ []))
        = some c →
      c.ports = p :: ps →
      GetKServeContainerPort containers = toString p.containerPort) ∧
    (∀ containers : List Container,
      (∀ c ∈ containers, c.name = "kserve-container" → c.ports = []) →
      GetKServeContainerPort containers = "") ∧
    (∀ (K : Constants) (podSpec : PodSpec),
      GetKServeContainerPort (setDefaultPodSpec K podSpec).containers
        = GetKServeContainerPort podSpec.containers) := by
  refine ⟨?_, ?_, ?_⟩
  · intro containers c p ps hfind hports
    induction containers with
    | nil => simp at hfind
    | cons c0 rest ih =>
      by_cases hname : c0.name = "kserve-container"
      · cases hp0 : c0.ports with
        | nil =>
          simp only [List.find?, hname, hp0, ne_eq, not_true_eq_false, and_false,
            decide_False] at hfind
          simp only [GetKServeContainerPort, hname, if_true, hp0]
          exact ih hfind
        | cons q qs =>
          simp [List.find?, hname, hp0] at hfind
          subst hfind
          rw [hp0] at hports
          cases hports
          simp [GetKServeContainerPort, hname, hp0, Itoa]
      · simp only [List.find?, hname, false_and, decide_False] at hfind
        simp only [GetKServeContainerPort, hname, if_false]
        exact ih hfind
  · intro containers hall
    induction containers with
    | nil => rfl
    | cons c0 rest ih =>
      have hrest : ∀ c ∈ rest, c.name = "kserve-container" → c.ports = [] :=
        fun c hc => hall c (List.mem_cons_of_mem _ hc)
      by_cases hname : c0.name = "kserve-container"
      · have hp0 := hall c0 (List.mem_cons_self _ _) hname
        simp only [GetKServeContainerPort, hname, if_true, hp0]
        exact ih hrest
      · simp only [GetKServeContainerPort, hname, if_false]
        exact ih hrest
  · intro K podSpec
    rw [setDefaultPodSpec_containers, GetKServeContainerPort_map_setDefaultContainer]

/-- C27: the code at the input of the package test with auth enabled (component
"raw-auth-predictor", label flag "true"), whose model-server container declares no port.
`GetKServeContainerPort` answers the empty string, so the generator is called for "8080".
With the ConfigMap of the test, which has no `deploy` entry, the generator returns an error
and the zero-valued container, which has no argument, and no container of the Deployment
carries an argument. With no ConfigMap in the cluster the generated container has the
fourth argument "--upstream=http://localhost:8080", but it is not appended, and the one
container of the Deployment carries no argument. The package test expects that argument in
the second container of the Deployment. -/
theorem upstream_argument_missing_from_deployment :
    GetKServeContainerPort [{ name := "kserve-container" }] = "" ∧
    (generateOauthProxyContainer demoLib demoConstants "inferenceservice-config"
        (Except.ok testConfigMap) "8080" "default").toOption.map
      (fun r => (r.1.args, r.2.isSome)) = some ([], true) ∧
    (createRawDeployment demoLib demoConstants "inferenceservice-config"
        (Except.ok testConfigMap)
        { name := "raw-auth-predictor", ns := "default",
          labels := some [("security.opendatahub.io/enable-auth", "true")] }
        (some { minReplicas := some 1, maxReplicas := 3 })
        { containers := [{ name := "kserve-container" }] }).toOption.map
      (fun d => d.spec.template.spec.containers.map (fun c => (c.name, c.args)))
      = some [("kserve-container", []), ("", [])] ∧
    (generateOauthProxyContainer demoLib demoConstants "inferenceservice-config"
        (Except.error { isNotFound := true, message := "not found" }) "8080"
        "default").toOption.map (fun r => (r.1.args[3]?, r.2))
      = some (some "--upstream=http://localhost:8080", none) ∧
    (createRawDeployment demoLib demoConstants "inferenceservice-config"
        (Except.error { isNotFound := true, message := "not found" })
        { name := "raw-auth-predictor", ns := "default",
          labels := some [("security.opendatahub.io/enable-auth", "true")] }
        (some { minReplicas := some 1, maxReplicas := 3 })
        { containers := [{ name := "kserve-container" }] }).toOption.map
      (fun d => d.spec.template.spec.containers.map (fun c => (c.name, c.args)))
      = some [("kserve-container", [])] := by
  refine ⟨?_, ?_, ?_, ?_, ?_⟩ <;> decide

/-- C28: when the cluster ConfigMap is absent and the hard-coded default quantities are
well-formed, `generateOauthProxyContainer` returns without error, for every upstream port
and namespace, the container named "oauth-proxy" with the hard-coded image, the ten
arguments, the one port 8443 named "https", the HTTPS GET liveness and readiness probes on
"/oauth/healthz" port 8443 (initial delay 30 and 5, timeout 1, period 5, thresholds 1 and
3), the hard-coded limits and requests and the one volume mount "proxy-tls" at
"/etc/tls/private"; and in auth mode the volume `createRawDeployment` appends has that
same name "proxy-tls". -/
theorem oauth_proxy_container_shape :
    (∀ (L : Lib) (K : Constants) (configMapName : String) (e : GoError)
        (upstreamPort namespace_ : String) (q1 q2 q3 q4 : Quantity),
      L.parseQuantity K.OauthProxyResourceCPULimit = some q1 →
      L.parseQuantity K.OauthProxyResourceMemoryLimit = some q2 →
      L.parseQuantity K.OauthProxyResourceCPURequest = some q3 →
      L.parseQuantity K.OauthProxyResourceMemoryRequest = some q4 →
      generateOauthProxyContainer L K configMapName (Except.error e) upstreamPort namespace_
        = Except.ok
          ({ name := "oauth-proxy"
             image := K.OauthProxyImage
             command := []
             args :=
               [ "--https-address=:8443",
                 "--provider=openshift",
                 "--openshift-service-account=kserve-sa",
                 "--upstream=http://localhost:" ++ upstreamPort,
                 "--tls-cert=/etc/tls/private/tls.crt",
                 "--tls-key=/etc/tls/private/tls.key",
                 "--cookie-secret=SECRET",
                 "--openshift-delegate-urls=\x7b\"/\": \x7b\"namespace\": \"" ++ namespace_
                   ++ "\", \"resource\": \"services\", \"verb\": \"get\"\x7d\x7d",
                 "--openshift-sar=\x7b\"namespace\": \"" ++ namespace_
                   ++ "\", \"resource\": \"services\", \"verb\": \"get\"\x7d",
                 "--skip-auth-regex=\"(^/metrics|^/apis/v1beta1/healthz)\"" ]
             ports := [{ name := "https", containerPort := 8443, protocol := "" }]
             resources :=
               { limits := [("cpu", q1), ("memory", q2)]
                 requests := [("cpu", q3), ("memory", q4)] }
             livenessProbe := some
               { handler :=
                   { httpGet := some
                       { path := "/oauth/healthz"
                         port := { type := IntStrType.int, intVal := 8443, strVal := "" }
                         scheme := "HTTPS" }
                     tcpSocket := none }
                 initialDelaySeconds := 30
                 timeoutSeconds := 1
                 periodSeconds := 5
                 successThreshold := 1
                 failureThreshold := 3 }
             readinessProbe := some
               { handler :=
                   { httpGet := some
                       { path := "/oauth/healthz"
                         port := { type := IntStrType.int, intVal := 8443, strVal := "" }
                         scheme := "HTTPS" }
                     tcpSocket := none }
                 initialDelaySeconds := 5
                 timeoutSeconds := 1
                 periodSeconds := 5
                 successThreshold := 1
                 failureThreshold := 3 }
             volumeMounts := [{ name := "proxy-tls", mountPath := "/etc/tls/private" }]
             terminationMessagePath := ""
             terminationMessagePolicy := ""
             imagePullPolicy := "" }, none)) ∧
    (∀ (L : Lib) (K : Constants) (configMapName : String) (cli : Except GoError ConfigMap)
        (componentMeta : ObjectMeta) (componentExt : Option ComponentExtensionSpec)
        (podSpec : PodSpec) (d : Deployment),
      GoMap.get componentMeta.labels K.ODHKserveRawAuth = some "true" →
      K.ODHKserveRawAuth ≠ "app" →
      createRawDeployment L K configMapName cli componentMeta componentExt podSpec
        = Except.ok d →
      ∃ v : Volume,
        d.spec.template.spec.volumes = podSpec.volumes ++ [v] ∧ v.name = "proxy-tls") := by
  constructor
  · intro L K configMapName e upstreamPort namespace_ q1 q2 q3 q4 h1 h2 h3 h4
    rw [generateOauthProxyContainer_absent,
      oauthProxyContainer_ok L (defaultOauthSettings K) upstreamPort namespace_ q1 q2 q3 q4
        h1 h2 h3 h4]
    rfl
  · intro L K configMapName cli componentMeta componentExt podSpec d hflag hkey hd
    obtain ⟨c, err, -, -, hvol⟩ := createRawDeployment_auth_ok L K configMapName cli
      componentMeta componentExt podSpec d hflag hkey hd
    exact ⟨_, hvol, rfl⟩

/-- C28, an instance: no ConfigMap in the cluster, upstream port "8080" and namespace
"default"; the container has the hard-coded image and the mount "proxy-tls". -/
theorem oauth_proxy_container_shape_witness :
    (generateOauthProxyContainer demoLib demoConstants "inferenceservice-config"
        (Except.error { isNotFound := true, message := "not found" }) "8080"
        "default").toOption.map
      (fun r => (r.1.name, r.1.image, r.1.args.length, r.1.volumeMounts, r.2))
      = some ("oauth-proxy", "oauth-proxy-image", 10,
          [{ name := "proxy-tls", mountPath := "/etc/tls/private" }], none) :=
  have h := oauth_proxy_container_shape.1 demoLib demoConstants "inferenceservice-config"
    { isNotFound := true, message := "not found" } "8080" "default"
    { canonical := "200m" } { canonical := "128Mi" } { canonical := "100m" }
    { canonical := "64Mi" } (by decide) (by decide) (by decide) (by decide)
  by rw [h]; rfl

/-- C29, as stated, fails: at the input of the package test with auth enabled the volume
appended is named "proxy-tls", not "raw-auth-predictor" as the component is; it is the
secret behind the volume that is named "raw-auth-predictor". -/
theorem tls_volume_name_counterexample :
    (createRawDeployment demoLib demoConstants "inferenceservice-config"
        (Except.ok testConfigMap)
        { name := "raw-auth-predictor", ns := "default",
          labels := some [("security.opendatahub.io/enable-auth", "true")] }
        (some { minReplicas := some 1, maxReplicas := 3 })
        { containers := [{ name := "kserve-container" }] }).toOption.map
      (fun d => d.spec.template.spec.volumes.map
        (fun v => (v.name, decide (v.name = "raw-auth-predictor"),
          v.secret.map (fun src => src.secretName))))
      = some [("proxy-tls", false, some "raw-auth-predictor")] := by
  decide

/-- C29, amended: when the auth flag is set, the volume that `createRawDeployment` appends
to the volumes of the pod spec is backed by a Secret, has the fixed volume name "proxy-tls",
which is the name the volume mount of the proxy container refers to, and has the secret
name `componentMeta.Name` with default mode 420. -/
theorem tls_volume_name (L : Lib) (K : Constants) (configMapName : String)
    (cli : Except GoError ConfigMap) (componentMeta : ObjectMeta)
    (componentExt : Option ComponentExtensionSpec) (podSpec : PodSpec) (d : Deployment)
    (hflag : GoMap.get componentMeta.labels K.ODHKserveRawAuth = some "true")
    (hkey : K.ODHKserveRawAuth ≠ "app")
    (hd : createRawDeployment L K configMapName cli componentMeta componentExt podSpec
      = Except.ok d) :
    d.spec.template.spec.volumes = podSpec.volumes ++
      [{ name := "proxy-tls"
         secret := some { secretName := componentMeta.name, defaultMode := some 420 } }] := by
  obtain ⟨c, err, -, -, hvol⟩ := createRawDeployment_auth_ok L K configMapName cli
    componentMeta componentExt podSpec d hflag hkey hd
  exact hvol

/-- C29, amended, an instance: the input of the package test with auth enabled and one
volume "model-store" in the pod spec. -/
theorem tls_volume_name_witness :
    ∃ d : Deployment,
      createRawDeployment demoLib demoConstants "inferenceservice-config"
          (Except.ok testConfigMap)
          { name := "raw-auth-predictor", ns := "default",
            labels := some [("security.opendatahub.io/enable-auth", "true")] }
          (some { minReplicas := some 1, maxReplicas := 3 })
          { containers := [{ name := "kserve-container" }]
            volumes := [{ name := "model-store" }] } = Except.ok d ∧
      d.spec.template.spec.volumes =
        [{ name := "model-store" },
         { name := "proxy-tls"
           secret := some { secretName := "raw-auth-predictor", defaultMode := some 420 } }] :=
  match exists_ok_of_isSome
      (createRawDeployment demoLib demoConstants "inferenceservice-config"
        (Except.ok testConfigMap)
        { name := "raw-auth-predictor", ns := "default",
          labels := some [("security.opendatahub.io/enable-auth", "true")] }
        (some { minReplicas := some 1, maxReplicas := 3 })
        { containers := [{ name := "kserve-container" }]
          volumes := [{ name := "model-store" }] }) (by decide) with
  | ⟨d, hd⟩ =>
    ⟨d, hd, tls_volume_name demoLib demoConstants "inferenceservice-config"
      (Except.ok testConfigMap)
      { name := "raw-auth-predictor", ns := "default",
        labels := some [("security.opendatahub.io/enable-auth", "true")] }
      (some { minReplicas := some 1, maxReplicas := 3 })
      { containers := [{ name := "kserve-container" }]
        volumes := [{ name := "model-store" }] } d (by decide) (by decide) hd⟩

theorem pair_of_container_ok (r : Except Fault Container) (c : Container)
    (err : Option GoError)
    (h : (match r with
          | Except.error f => (Except.error f : Except Fault (Container × Option GoError))
          | Except.ok c1 => Except.ok (c1, none)) = Except.ok (c, err)) :
    err = none ∧ r = Except.ok c := by
  cases r with
  | error f => cases h
  | ok c1 =>
    cases h
    exact ⟨rfl, rfl⟩

theorem assignUnlessString_eq (oauthData : List (String × JsonValue)) (key current : String) :
    assignUnlessString oauthData key current
      = if isJsonString (jsonLookup oauthData key) = true then current else "" := by
  unfold assignUnlessString stringAssertion isJsonString
  cases jsonLookup oauthData key with
  | none => simp
  | some v => cases v <;> simp

/-- C30: when the ConfigMap is present and its `deploy` entry decodes,
`generateOauthProxyContainer` builds the container from five settings each of which is the
hard-coded value when the value under its key is a JSON string, and the empty string when
the key is missing or its value is of another type; so a returned container has the
hard-coded image or the empty image accordingly, its quantities are parsed from the
hard-coded texts or from the empty text accordingly, and a configured string is never
used. -/
theorem inverted_configuration_assertions (L : Lib) (K : Constants) (configMapName : String)
    (configMap : ConfigMap) (oauthData : List (String × JsonValue))
    (upstreamPort namespace_ : String)
    (hjson : L.jsonUnmarshal ((configMap.data.get "deploy").getD "") = Except.ok oauthData) :
    generateOauthProxyContainer L K configMapName (Except.ok configMap) upstreamPort namespace_
      = (match oauthProxyContainer L
            { image :=
                if isJsonString (jsonLookup oauthData "image") = true then K.OauthProxyImage
                else ""
              cpuLimit :=
                if isJsonString (jsonLookup oauthData "cpuLimit") = true then
                  K.OauthProxyResourceCPULimit
                else ""
              memoryLimit :=
                if isJsonString (jsonLookup oauthData "memoryLimit") = true then
                  K.OauthProxyResourceMemoryLimit
                else ""
              cpuRequest :=
                if isJsonString (jsonLookup oauthData "cpuRequest") = true then
                  K.OauthProxyResourceCPURequest
                else ""
              memoryRequest :=
                if isJsonString (jsonLookup oauthData "memoryRequest") = true then
                  K.OauthProxyResourceMemoryRequest
                else "" }
            upstreamPort namespace_ with
         | Except.error f => Except.error f
         | Except.ok c => Except.ok (c, none)) ∧
    ∀ (c : Container) (err : Option GoError),
      generateOauthProxyContainer L K configMapName (Except.ok configMap) upstreamPort
        namespace_ = Except.ok (c, err) →
      err = none ∧
      c.image =
        (if isJsonString (jsonLookup oauthData "image") = true then K.OauthProxyImage
         else "") ∧
      ∃ q1 q2 q3 q4 : Quantity,
        L.parseQuantity
          (if isJsonString (jsonLookup oauthData "cpuLimit") = true then
             K.OauthProxyResourceCPULimit else "") = some q1 ∧
        L.parseQuantity
          (if isJsonString (jsonLookup oauthData "memoryLimit") = true then
             K.OauthProxyResourceMemoryLimit else "") = some q2 ∧
        L.parseQuantity
          (if isJsonString (jsonLookup oauthData "cpuRequest") = true then
             K.OauthProxyResourceCPURequest else "") = some q3 ∧
        L.parseQuantity
          (if isJsonString (jsonLookup oauthData "memoryRequest") = true then
             K.OauthProxyResourceMemoryRequest else "") = some q4 ∧
        c.resources =
          { limits := [("cpu", q1), ("memory", q2)]
            requests := [("cpu", q3), ("memory", q4)] } := by
  have hgen := generateOauthProxyContainer_decoded L K configMapName configMap oauthData
    upstreamPort namespace_ hjson
  have hsettings : applyOauthData oauthData (defaultOauthSettings K) =
      { image :=
          if isJsonString (jsonLookup oauthData "image") = true then K.OauthProxyImage
          else ""
        cpuLimit :=
          if isJsonString (jsonLookup oauthData "cpuLimit") = true then
            K.OauthProxyResourceCPULimit
          else ""
        memoryLimit :=
          if isJsonString (jsonLookup oauthData "memoryLimit") = true then
            K.OauthProxyResourceMemoryLimit
          else ""
        cpuRequest :=
          if isJsonString (jsonLookup oauthData "cpuRequest") = true then
            K.OauthProxyResourceCPURequest
          else ""
        memoryRequest :=
          if isJsonString (jsonLookup oauthData "memoryRequest") = true then
            K.OauthProxyResourceMemoryRequest
          else "" } := by
    simp only [applyOauthData, defaultOauthSettings, assignUnlessString_eq]
  rw [hsettings] at hgen
  refine ⟨hgen, ?_⟩
  intro c err hc
  rw [hgen] at hc
  obtain ⟨herr, hcont⟩ := pair_of_container_ok _ c err hc
  obtain ⟨q1, q2, q3, q4, h1, h2, h3, h4, hlit⟩ :=
    (oauthProxyContainer_ok_iff L _ upstreamPort namespace_ c).1 hcont
  refine ⟨herr, ?_, q1, q2, q3, q4, h1, h2, h3, h4, ?_⟩
  · rw [hlit]
  · rw [hlit]

/-- C30, instances: with a `deploy` entry whose image is the number 5 and whose resource
settings are the strings "500m", "256Mi", "250m" and "96Mi", the container has the empty
image and the hard-coded quantities; with the entry that gives a string for the image too,
it has the hard-coded image. -/
theorem inverted_configuration_assertions_witness :
    (∃ (c : Container) (err : Option GoError),
      generateOauthProxyContainer numericImageLib demoConstants "inferenceservice-config"
          (Except.ok numericImageConfigMap) "8080" "default" = Except.ok (c, err) ∧
      c.image = "" ∧
      c.resources =
        { limits := [("cpu", { canonical := "200m" }), ("memory", { canonical := "128Mi" })]
          requests :=
            [("cpu", { canonical := "100m" }), ("memory", { canonical := "64Mi" })] }) ∧
    (∃ (c : Container) (err : Option GoError),
      generateOauthProxyContainer configuredLib demoConstants "inferenceservice-config"
          (Except.ok configuredConfigMap) "8080" "default" = Except.ok (c, err) ∧
      c.image = "oauth-proxy-image") :=
  ⟨match exists_ok_of_isSome
        (generateOauthProxyContainer numericImageLib demoConstants "inferenceservice-config"
          (Except.ok numericImageConfigMap) "8080" "default") (by decide) with
    | ⟨(c, err), h⟩ =>
      match (inverted_configuration_assertions numericImageLib demoConstants
          "inferenceservice-config" numericImageConfigMap
          [("image", JsonValue.number "5"),
           ("cpuLimit", JsonValue.string "500m"),
           ("memoryLimit", JsonValue.string "256Mi"),
           ("cpuRequest", JsonValue.string "250m"),
           ("memoryRequest", JsonValue.string "96Mi")]
          "8080" "default" (by decide)).2 c err h with
      | ⟨_, himage, q1, q2, q3, q4, h1, h2, h3, h4, hres⟩ =>
        ⟨c, err, h, himage, by
          have e1 : q1 = { canonical := "200m" } := (Option.some.inj h1).symm
          have e2 : q2 = { canonical := "128Mi" } := (Option.some.inj h2).symm
          have e3 : q3 = { canonical := "100m" } := (Option.some.inj h3).symm
          have e4 : q4 = { canonical := "64Mi" } := (Option.some.inj h4).symm
          rw [hres, e1, e2, e3, e4]⟩,
    match exists_ok_of_isSome
        (generateOauthProxyContainer configuredLib demoConstants "inferenceservice-config"
          (Except.ok configuredConfigMap) "8080" "default") (by decide) with
    | ⟨(c, err), h⟩ =>
      ⟨c, err, h,
        ((inverted_configuration_assertions configuredLib demoConstants
          "inferenceservice-config" configuredConfigMap
          [("image", JsonValue.string "custom-proxy-image"),
           ("cpuLimit", JsonValue.string "500m"),
           ("memoryLimit", JsonValue.string "256Mi"),
           ("cpuRequest", JsonValue.string "250m"),
           ("memoryRequest", JsonValue.string "96Mi")]
          "8080" "default" (by decide)).2 c err h).2.1⟩⟩

/-! ## The order of the Service ports -/

theorem semanticServiceEquals_iff (desired existing : Service) :
    semanticServiceEquals desired existing = true ↔
      (desired.spec.ports = existing.spec.ports ∧
        ∀ key, GoMap.get desired.spec.selector key = GoMap.get existing.spec.selector key) := by
  simp [semanticServiceEquals, mapSemanticEqual_iff]

theorem checkServiceExist_result_of_get {σ : Type} (client : Client σ Service) (s : σ)
    (svc live : Service)
    (hget : client.get s { ns := svc.meta.ns, name := svc.meta.name } = Except.ok live) :
    (checkServiceExist client s svc).result =
      (if semanticServiceEquals svc live = true then CheckResultType.CheckResultExisted
       else CheckResultType.CheckResultUpdate) := by
  cases hb : semanticServiceEquals svc live <;> simp [checkServiceExist, hget, hb]

/-- C31, as stated, fails: the live Service has the selector of the desired one and its two
ports in the reverse order, and the check answers Update, not Existed. -/
theorem port_order_counterexample :
    ([{ name := "grpc", port := 9000 }, { name := "http", port := 80 }] : List ServicePort)
      = ([{ name := "http", port := 80 }, { name := "grpc", port := 9000 }]
          : List ServicePort).reverse ∧
    (checkServiceExist (storeClient serviceKey)
        [(({ ns := "default", name := "raw-foo-predictor" } : NamespacedName),
          ({ meta := { name := "raw-foo-predictor", ns := "default" }
             spec := { ports := [{ name := "grpc", port := 9000 }, { name := "http", port := 80 }]
                       selector := some [("app", "isvc.raw-foo-predictor")] } } : Service))]
        { meta := { name := "raw-foo-predictor", ns := "default" }
          spec := { ports := [{ name := "http", port := 80 }, { name := "grpc", port := 9000 }]
                    selector := some [("app", "isvc.raw-foo-predictor")] } }).result
      = CheckResultType.CheckResultUpdate := by
  constructor <;> decide

/-- C31, amended: for a live Service whose selector holds the same value as the desired
selector under every key and whose port list is a reordering of the desired port list, the
check answers Existed exactly when the reordering leaves the list as it is, that is when
the two port lists are equal element by element in the same order, and Update for every
other reordering. -/
theorem port_order_sensitivity (σ : Type) (client : Client σ Service) (s : σ)
    (svc live : Service)
    (hget : client.get s { ns := svc.meta.ns, name := svc.meta.name } = Except.ok live)
    (hsel : ∀ key, GoMap.get live.spec.selector key = GoMap.get svc.spec.selector key)
    (_hperm : live.spec.ports.Perm svc.spec.ports) :
    ((checkServiceExist client s svc).result = CheckResultType.CheckResultExisted ↔
      live.spec.ports = svc.spec.ports) ∧
    ((checkServiceExist client s svc).result = CheckResultType.CheckResultUpdate ↔
      live.spec.ports ≠ svc.spec.ports) := by
  have hsem : semanticServiceEquals svc live = true ↔ live.spec.ports = svc.spec.ports := by
    rw [semanticServiceEquals_iff]
    constructor
    · rintro ⟨h, -⟩
      exact h.symm
    · intro h
      exact ⟨h.symm, fun key => (hsel key).symm⟩
  rw [checkServiceExist_result_of_get client s svc live hget]
  by_cases hp : live.spec.ports = svc.spec.ports
  · have hb := hsem.2 hp
    simp [hb, hp]
  · have hb : ¬ semanticServiceEquals svc live = true := fun h => hp (hsem.1 h)
    simp [hb, hp]

/-- C31, amended, instances: the live ports in the desired order give Existed, the same
ports in the reverse order give Update. -/
theorem port_order_sensitivity_witness :
    (checkServiceExist (storeClient serviceKey)
        [(({ ns := "default", name := "raw-foo-predictor" } : NamespacedName),
          ({ meta := { name := "raw-foo-predictor", ns := "default" }
             spec := { ports := [{ name := "http", port := 80 }, { name := "grpc", port := 9000 }]
                       clusterIP := "10.0.0.7" } } : Service))]
        { meta := { name := "raw-foo-predictor", ns := "default" }
          spec := { ports := [{ name := "http", port := 80 }, { name := "grpc", port := 9000 }] } }).result
      = CheckResultType.CheckResultExisted ∧
    (checkServiceExist (storeClient serviceKey)
        [(({ ns := "default", name := "raw-foo-predictor" } : NamespacedName),
          ({ meta := { name := "raw-foo-predictor", ns := "default" }
             spec := { ports := [{ name := "grpc", port := 9000 }, { name := "http", port := 80 }] } }
            : Service))]
        { meta := { name := "raw-foo-predictor", ns := "default" }
          spec := { ports := [{ name := "http", port := 80 }, { name := "grpc", port := 9000 }] } }).result
      = CheckResultType.CheckResultUpdate :=
  ⟨(port_order_sensitivity (Store Service) (storeClient serviceKey)
      [(({ ns := "default", name := "raw-foo-predictor" } : NamespacedName),
        ({ meta := { name := "raw-foo-predictor", ns := "default" }
           spec := { ports := [{ name := "http", port := 80 }, { name := "grpc", port := 9000 }]
                     clusterIP := "10.0.0.7" } } : Service))]
      { meta := { name := "raw-foo-predictor", ns := "default" }
        spec := { ports := [{ name := "http", port := 80 }, { name := "grpc", port := 9000 }] } }
      { meta := { name := "raw-foo-predictor", ns := "default" }
        spec := { ports := [{ name := "http", port := 80 }, { name := "grpc", port := 9000 }]
                  clusterIP := "10.0.0.7" } }
      (by decide) (fun _ => rfl) (List.Perm.refl _)).1.2 rfl,
    (port_order_sensitivity (Store Service) (storeClient serviceKey)
      [(({ ns := "default", name := "raw-foo-predictor" } : NamespacedName),
        ({ meta := { name := "raw-foo-predictor", ns := "default" }
           spec := { ports := [{ name := "grpc", port := 9000 }, { name := "http", port := 80 }] } }
          : Service))]
      { meta := { name := "raw-foo-predictor", ns := "default" }
        spec := { ports := [{ name := "http", port := 80 }, { name := "grpc", port := 9000 }] } }
      { meta := { name := "raw-foo-predictor", ns := "default" }
        spec := { ports := [{ name := "grpc", port := 9000 }, { name := "http", port := 80 }] } }
      (by decide) (fun _ => rfl) (List.Perm.swap _ _ _)).2.2 (by decide)⟩

/-! ## Totality of the builders -/

theorem hasBatcher_or_hasLogger_iff (componentExt : Option ComponentExtensionSpec) :
    (hasBatcher componentExt = true ∨ hasLogger componentExt = true) ↔
      ∃ ext, componentExt = some ext ∧ (ext.batcher ≠ none ∨ ext.logger ≠ none) := by
  cases componentExt with
  | none => simp [hasBatcher, hasLogger]
  | some ext => simp [hasBatcher, hasLogger, Option.isSome_iff_ne_none]

theorem overriddenServicePorts_nil (K : Constants) (componentMeta : ObjectMeta)
    (componentExt : Option ComponentExtensionSpec) (podSpec : PodSpec)
    (hc : podSpec.containers = []) :
    overriddenServicePorts K componentMeta componentExt podSpec
      = (if hasBatcher componentExt = true ∨ hasLogger componentExt = true then
           Except.error Fault.indexOutOfRange
         else Except.ok []) := by
  unfold overriddenServicePorts
  cases hb : hasBatcher componentExt <;> cases hl : hasLogger componentExt <;>
    simp [baseServicePorts, hc, setFirstTargetPort]

theorem createService_error_iff (K : Constants) (componentMeta : ObjectMeta)
    (componentExt : Option ComponentExtensionSpec) (podSpec : PodSpec) (f : Fault) :
    createService K componentMeta componentExt podSpec = Except.error f ↔
      overriddenServicePorts K componentMeta componentExt podSpec = Except.error f := by
  unfold createService
  cases h : overriddenServicePorts K componentMeta componentExt podSpec with
  | error g => simp
  | ok servicePorts =>
    by_cases ha : authEnabled K componentMeta.labels = true <;> simp [ha]

/-- C35: `createService` panics with an index out of range exactly when the container list
of the pod spec is empty and `componentExt` configures a batcher or a logger; it raises no
other panic, and for every other input it returns a Service. -/
theorem createService_totality (K : Constants) (componentMeta : ObjectMeta)
    (componentExt : Option ComponentExtensionSpec) (podSpec : PodSpec) :
    (createService K componentMeta componentExt podSpec
        = Except.error Fault.indexOutOfRange ↔
      (podSpec.containers = [] ∧
        ∃ ext, componentExt = some ext ∧ (ext.batcher ≠ none ∨ ext.logger ≠ none))) ∧
    (∀ f, createService K componentMeta componentExt podSpec = Except.error f →
      f = Fault.indexOutOfRange) ∧
    (¬ (podSpec.containers = [] ∧
        ∃ ext, componentExt = some ext ∧ (ext.batcher ≠ none ∨ ext.logger ≠ none)) →
      ∃ svc, createService K componentMeta componentExt podSpec = Except.ok svc) := by
  rw [← hasBatcher_or_hasLogger_iff]
  cases hc : podSpec.containers with
  | nil =>
    have hov := overriddenServicePorts_nil K componentMeta componentExt podSpec hc
    by_cases hbl : hasBatcher componentExt = true ∨ hasLogger componentExt = true
    · rw [if_pos hbl] at hov
      refine ⟨?_, ?_, ?_⟩
      · rw [createService_error_iff, hov]
        simp [hbl]
      · intro f hf
        rw [createService_error_iff, hov] at hf
        exact (Except.error.inj hf).symm
      · intro h
        exact absurd ⟨rfl, hbl⟩ h
    · rw [if_neg hbl] at hov
      refine ⟨?_, ?_, ?_⟩
      · rw [createService_error_iff, hov]
        simp [hbl]
      · intro f hf
        rw [createService_error_iff, hov] at hf
        cases hf
      · intro _
        exact ⟨_, (createService_ok_iff K componentMeta componentExt podSpec _).2
          ⟨_, hov, rfl⟩⟩
  | cons c0 rest =>
    obtain ⟨sp, sps, hbase⟩ := baseServicePorts_ne_nil K componentMeta podSpec c0 rest hc
    have hov := overriddenServicePorts_cons K componentMeta componentExt podSpec sp sps hbase
    refine ⟨?_, ?_, ?_⟩
    · rw [createService_error_iff, hov]
      simp
    · intro f hf
      rw [createService_error_iff, hov] at hf
      cases hf
    · intro _
      exact ⟨_, (createService_ok_iff K componentMeta componentExt podSpec _).2
        ⟨_, hov, rfl⟩⟩

/-- C35, instances: no containers and a batcher give the panic; no containers and a nil
`componentExt` give a Service. -/
theorem createService_totality_witness :
    createService demoConstants { name := "raw-foo-predictor" }
        (some { batcher := some {} }) { containers := [] }
      = Except.error Fault.indexOutOfRange ∧
    ∃ svc, createService demoConstants { name := "raw-foo-predictor" } none
      { containers := [] } = Except.ok svc :=
  ⟨(createService_totality demoConstants { name := "raw-foo-predictor" }
      (some { batcher := some {} }) { containers := [] }).1.2
      ⟨rfl, { batcher := some {} }, rfl, Or.inl (by decide)⟩,
    (createService_totality demoConstants { name := "raw-foo-predictor" } none
      { containers := [] }).2.2 (by
        rintro ⟨-, ext, hext, -⟩
        cases hext)⟩

/-- C36: for a pod spec without containers and with neither batcher nor logger,
`createService` returns a Service with no port when the auth flag is off, and with the one
port "https" (8443, target port the name "https", TCP) when the auth flag is "true". -/
theorem createService_empty_containers (K : Constants) (componentMeta : ObjectMeta)
    (componentExt : Option ComponentExtensionSpec) (podSpec : PodSpec)
    (hc : podSpec.containers = [])
    (hext : ∀ ext, componentExt = some ext → ext.batcher = none ∧ ext.logger = none) :
    ∃ svc : Service,
      createService K componentMeta componentExt podSpec = Except.ok svc ∧
      (GoMap.get componentMeta.labels K.ODHKserveRawAuth ≠ some "true" →
        svc.spec.ports = []) ∧
      (GoMap.get componentMeta.labels K.ODHKserveRawAuth = some "true" →
        svc.spec.ports =
          [{ name := "https", protocol := "TCP", port := 8443,
             targetPort := { type := IntStrType.string, intVal := 0, strVal := "https" } }]) := by
  have hb := hasBatcher_false_of componentExt hext
  have hl := hasLogger_false_of componentExt hext
  have hov : overriddenServicePorts K componentMeta componentExt podSpec = Except.ok [] := by
    rw [overriddenServicePorts_nil K componentMeta componentExt podSpec hc]
    simp [hb, hl]
  refine ⟨_, (createService_ok_iff K componentMeta componentExt podSpec _).2 ⟨_, hov, rfl⟩,
    ?_, ?_⟩
  · intro hoff
    have ha : ¬ authEnabled K componentMeta.labels = true := by
      simp [authEnabled_eq_false K _ hoff]
    rw [if_neg ha]
  · intro hon
    rw [if_pos (authEnabled_eq_true K _ hon)]
    rfl

/-- C36, instances: the empty pod spec without the label and with the label "true". -/
theorem createService_empty_containers_witness :
    (∃ svc : Service,
      createService demoConstants { name := "raw-foo-predictor" } none {} = Except.ok svc ∧
      svc.spec.ports = []) ∧
    (∃ svc : Service,
      createService demoConstants
          { name := "raw-foo-predictor",
            labels := some [("security.opendatahub.io/enable-auth", "true")] } none {}
        = Except.ok svc ∧
      svc.spec.ports =
        [{ name := "https", protocol := "TCP", port := 8443,
           targetPort := { type := IntStrType.string, intVal := 0, strVal := "https" } }]) :=
  ⟨match createService_empty_containers demoConstants { name := "raw-foo-predictor" } none {}
      rfl (by intro ext h; cases h) with
    | ⟨svc, hsvc, hoff, _⟩ => ⟨svc, hsvc, hoff (by decide)⟩,
    match createService_empty_containers demoConstants
      { name := "raw-foo-predictor",
        labels := some [("security.opendatahub.io/enable-auth", "true")] } none {}
      rfl (by intro ext h; cases h) with
    | ⟨svc, hsvc, _, hon⟩ => ⟨svc, hsvc, hon (by decide)⟩⟩

theorem GetRawServiceLabel_ne_true (service : String) : GetRawServiceLabel service ≠ "true" := by
  intro h
  have h1 := congrArg String.data h
  simp [GetRawServiceLabel, String.data_append] at h1

theorem authEnabled_withAppLabel_off (K : Constants) (componentMeta : ObjectMeta)
    (labels : Bindings) (hl : componentMeta.labels = some labels)
    (hoff : GoMap.get componentMeta.labels K.ODHKserveRawAuth ≠ some "true") :
    authEnabled K (withAppLabel componentMeta labels).labels = false := by
  rw [hl] at hoff
  apply authEnabled_eq_false
  by_cases hkey : K.ODHKserveRawAuth = "app"
  · rw [hkey]
    simp only [withAppLabel, GoMap.get, Bindings.get_set_self]
    intro h
    exact GetRawServiceLabel_ne_true _ (Option.some.inj h)
  · simp only [withAppLabel, GoMap.get]
    rw [Bindings.get_set_other _ _ _ _ (fun h => hkey h.symm)]
    exact hoff

theorem createRawDeployment_off (L : Lib) (K : Constants) (configMapName : String)
    (cli : Except GoError ConfigMap) (componentMeta : ObjectMeta) (labels : Bindings)
    (componentExt : Option ComponentExtensionSpec) (podSpec : PodSpec)
    (hl : componentMeta.labels = some labels)
    (hoff : GoMap.get componentMeta.labels K.ODHKserveRawAuth ≠ some "true") :
    createRawDeployment L K configMapName cli componentMeta componentExt podSpec
      = (match componentExt with
         | none => Except.error Fault.nilPointer
         | some ext =>
           Except.ok (assembleDeployment K (withAppLabel componentMeta labels)
             (withAppLabel componentMeta labels) ext (setDefaultPodSpec K podSpec))) := by
  have hauth := authEnabled_withAppLabel_off K componentMeta labels hl hoff
  unfold createRawDeployment
  rw [hl]
  simp only [authPodSpec, hauth]
  rfl

/-- C34: with the auth flag off, `createRawDeployment` returns a Deployment exactly when the
label map of `componentMeta` is not nil and `componentExt` is not nil; with a nil label map
it panics at the write of the "app" label, with a label map and a nil `componentExt` at
the read of the deployment strategy; `createService` returns a Service for a nil label map
and a nil `componentExt`. -/
theorem createRawDeployment_totality :
    (∀ (L : Lib) (K : Constants) (configMapName : String) (cli : Except GoError ConfigMap)
        (componentMeta : ObjectMeta) (componentExt : Option ComponentExtensionSpec)
        (podSpec : PodSpec),
      GoMap.get componentMeta.labels K.ODHKserveRawAuth ≠ some "true" →
      ((∃ d, createRawDeployment L K configMapName cli componentMeta componentExt podSpec
          = Except.ok d) ↔
        (componentMeta.labels ≠ none ∧ componentExt ≠ none))) ∧
    (∀ (L : Lib) (K : Constants) (configMapName : String) (cli : Except GoError ConfigMap)
        (componentMeta : ObjectMeta) (componentExt : Option ComponentExtensionSpec)
        (podSpec : PodSpec),
      componentMeta.labels = none →
      createRawDeployment L K configMapName cli componentMeta componentExt podSpec
        = Except.error Fault.nilMapWrite) ∧
    (∀ (L : Lib) (K : Constants) (configMapName : String) (cli : Except GoError ConfigMap)
        (componentMeta : ObjectMeta) (podSpec : PodSpec),
      GoMap.get componentMeta.labels K.ODHKserveRawAuth ≠ some "true" →
      componentMeta.labels ≠ none →
      createRawDeployment L K configMapName cli componentMeta none podSpec
        = Except.error Fault.nilPointer) ∧
    (∀ (K : Constants) (componentMeta : ObjectMeta) (podSpec : PodSpec),
      componentMeta.labels = none →
      ∃ svc, createService K componentMeta none podSpec = Except.ok svc) := by
  refine ⟨?_, ?_, ?_, ?_⟩
  · intro L K configMapName cli componentMeta componentExt podSpec hoff
    cases hl : componentMeta.labels with
    | none =>
      simp [createRawDeployment, hl]
    | some labels =>
      rw [createRawDeployment_off L K configMapName cli componentMeta labels componentExt
        podSpec hl hoff]
      cases componentExt with
      | none => simp
      | some ext => simp
  · intro L K configMapName cli componentMeta componentExt podSpec hl
    simp [createRawDeployment, hl]
  · intro L K configMapName cli componentMeta podSpec hoff hl
    cases hlab : componentMeta.labels with
    | none => exact absurd hlab hl
    | some labels =>
      rw [createRawDeployment_off L K configMapName cli componentMeta labels none podSpec
        hlab hoff]
  · intro K componentMeta podSpec _
    cases hc : podSpec.containers with
    | nil =>
      have hov := overriddenServicePorts_nil K componentMeta none podSpec hc
      rw [if_neg (by simp [hasBatcher, hasLogger])] at hov
      exact ⟨_, (createService_ok_iff K componentMeta none podSpec _).2 ⟨_, hov, rfl⟩⟩
    | cons c0 rest =>
      obtain ⟨sp, sps, hbase⟩ := baseServicePorts_ne_nil K componentMeta podSpec c0 rest hc
      have hov := overriddenServicePorts_cons K componentMeta none podSpec sp sps hbase
      exact ⟨_, (createService_ok_iff K componentMeta none podSpec _).2 ⟨_, hov, rfl⟩⟩

/-- C34, instances: a nil label map gives the panic of the map write, a nil `componentExt`
the panic of the nil pointer, and both present give a Deployment. -/
theorem createRawDeployment_totality_witness :
    createRawDeployment demoLib demoConstants "inferenceservice-config"
        (Except.ok testConfigMap) { name := "raw-foo-predictor" } (some {})
        { containers := [{ name := "kserve-container" }] }
      = Except.error Fault.nilMapWrite ∧
    createRawDeployment demoLib demoConstants "inferenceservice-config"
        (Except.ok testConfigMap) { name := "raw-foo-predictor", labels := some [] } none
        { containers := [{ name := "kserve-container" }] }
      = Except.error Fault.nilPointer ∧
    (∃ d, createRawDeployment demoLib demoConstants "inferenceservice-config"
        (Except.ok testConfigMap) { name := "raw-foo-predictor", labels := some [] } (some {})
        { containers := [{ name := "kserve-container" }] } = Except.ok d) :=
  ⟨createRawDeployment_totality.2.1 demoLib demoConstants "inferenceservice-config"
      (Except.ok testConfigMap) { name := "raw-foo-predictor" } (some {})
      { containers := [{ name := "kserve-container" }] } rfl,
    createRawDeployment_totality.2.2.1 demoLib demoConstants "inferenceservice-config"
      (Except.ok testConfigMap) { name := "raw-foo-predictor", labels := some [] }
      { containers := [{ name := "kserve-container" }] } (by decide) (by decide),
    (createRawDeployment_totality.1 demoLib demoConstants "inferenceservice-config"
      (Except.ok testConfigMap) { name := "raw-foo-predictor", labels := some [] } (some {})
      { containers := [{ name := "kserve-container" }] } (by decide)).2
      ⟨by decide, by decide⟩⟩

/-! ## What the auth branch injects -/

theorem generateOauthProxyContainer_err_iff (L : Lib) (K : Constants)
    (configMapName : String) (cli : Except GoError ConfigMap)
    (upstreamPort namespace_ : String) (c : Container) (err : Option GoError)
    (h : generateOauthProxyContainer L K configMapName cli upstreamPort namespace_
      = Except.ok (c, err)) :
    (err.isSome = true ↔
      ∃ configMap msg, cli = Except.ok configMap ∧
        L.jsonUnmarshal ((configMap.data.get "deploy").getD "") = Except.error msg) ∧
    (err.isSome = true → c = {}) := by
  cases cli with
  | error e =>
    rw [generateOauthProxyContainer_absent] at h
    obtain ⟨herr, -⟩ := pair_of_container_ok _ c err h
    subst herr
    simp
  | ok configMap =>
    cases hj : L.jsonUnmarshal ((configMap.data.get "deploy").getD "") with
    | error msg =>
      rw [generateOauthProxyContainer_undecoded L K configMapName configMap msg _ _ hj] at h
      cases h
      simp [hj]
    | ok oauthData =>
      rw [generateOauthProxyContainer_decoded L K configMapName configMap oauthData _ _ hj] at h
      obtain ⟨herr, -⟩ := pair_of_container_ok _ c err h
      subst herr
      simp [hj]

/-- C32: with the auth flag set, every Deployment that `createRawDeployment` returns gains a
container exactly when `generateOauthProxyContainer` returned an error, which it does
exactly when the ConfigMap is present and its `deploy` entry fails to decode; the container
gained is then the zero-valued one, with empty name and image; when the generation
returned no error the containers are the defaulted input containers; and the TLS secret
volume is appended in every case. -/
theorem injection_only_on_generation_error (L : Lib) (K : Constants)
    (configMapName : String) (cli : Except GoError ConfigMap) (componentMeta : ObjectMeta)
    (componentExt : Option ComponentExtensionSpec) (podSpec : PodSpec) (d : Deployment)
    (hflag : GoMap.get componentMeta.labels K.ODHKserveRawAuth = some "true")
    (hkey : K.ODHKserveRawAuth ≠ "app")
    (hd : createRawDeployment L K configMapName cli componentMeta componentExt podSpec
      = Except.ok d) :
    ∃ (c : Container) (err : Option GoError),
      generateOauthProxyContainer L K configMapName cli
        (if GetKServeContainerPort podSpec.containers = "" then "8080"
         else GetKServeContainerPort podSpec.containers) componentMeta.ns
        = Except.ok (c, err) ∧
      (err.isSome = true ↔
        ∃ configMap msg, cli = Except.ok configMap ∧
          L.jsonUnmarshal ((configMap.data.get "deploy").getD "") = Except.error msg) ∧
      (err.isSome = true →
        c.name = "" ∧ c.image = "" ∧
        d.spec.template.spec.containers
          = (setDefaultPodSpec K podSpec).containers ++ [({} : Container)]) ∧
      (err = none →
        d.spec.template.spec.containers = (setDefaultPodSpec K podSpec).containers) ∧
      d.spec.template.spec.volumes = podSpec.volumes ++
        [{ name := "proxy-tls"
           secret := some { secretName := componentMeta.name, defaultMode := some 420 } }] := by
  obtain ⟨c, err, hgen, hcont, hvol⟩ := createRawDeployment_auth_ok L K configMapName cli
    componentMeta componentExt podSpec d hflag hkey hd
  obtain ⟨hiff, hzero⟩ := generateOauthProxyContainer_err_iff L K configMapName cli _ _ c err hgen
  refine ⟨c, err, hgen, hiff, ?_, ?_, hvol⟩
  · intro herr
    have hc := hzero herr
    subst hc
    rw [hcont, if_pos herr]
    exact ⟨rfl, rfl, rfl⟩
  · intro herr
    subst herr
    rw [hcont]
    rfl

/-- C32, instances: with the ConfigMap of the package test the zero-valued container is
appended; both Deployments end with the TLS volume. -/
theorem injection_only_on_generation_error_witness :
    ∃ d : Deployment,
      createRawDeployment demoLib demoConstants "inferenceservice-config"
          (Except.ok testConfigMap)
          { name := "raw-auth-predictor", ns := "default",
            labels := some [("security.opendatahub.io/enable-auth", "true")] }
          (some { minReplicas := some 1, maxReplicas := 3 })
          { containers := [{ name := "kserve-container" }] } = Except.ok d ∧
      d.spec.template.spec.containers.length = 2 ∧
      d.spec.template.spec.volumes =
        [{ name := "proxy-tls"
           secret := some { secretName := "raw-auth-predictor", defaultMode := some 420 } }] :=
  match exists_ok_of_isSome
      (createRawDeployment demoLib demoConstants "inferenceservice-config"
        (Except.ok testConfigMap)
        { name := "raw-auth-predictor", ns := "default",
          labels := some [("security.opendatahub.io/enable-auth", "true")] }
        (some { minReplicas := some 1, maxReplicas := 3 })
        { containers := [{ name := "kserve-container" }] }) (by decide) with
  | ⟨d, hd⟩ =>
    match injection_only_on_generation_error demoLib demoConstants "inferenceservice-config"
        (Except.ok testConfigMap)
        { name := "raw-auth-predictor", ns := "default",
          labels := some [("security.opendatahub.io/enable-auth", "true")] }
        (some { minReplicas := some 1, maxReplicas := 3 })
        { containers := [{ name := "kserve-container" }] } d (by decide) (by decide) hd with
    | ⟨_, _, _, hiff, herr, _, hvol⟩ =>
      ⟨d, hd, by
        have h := (herr (hiff.2 ⟨testConfigMap, "unexpected end of JSON input", rfl,
          by decide⟩)).2.2
        rw [h]
        rfl, hvol⟩

theorem oauthProxyContainer_error (L : Lib) (s : OauthSettings)
    (upstreamPort namespace_ : String)
    (h : L.parseQuantity s.cpuLimit = none ∨ L.parseQuantity s.memoryLimit = none ∨
      L.parseQuantity s.cpuRequest = none ∨ L.parseQuantity s.memoryRequest = none) :
    oauthProxyContainer L s upstreamPort namespace_ = Except.error Fault.mustParse := by
  cases h1 : L.parseQuantity s.cpuLimit <;> cases h2 : L.parseQuantity s.memoryLimit <;>
    cases h3 : L.parseQuantity s.cpuRequest <;> cases h4 : L.parseQuantity s.memoryRequest <;>
    simp_all [oauthProxyContainer, MustParse]

theorem createRawDeployment_auth_error (L : Lib) (K : Constants) (configMapName : String)
    (cli : Except GoError ConfigMap) (componentMeta : ObjectMeta)
    (componentExt : Option ComponentExtensionSpec) (podSpec : PodSpec) (f : Fault)
    (hflag : GoMap.get componentMeta.labels K.ODHKserveRawAuth = some "true")
    (hkey : K.ODHKserveRawAuth ≠ "app")
    (hgen : ∀ upstreamPort namespace_, generateOauthProxyContainer L K configMapName cli
      upstreamPort namespace_ = Except.error f) :
    createRawDeployment L K configMapName cli componentMeta componentExt podSpec
      = Except.error f := by
  cases hl : componentMeta.labels with
  | none => rw [hl] at hflag; cases hflag
  | some labels =>
    have hauth := authEnabled_withAppLabel K componentMeta labels hl hflag hkey
    unfold createRawDeployment
    rw [hl]
    simp only [authPodSpec, hauth, injectOauthProxy, hgen]
    rfl

theorem isJsonString_eq_false_of (v : Option JsonValue)
    (h : ∀ str, v ≠ some (JsonValue.string str)) : isJsonString v = false := by
  unfold isJsonString
  cases v with
  | none => rfl
  | some j =>
    cases j with
    | string str => exact absurd rfl (h str)
    | null => rfl
    | bool b => rfl
    | number text => rfl
    | array => rfl
    | object => rfl

/-- C33: when the ConfigMap is present, its `deploy` entry decodes, and under one of the
keys cpuLimit, memoryLimit, cpuRequest and memoryRequest there is no JSON string, the
statement for that key assigns the empty string; as the empty string is not a quantity,
`generateOauthProxyContainer` panics in `resource.MustParse` for every upstream port and
namespace, and with the auth flag set `createRawDeployment` panics the same way and
returns no Deployment. -/
theorem partial_configuration_panics (L : Lib) (K : Constants) (configMapName : String)
    (configMap : ConfigMap) (oauthData : List (String × JsonValue)) (key : String)
    (hjson : L.jsonUnmarshal ((configMap.data.get "deploy").getD "") = Except.ok oauthData)
    (hempty : L.parseQuantity "" = none)
    (hkey : key ∈ ["cpuLimit", "memoryLimit", "cpuRequest", "memoryRequest"])
    (hmissing : ∀ str, jsonLookup oauthData key ≠ some (JsonValue.string str)) :
    (∀ current, assignUnlessString oauthData key current = "") ∧
    (∀ upstreamPort namespace_ : String,
      generateOauthProxyContainer L K configMapName (Except.ok configMap) upstreamPort
        namespace_ = Except.error Fault.mustParse) ∧
    (∀ (componentMeta : ObjectMeta) (componentExt : Option ComponentExtensionSpec)
        (podSpec : PodSpec),
      GoMap.get componentMeta.labels K.ODHKserveRawAuth = some "true" →
      K.ODHKserveRawAuth ≠ "app" →
      createRawDeployment L K configMapName (Except.ok configMap) componentMeta componentExt
        podSpec = Except.error Fault.mustParse) := by
  have hfalse := isJsonString_eq_false_of _ hmissing
  have hassign : ∀ current, assignUnlessString oauthData key current = "" := by
    intro current
    rw [assignUnlessString_eq, hfalse]
    rfl
  have hgen : ∀ upstreamPort namespace_ : String,
      generateOauthProxyContainer L K configMapName (Except.ok configMap) upstreamPort
        namespace_ = Except.error Fault.mustParse := by
    intro upstreamPort namespace_
    rw [generateOauthProxyContainer_decoded L K configMapName configMap oauthData _ _ hjson,
      oauthProxyContainer_error]
    simp only [List.mem_cons, List.mem_singleton, List.not_mem_nil, or_false] at hkey
    rcases hkey with h | h | h | h
    · left
      subst h
      simp only [applyOauthData, hassign, hempty]
    · right; left
      subst h
      simp only [applyOauthData, hassign, hempty]
    · right; right; left
      subst h
      simp only [applyOauthData, hassign, hempty]
    · right; right; right
      subst h
      simp only [applyOauthData, hassign, hempty]
  refine ⟨hassign, hgen, ?_⟩
  intro componentMeta componentExt podSpec hflag hk
  exact createRawDeployment_auth_error L K configMapName (Except.ok configMap) componentMeta
    componentExt podSpec Fault.mustParse hflag hk hgen

/-- C33, an instance: the `deploy` entry is the empty JSON object, so every key is missing,
and with the auth flag set the Deployment builder panics. -/
theorem partial_configuration_panics_witness :
    createRawDeployment demoLib demoConstants "inferenceservice-config"
        (Except.ok { data := some [("deploy", "\x7b\x7d")] })
        { name := "raw-auth-predictor", ns := "default",
          labels := some [("security.opendatahub.io/enable-auth", "true")] }
        (some { minReplicas := some 1, maxReplicas := 3 })
        { containers := [{ name := "kserve-container" }] }
      = Except.error Fault.mustParse :=
  (partial_configuration_panics demoLib demoConstants "inferenceservice-config"
    { data := some [("deploy", "\x7b\x7d")] } [] "cpuLimit" (by decide) (by decide)
    (by decide) (by intro str h; cases h)).2.2
    { name := "raw-auth-predictor", ns := "default",
      labels := some [("security.opendatahub.io/enable-auth", "true")] }
    (some { minReplicas := some 1, maxReplicas := 3 })
    { containers := [{ name := "kserve-container" }] } (by decide) (by decide)

/-- C37: both builders enter auth mode when the labels of `componentMeta` hold the auth key
with the value "true": the Deployment then gains the TLS volume and the Service the
serving-cert annotation and the "https" port at the end. For every other state of the
labels, the key absent or with any other value, every Deployment built has the defaulted
input containers and the input volumes, and every Service built has the annotations of
`componentMeta` untouched and the ports to which auth mode would add the "https" port. -/
theorem auth_flag_exactness :
    (∀ (L : Lib) (K : Constants) (configMapName : String) (cli : Except GoError ConfigMap)
        (componentMeta : ObjectMeta) (componentExt serviceExt : Option ComponentExtensionSpec)
        (podSpec servicePodSpec : PodSpec) (d : Deployment) (svc : Service),
      GoMap.get componentMeta.labels K.ODHKserveRawAuth = some "true" →
      K.ODHKserveRawAuth ≠ "app" →
      createRawDeployment L K configMapName cli componentMeta componentExt podSpec
        = Except.ok d →
      createService K componentMeta serviceExt servicePodSpec = Except.ok svc →
      d.spec.template.spec.volumes = podSpec.volumes ++
        [{ name := "proxy-tls"
           secret := some { secretName := componentMeta.name, defaultMode := some 420 } }] ∧
      GoMap.get svc.meta.annotations "service.beta.openshift.io/serving-cert-secret-name"
        = some componentMeta.name ∧
      svc.spec.ports.getLast? = some
        { name := "https", protocol := "TCP", port := 8443,
          targetPort := { type := IntStrType.string, intVal := 0, strVal := "https" } }) ∧
    (∀ (L : Lib) (K : Constants) (configMapName : String) (cli : Except GoError ConfigMap)
        (componentMeta : ObjectMeta) (componentExt serviceExt : Option ComponentExtensionSpec)
        (podSpec servicePodSpec : PodSpec) (d : Deployment) (svc : Service),
      GoMap.get componentMeta.labels K.ODHKserveRawAuth ≠ some "true" →
      createRawDeployment L K configMapName cli componentMeta componentExt podSpec
        = Except.ok d →
      createService K componentMeta serviceExt servicePodSpec = Except.ok svc →
      d.spec.template.spec.containers = (setDefaultPodSpec K podSpec).containers ∧
      d.spec.template.spec.volumes = podSpec.volumes ∧
      svc.meta.annotations = componentMeta.annotations ∧
      ∀ onLabels : GoMap, GoMap.get onLabels K.ODHKserveRawAuth = some "true" →
        ∃ authSvc : Service,
          createService K { componentMeta with labels := onLabels } serviceExt servicePodSpec
            = Except.ok authSvc ∧
          authSvc.spec.ports = svc.spec.ports ++
            [{ name := "https", protocol := "TCP", port := 8443,
               targetPort :=
                 { type := IntStrType.string, intVal := 0, strVal := "https" } }]) := by
  constructor
  · intro L K configMapName cli componentMeta componentExt serviceExt podSpec servicePodSpec
      d svc hflag hkey hd hs
    obtain ⟨c, err, -, -, hvol⟩ := createRawDeployment_auth_ok L K configMapName cli
      componentMeta componentExt podSpec d hflag hkey hd
    obtain ⟨servicePorts, -, hsvc⟩ :=
      (createService_ok_iff K componentMeta serviceExt servicePodSpec svc).1 hs
    rw [if_pos (authEnabled_eq_true K _ hflag)] at hsvc
    subst hsvc
    refine ⟨hvol, Bindings.get_set_self _ _ _, ?_⟩
    simp [httpsPort, OauthProxyPort, ProtocolTCP]
  · intro L K configMapName cli componentMeta componentExt serviceExt podSpec servicePodSpec
      d svc hoff hd hs
    obtain ⟨labels, ext, injected, hl, -, hinj, hdep⟩ :=
      (createRawDeployment_ok_iff L K configMapName cli componentMeta componentExt podSpec
        d).1 hd
    have hauth := authEnabled_withAppLabel_off K componentMeta labels hl hoff
    simp only [authPodSpec, hauth] at hinj
    have hinjected : injected = setDefaultPodSpec K podSpec := by
      simpa using hinj.symm
    obtain ⟨servicePorts, hports, hsvc⟩ :=
      (createService_ok_iff K componentMeta serviceExt servicePodSpec svc).1 hs
    have ha : ¬ authEnabled K componentMeta.labels = true := by
      simp [authEnabled_eq_false K _ hoff]
    rw [if_neg ha] at hsvc
    subst hdep hinjected hsvc
    refine ⟨?_, ?_, rfl, ?_⟩
    · rw [assembleDeployment_template]
    · rw [assembleDeployment_template, setDefaultPodSpec_eq]
    · intro onLabels hon
      refine ⟨_, (createService_ok_iff K _ serviceExt servicePodSpec _).2
        ⟨servicePorts, ?_, rfl⟩, ?_⟩
      · rw [overriddenServicePorts_labels]
        exact hports
      · rw [if_pos (authEnabled_eq_true K _ hon)]
        rfl

/-- C37, an instance: the label value "True" is not "true"; the Deployment has one
container and no volume, and the Service has no annotation. -/
theorem auth_flag_exactness_witness :
    ∃ (d : Deployment) (svc : Service),
      createRawDeployment demoLib demoConstants "inferenceservice-config"
          (Except.ok testConfigMap)
          { name := "raw-foo-predictor", ns := "default",
            labels := some [("security.opendatahub.io/enable-auth", "True")] }
          (some {}) { containers := [{ name := "kserve-container" }] } = Except.ok d ∧
      createService demoConstants
          { name := "raw-foo-predictor", ns := "default",
            labels := some [("security.opendatahub.io/enable-auth", "True")] }
          (some {}) { containers := [{ name := "kserve-container" }] } = Except.ok svc ∧
      d.spec.template.spec.containers.length = 1 ∧
      d.spec.template.spec.volumes = [] ∧
      svc.meta.annotations = none :=
  match exists_ok_of_isSome
      (createRawDeployment demoLib demoConstants "inferenceservice-config"
        (Except.ok testConfigMap)
        { name := "raw-foo-predictor", ns := "default",
          labels := some [("security.opendatahub.io/enable-auth", "True")] }
        (some {}) { containers := [{ name := "kserve-container" }] }) (by decide),
    exists_ok_of_isSome
      (createService demoConstants
        { name := "raw-foo-predictor", ns := "default",
          labels := some [("security.opendatahub.io/enable-auth", "True")] }
        (some {}) { containers := [{ name := "kserve-container" }] }) (by decide) with
  | ⟨d, hd⟩, ⟨svc, hs⟩ =>
    match auth_flag_exactness.2 demoLib demoConstants "inferenceservice-config"
        (Except.ok testConfigMap)
        { name := "raw-foo-predictor", ns := "default",
          labels := some [("security.opendatahub.io/enable-auth", "True")] }
        (some {}) (some {}) { containers := [{ name := "kserve-container" }] }
        { containers := [{ name := "kserve-container" }] } d svc (by decide) hd hs with
    | ⟨hcont, hvol, hann, _⟩ =>
      ⟨d, svc, hd, hs, by rw [hcont]; rfl, hvol, hann⟩

/-! ## Idempotence and frame of the defaulting -/

theorem setDefaultContainer_idem (K : Constants) (c : Container) :
    setDefaultContainer K (setDefaultContainer K c) = setDefaultContainer K c := by
  obtain ⟨name, image, command, args, ports, resources, liveness, readiness, mounts, path,
    policy, pull, commandNonNil, argsNonNil, portsNonNil, mountsNonNil, other⟩ := c
  by_cases h1 : path = "" <;> by_cases h2 : policy = "" <;> by_cases h3 : pull = "" <;>
    by_cases h4 : name = K.InferenceServiceContainerName ∨ name = K.TransformerContainerName <;>
    cases readiness <;> cases ports <;>
    simp [setDefaultContainer, h1, h2, h3, h4, TerminationMessageReadFile, PullIfNotPresent]

theorem map_setDefaultContainer_idem (K : Constants) (containers : List Container) :
    (containers.map (setDefaultContainer K)).map (setDefaultContainer K)
      = containers.map (setDefaultContainer K) := by
  induction containers with
  | nil => rfl
  | cons c rest ih => simp only [List.map_cons, setDefaultContainer_idem, ih]

theorem setDefaultPodSpec_idem (K : Constants) (podSpec : PodSpec) :
    setDefaultPodSpec K (setDefaultPodSpec K podSpec) = setDefaultPodSpec K podSpec := by
  obtain ⟨containers, volumes, dns, restart, grace, security, scheduler, account,
    containersNonNil, volumesNonNil, other⟩ := podSpec
  by_cases h1 : dns = "" <;> by_cases h2 : restart = "" <;> by_cases h5 : scheduler = "" <;>
    cases grace <;> cases security <;>
    simp [setDefaultPodSpec, h1, h2, h5, DNSClusterFirst, RestartPolicyAlways,
      DefaultTerminationGracePeriodSeconds, DefaultSchedulerName,
      setDefaultContainer_idem]

theorem setDefaultDeploymentSpec_idem (K : Constants) (spec : DeploymentSpec) :
    setDefaultDeploymentSpec K (setDefaultDeploymentSpec K spec)
      = setDefaultDeploymentSpec K spec := by
  rw [setDefaultDeploymentSpec_eq K (setDefaultDeploymentSpec K spec),
    setDefaultDeploymentSpec_eq K spec]
  obtain ⟨replicas, selector, template, ⟨type, rollingUpdate⟩, history, deadline, ready,
    paused⟩ := spec
  by_cases h1 : type = "" <;> by_cases h2 : type = "RollingUpdate" <;>
    cases rollingUpdate <;>
    simp [h1, h2, RollingUpdateDeploymentStrategyType]

/-- C38: applying `setDefaultPodSpec` twice gives what applying it once gives, for every pod
spec, and so does `setDefaultDeploymentSpec` for every Deployment spec. -/
theorem defaulting_idempotent :
    (∀ (K : Constants) (podSpec : PodSpec),
      setDefaultPodSpec K (setDefaultPodSpec K podSpec) = setDefaultPodSpec K podSpec) ∧
    (∀ (K : Constants) (spec : DeploymentSpec),
      setDefaultDeploymentSpec K (setDefaultDeploymentSpec K spec)
        = setDefaultDeploymentSpec K spec) :=
  ⟨setDefaultPodSpec_idem, setDefaultDeploymentSpec_idem⟩

/-- C39: `setDefaultPodSpec` keeps the number and the order of the containers, and for the
container at every index its name, image, command, arguments, declared ports, resources,
liveness probe and volume mounts; it keeps the volumes and the service account name of the
pod spec. The fields left to change are the DNS policy, the restart policy, the termination
grace period, the security context, the scheduler name and, per container, the termination
message path and policy, the image pull policy and the readiness probe: whether a slice
without elements is nil or empty and the fields not carried by name are kept too, for the
pod spec and for each container. -/
theorem setDefaultPodSpec_frame (K : Constants) (podSpec : PodSpec) :
    (setDefaultPodSpec K podSpec).containers.length = podSpec.containers.length ∧
    (setDefaultPodSpec K podSpec).volumes = podSpec.volumes ∧
    (setDefaultPodSpec K podSpec).serviceAccountName = podSpec.serviceAccountName ∧
    (∀ (i : Nat) (c : Container), podSpec.containers[i]? = some c →
      ∃ c1 : Container,
        (setDefaultPodSpec K podSpec).containers[i]? = some c1 ∧
        c1.name = c.name ∧ c1.image = c.image ∧ c1.command = c.command ∧ c1.args = c.args ∧
        c1.ports = c.ports ∧ c1.resources = c.resources ∧
        c1.livenessProbe = c.livenessProbe ∧ c1.volumeMounts = c.volumeMounts ∧
        c1.commandNonNil = c.commandNonNil ∧ c1.argsNonNil = c.argsNonNil ∧
        c1.portsNonNil = c.portsNonNil ∧ c1.volumeMountsNonNil = c.volumeMountsNonNil ∧
        c1.otherFields = c.otherFields) ∧
    (setDefaultPodSpec K podSpec).containersNonNil = podSpec.containersNonNil ∧
    (setDefaultPodSpec K podSpec).volumesNonNil = podSpec.volumesNonNil ∧
    (setDefaultPodSpec K podSpec).otherFields = podSpec.otherFields := by
  refine ⟨?_, ?_, ?_, ?_, ?_, ?_, ?_⟩
  · rw [setDefaultPodSpec_containers, List.length_map]
  · rw [setDefaultPodSpec_eq]
  · rw [setDefaultPodSpec_eq]
  · intro i c hc
    refine ⟨setDefaultContainer K c, setDefaultPodSpec_getElem K podSpec i c hc, ?_⟩
    rw [setDefaultContainer_eq]
    exact ⟨rfl, rfl, rfl, rfl, rfl, rfl, rfl, rfl, rfl, rfl, rfl, rfl, rfl⟩
  · rw [setDefaultPodSpec_eq]
  · rw [setDefaultPodSpec_eq]
  · rw [setDefaultPodSpec_eq]

/-- C39, an instance: a pod spec with two containers, a volume and a service account. -/
theorem setDefaultPodSpec_frame_witness :
    (setDefaultPodSpec demoConstants
        { containers :=
            [{ name := "kserve-container", image := "tensorflow/serving:1.14.0",
               args := ["--port=9000"] },
             { name := "sidecar", image := "busybox" }]
          volumes := [{ name := "model-store" }]
          serviceAccountName := "custom-sa" }).volumes = [{ name := "model-store" }] ∧
    ∃ c1 : Container,
      (setDefaultPodSpec demoConstants
          { containers :=
              [{ name := "kserve-container", image := "tensorflow/serving:1.14.0",
                 args := ["--port=9000"] },
               { name := "sidecar", image := "busybox" }]
            volumes := [{ name := "model-store" }]
            serviceAccountName := "custom-sa" }).containers[1]? = some c1 ∧
      c1.name = "sidecar" ∧ c1.image = "busybox" :=
  match setDefaultPodSpec_frame demoConstants
      { containers :=
          [{ name := "kserve-container", image := "tensorflow/serving:1.14.0",
             args := ["--port=9000"] },
           { name := "sidecar", image := "busybox" }]
        volumes := [{ name := "model-store" }]
        serviceAccountName := "custom-sa" } with
  | ⟨_, hvol, _, hcontainers, _⟩ =>
    ⟨hvol,
      match hcontainers 1 { name := "sidecar", image := "busybox" } rfl with
      | ⟨c1, hget, hname, himage, _⟩ => ⟨c1, hget, hname, himage⟩⟩

end KServe
